import Mathlib

/-!
# Command decoding and persistent render state of `rdp_device.cpp`

A shallow embedding of the command processor of `parallel-rdp`
(`src/parallel-rdp/rdp_device.cpp`): the bit-field decoders, the mode-setting handlers that
mutate the persistent render state, and the opcode dispatcher.

Conventions of the embedding.

* `uint32_t` values are natural numbers, `int32_t` values are integers; every place where the
  C++ code truncates or reinterprets a value is an explicit function (`int32_t`, `sext`, `% 2 ^ 32`).
* `const uint32_t *words` is a function from the index to the word; `words + k` is `shift words k`.
* The enumerators and flag masks that the file takes from `rdp_common.hpp` and
  `rdp_data_structures.hpp` are not part of the translated source.  They are the fields of
  `Consts`, a parameter of every function that uses one, and the theorems state what they need
  of them as hypotheses (masks of one flag word are non-zero and pairwise disjoint, the
  enumerators of one `switch` are distinct).
* The calls into the renderer and into the timeline worker are recorded as a list of `Effect`s.
* The triangle handlers are also given on a command window of known length, where every
  `words[i]` is a read that fails outside the window (`Checked`), to state which words a
  handler reads.
-/

namespace RDP

/-! ## Constants of the headers -/

/-- The enumerators and flag masks used by `rdp_device.cpp` whose values are declared in headers
outside the translated file. -/
structure Consts where
  RASTERIZATION_INTERLACE_FIELD_BIT : Nat
  RASTERIZATION_INTERLACE_KEEP_ODD_BIT : Nat
  RASTERIZATION_PERSPECTIVE_CORRECT_BIT : Nat
  RASTERIZATION_DETAIL_LOD_ENABLE_BIT : Nat
  RASTERIZATION_SHARPEN_LOD_ENABLE_BIT : Nat
  RASTERIZATION_TEX_LOD_ENABLE_BIT : Nat
  RASTERIZATION_TLUT_BIT : Nat
  RASTERIZATION_TLUT_TYPE_BIT : Nat
  RASTERIZATION_SAMPLE_MODE_BIT : Nat
  RASTERIZATION_SAMPLE_MID_TEXEL_BIT : Nat
  RASTERIZATION_ALPHA_CVG_SELECT_BIT : Nat
  RASTERIZATION_CVG_TIMES_ALPHA_BIT : Nat
  RASTERIZATION_AA_BIT : Nat
  RASTERIZATION_ALPHA_TEST_DITHER_BIT : Nat
  RASTERIZATION_ALPHA_TEST_BIT : Nat
  RASTERIZATION_MULTI_CYCLE_BIT : Nat
  RASTERIZATION_FILL_BIT : Nat
  RASTERIZATION_COPY_BIT : Nat
  DEPTH_BLEND_FORCE_BLEND_BIT : Nat
  DEPTH_BLEND_COLOR_ON_COVERAGE_BIT : Nat
  DEPTH_BLEND_IMAGE_READ_ENABLE_BIT : Nat
  DEPTH_BLEND_DEPTH_UPDATE_BIT : Nat
  DEPTH_BLEND_DEPTH_TEST_BIT : Nat
  DEPTH_BLEND_AA_BIT : Nat
  DEPTH_BLEND_DITHER_ENABLE_BIT : Nat
  DEPTH_BLEND_MULTI_CYCLE_BIT : Nat
  TRIANGLE_SETUP_FLIP_BIT : Nat
  TRIANGLE_SETUP_DO_OFFSET_BIT : Nat
  TRIANGLE_SETUP_SKIP_XFRAC_BIT : Nat
  TILE_INFO_MIRROR_S_BIT : Nat
  TILE_INFO_CLAMP_S_BIT : Nat
  TILE_INFO_MIRROR_T_BIT : Nat
  TILE_INFO_CLAMP_T_BIT : Nat
  CycleType_Cycle2 : Nat
  CycleType_Fill : Nat
  CycleType_Copy : Nat
  RGBDitherMode_Off : Nat
  Op_MetaSignalTimeline : Nat
  Op_MetaFlush : Nat
  deriving DecidableEq

/-- The masks of one flag word: none is zero and no two share a bit. -/
def FlagMasks (l : List Nat) : Prop :=
  (∀ m ∈ l, m ≠ 0) ∧ l.Pairwise (fun a b => a &&& b = 0)

instance (l : List Nat) : Decidable (FlagMasks l) := by
  unfold FlagMasks
  infer_instance

/-- The eighteen rasterization flag masks used by the command handlers. -/
def Consts.rasterMasks (c : Consts) : List Nat :=
  [c.RASTERIZATION_INTERLACE_FIELD_BIT, c.RASTERIZATION_INTERLACE_KEEP_ODD_BIT,
   c.RASTERIZATION_PERSPECTIVE_CORRECT_BIT, c.RASTERIZATION_DETAIL_LOD_ENABLE_BIT,
   c.RASTERIZATION_SHARPEN_LOD_ENABLE_BIT, c.RASTERIZATION_TEX_LOD_ENABLE_BIT,
   c.RASTERIZATION_TLUT_BIT, c.RASTERIZATION_TLUT_TYPE_BIT,
   c.RASTERIZATION_SAMPLE_MODE_BIT, c.RASTERIZATION_SAMPLE_MID_TEXEL_BIT,
   c.RASTERIZATION_ALPHA_CVG_SELECT_BIT, c.RASTERIZATION_CVG_TIMES_ALPHA_BIT,
   c.RASTERIZATION_AA_BIT, c.RASTERIZATION_ALPHA_TEST_DITHER_BIT,
   c.RASTERIZATION_ALPHA_TEST_BIT, c.RASTERIZATION_MULTI_CYCLE_BIT,
   c.RASTERIZATION_FILL_BIT, c.RASTERIZATION_COPY_BIT]

/-- The eight depth/blend flag masks used by the command handlers. -/
def Consts.depthBlendMasks (c : Consts) : List Nat :=
  [c.DEPTH_BLEND_FORCE_BLEND_BIT, c.DEPTH_BLEND_COLOR_ON_COVERAGE_BIT,
   c.DEPTH_BLEND_IMAGE_READ_ENABLE_BIT, c.DEPTH_BLEND_DEPTH_UPDATE_BIT,
   c.DEPTH_BLEND_DEPTH_TEST_BIT, c.DEPTH_BLEND_AA_BIT,
   c.DEPTH_BLEND_DITHER_ENABLE_BIT, c.DEPTH_BLEND_MULTI_CYCLE_BIT]

/-- The three triangle-setup flag masks. -/
def Consts.triangleMasks (c : Consts) : List Nat :=
  [c.TRIANGLE_SETUP_FLIP_BIT, c.TRIANGLE_SETUP_DO_OFFSET_BIT, c.TRIANGLE_SETUP_SKIP_XFRAC_BIT]

/-- The four tile-info flag masks. -/
def Consts.tileMasks (c : Consts) : List Nat :=
  [c.TILE_INFO_MIRROR_S_BIT, c.TILE_INFO_CLAMP_S_BIT,
   c.TILE_INFO_MIRROR_T_BIT, c.TILE_INFO_CLAMP_T_BIT]

/-- The rasterization flag masks are well formed. -/
def Consts.RasterWF (c : Consts) : Prop := FlagMasks c.rasterMasks

instance (c : Consts) : Decidable c.RasterWF := by
  unfold Consts.RasterWF
  infer_instance

/-- The depth/blend flag masks are well formed. -/
def Consts.DepthBlendWF (c : Consts) : Prop := FlagMasks c.depthBlendMasks

instance (c : Consts) : Decidable c.DepthBlendWF := by
  unfold Consts.DepthBlendWF
  infer_instance

/-- The triangle-setup flag masks are well formed. -/
def Consts.TriangleWF (c : Consts) : Prop := FlagMasks c.triangleMasks

instance (c : Consts) : Decidable c.TriangleWF := by
  unfold Consts.TriangleWF
  infer_instance

/-- The tile-info flag masks are well formed. -/
def Consts.TileWF (c : Consts) : Prop := FlagMasks c.tileMasks

instance (c : Consts) : Decidable c.TileWF := by
  unfold Consts.TileWF
  infer_instance

/-- The three `CycleType` enumerators that label the cases of the `switch` in
`op_set_other_modes` are distinct (C++ rejects duplicate case labels). -/
def Consts.CycleWF (c : Consts) : Prop :=
  c.CycleType_Cycle2 ≠ c.CycleType_Fill ∧ c.CycleType_Cycle2 ≠ c.CycleType_Copy ∧
    c.CycleType_Fill ≠ c.CycleType_Copy

instance (c : Consts) : Decidable c.CycleWF := by
  unfold Consts.CycleWF
  infer_instance

/-- One admissible assignment of the header constants: every mask a single bit, distinct within
its flag word, and the two meta opcodes at 1 and 2, values that have no slot in the handler
table.  It instantiates the theorems below at concrete inputs. -/
def sampleConsts : Consts where
  RASTERIZATION_INTERLACE_FIELD_BIT := 1
  RASTERIZATION_INTERLACE_KEEP_ODD_BIT := 2
  RASTERIZATION_AA_BIT := 4
  RASTERIZATION_PERSPECTIVE_CORRECT_BIT := 8
  RASTERIZATION_TLUT_BIT := 16
  RASTERIZATION_TLUT_TYPE_BIT := 32
  RASTERIZATION_CVG_TIMES_ALPHA_BIT := 64
  RASTERIZATION_ALPHA_CVG_SELECT_BIT := 128
  RASTERIZATION_MULTI_CYCLE_BIT := 256
  RASTERIZATION_TEX_LOD_ENABLE_BIT := 512
  RASTERIZATION_SHARPEN_LOD_ENABLE_BIT := 1024
  RASTERIZATION_DETAIL_LOD_ENABLE_BIT := 2048
  RASTERIZATION_FILL_BIT := 4096
  RASTERIZATION_COPY_BIT := 8192
  RASTERIZATION_SAMPLE_MODE_BIT := 16384
  RASTERIZATION_ALPHA_TEST_BIT := 32768
  RASTERIZATION_ALPHA_TEST_DITHER_BIT := 65536
  RASTERIZATION_SAMPLE_MID_TEXEL_BIT := 131072
  DEPTH_BLEND_DEPTH_TEST_BIT := 1
  DEPTH_BLEND_DEPTH_UPDATE_BIT := 2
  DEPTH_BLEND_FORCE_BLEND_BIT := 8
  DEPTH_BLEND_IMAGE_READ_ENABLE_BIT := 16
  DEPTH_BLEND_COLOR_ON_COVERAGE_BIT := 32
  DEPTH_BLEND_MULTI_CYCLE_BIT := 64
  DEPTH_BLEND_AA_BIT := 128
  DEPTH_BLEND_DITHER_ENABLE_BIT := 256
  TRIANGLE_SETUP_FLIP_BIT := 1
  TRIANGLE_SETUP_DO_OFFSET_BIT := 2
  TRIANGLE_SETUP_SKIP_XFRAC_BIT := 4
  TILE_INFO_CLAMP_S_BIT := 1
  TILE_INFO_MIRROR_S_BIT := 2
  TILE_INFO_CLAMP_T_BIT := 4
  TILE_INFO_MIRROR_T_BIT := 8
  CycleType_Cycle2 := 1
  CycleType_Copy := 2
  CycleType_Fill := 3
  RGBDitherMode_Off := 3
  Op_MetaSignalTimeline := 1
  Op_MetaFlush := 2

/-! ## Machine integers -/

/-- Conversion of an integer value to `int32_t`: its residue modulo `2 ^ 32` read as two's
complement. -/
def int32_t (v : Int) : Int := (v + 2 ^ 31) % 2 ^ 32 - 2 ^ 31

/-- The implicit conversion of a `uint32_t` value to `int32_t`. -/
def i32 (n : Nat) : Int := int32_t (n : Int)

/-- The shift `v << k` of an `uint32_t`: the bits pushed beyond bit 31 are lost. -/
def shl32 (v k : Nat) : Nat := (v <<< k) % 2 ^ 32

/-- The shift `v << k` of an `int32_t`, as two's-complement hardware computes it. -/
def shl_i32 (v : Int) (k : Nat) : Int := int32_t (v * 2 ^ k)

/-- Conversion of a natural number to `bool`. -/
def bool (n : Nat) : Bool := n != 0

/-- The pointer `words`: the index of a word to its 32-bit value. -/
abbrev Words := Nat → Nat

/-- The pointer `words + k`. -/
def shift (words : Words) (k : Nat) : Words := fun i => words (k + i)

/-- The words are `uint32_t` values. -/
def Words32 (words : Words) : Prop := ∀ i, words i < 2 ^ 32

/-- The expression `flag & ~mask` of an unsigned flag word: the bits of `flag` that are in
`mask` are switched off.  Written with the operations that exist on natural numbers, where
there is no width to complement in; `clear_bits_eq_ldiff` identifies it with and-not. -/
def clear_bits (flag mask : Nat) : Nat := flag ^^^ (flag &&& mask)

/-- The macro `STATE_MASK(flag, cond, mask)`: `flag &= ~mask; if (cond) flag |= mask;`. -/
def STATE_MASK (flag : Nat) (cond : Bool) (mask : Nat) : Nat :=
  let flag := clear_bits flag mask
  if cond then flag ||| mask else flag

/-- The template `sext<bits>(int32_t v)`: `v` is stored in a signed bit-field of `bits` bits,
which keeps its low `bits` bits, and read back, which extends bit `bits - 1` upward. -/
def sext (bits : Nat) (v : Int) : Int :=
  let d := v % 2 ^ bits
  if d < 2 ^ (bits - 1) then d else d - 2 ^ bits

/-! ## Decoded records -/

/-- The record `TriangleSetup`. -/
structure TriangleSetup where
  xh : Int := 0
  xm : Int := 0
  xl : Int := 0
  yh : Int := 0
  ym : Int := 0
  dxhdy : Int := 0
  dxmdy : Int := 0
  dxldy : Int := 0
  yl : Int := 0
  flags : Nat := 0
  tile : Nat := 0
  deriving DecidableEq

/-- The record `AttributeSetup`; each field is an `int32_t`. -/
structure AttributeSetup where
  r : Int := 0
  g : Int := 0
  b : Int := 0
  a : Int := 0
  drdx : Int := 0
  dgdx : Int := 0
  dbdx : Int := 0
  dadx : Int := 0
  drde : Int := 0
  dgde : Int := 0
  dbde : Int := 0
  dade : Int := 0
  drdy : Int := 0
  dgdy : Int := 0
  dbdy : Int := 0
  dady : Int := 0
  s : Int := 0
  t : Int := 0
  z : Int := 0
  w : Int := 0
  dsdx : Int := 0
  dtdx : Int := 0
  dzdx : Int := 0
  dwdx : Int := 0
  dsde : Int := 0
  dtde : Int := 0
  dzde : Int := 0
  dwde : Int := 0
  dsdy : Int := 0
  dtdy : Int := 0
  dzdy : Int := 0
  dwdy : Int := 0
  deriving DecidableEq

/-! ## Bit-field decoders -/

/-- The function `decode_triangle_setup(setup, words, copy_cycle)`. -/
def decode_triangle_setup (c : Consts) (setup : TriangleSetup) (words : Words)
    (copy_cycle : Bool) : TriangleSetup :=
  let flip : Bool := (words 0 &&& 0x800000) != 0
  let sign_dxhdy : Bool := (words 5 &&& 0x80000000) != 0
  let do_offset : Bool := flip == sign_dxhdy
  let flags := setup.flags ||| (if flip then c.TRIANGLE_SETUP_FLIP_BIT else 0)
  let flags := flags ||| (if do_offset then c.TRIANGLE_SETUP_DO_OFFSET_BIT else 0)
  let flags := flags ||| (if copy_cycle then c.TRIANGLE_SETUP_SKIP_XFRAC_BIT else 0)
  { setup with
    flags := flags
    tile := (words 0 >>> 16) &&& 63
    yl := sext 14 (i32 (words 0))
    ym := sext 14 (i32 (words 1 >>> 16))
    yh := sext 14 (i32 (words 1))
    xl := Int.land (sext 28 (i32 (words 2))) (~~~1)
    xh := Int.land (sext 28 (i32 (words 4))) (~~~1)
    xm := Int.land (sext 28 (i32 (words 6))) (~~~1)
    dxldy := Int.land (sext 28 (i32 (words 3 >>> 2))) (~~~1)
    dxhdy := Int.land (sext 28 (i32 (words 5 >>> 2))) (~~~1)
    dxmdy := Int.land (sext 28 (i32 (words 7 >>> 2))) (~~~1) }

/-- The function `decode_tex_setup(attr, words)`. -/
def decode_tex_setup (attr : AttributeSetup) (words : Words) : AttributeSetup :=
  { attr with
    s := i32 ((words 0 &&& 0xffff0000) ||| ((words 4 >>> 16) &&& 0x0000ffff))
    t := i32 ((shl32 (words 0) 16 &&& 0xffff0000) ||| (words 4 &&& 0x0000ffff))
    w := i32 ((words 1 &&& 0xffff0000) ||| ((words 5 >>> 16) &&& 0x0000ffff))
    dsdx := i32 ((words 2 &&& 0xffff0000) ||| ((words 6 >>> 16) &&& 0x0000ffff))
    dtdx := i32 ((shl32 (words 2) 16 &&& 0xffff0000) ||| (words 6 &&& 0x0000ffff))
    dwdx := i32 ((words 3 &&& 0xffff0000) ||| ((words 7 >>> 16) &&& 0x0000ffff))
    dsde := i32 ((words 8 &&& 0xffff0000) ||| ((words 12 >>> 16) &&& 0x0000ffff))
    dtde := i32 ((shl32 (words 8) 16 &&& 0xffff0000) ||| (words 12 &&& 0x0000ffff))
    dwde := i32 ((words 9 &&& 0xffff0000) ||| ((words 13 >>> 16) &&& 0x0000ffff))
    dsdy := i32 ((words 10 &&& 0xffff0000) ||| ((words 14 >>> 16) &&& 0x0000ffff))
    dtdy := i32 ((shl32 (words 10) 16 &&& 0xffff0000) ||| (words 14 &&& 0x0000ffff))
    dwdy := i32 ((words 11 &&& 0xffff0000) ||| ((words 15 >>> 16) &&& 0x0000ffff)) }

/-- The function `decode_rgba_setup(attr, words)`. -/
def decode_rgba_setup (attr : AttributeSetup) (words : Words) : AttributeSetup :=
  { attr with
    r := i32 ((words 0 &&& 0xffff0000) ||| ((words 4 >>> 16) &&& 0xffff))
    g := i32 (shl32 (words 0) 16 ||| (words 4 &&& 0xffff))
    b := i32 ((words 1 &&& 0xffff0000) ||| ((words 5 >>> 16) &&& 0xffff))
    a := i32 (shl32 (words 1) 16 ||| (words 5 &&& 0xffff))
    drdx := i32 ((words 2 &&& 0xffff0000) ||| ((words 6 >>> 16) &&& 0xffff))
    dgdx := i32 (shl32 (words 2) 16 ||| (words 6 &&& 0xffff))
    dbdx := i32 ((words 3 &&& 0xffff0000) ||| ((words 7 >>> 16) &&& 0xffff))
    dadx := i32 (shl32 (words 3) 16 ||| (words 7 &&& 0xffff))
    drde := i32 ((words 8 &&& 0xffff0000) ||| ((words 12 >>> 16) &&& 0xffff))
    dgde := i32 (shl32 (words 8) 16 ||| (words 12 &&& 0xffff))
    dbde := i32 ((words 9 &&& 0xffff0000) ||| ((words 13 >>> 16) &&& 0xffff))
    dade := i32 (shl32 (words 9) 16 ||| (words 13 &&& 0xffff))
    drdy := i32 ((words 10 &&& 0xffff0000) ||| ((words 14 >>> 16) &&& 0xffff))
    dgdy := i32 (shl32 (words 10) 16 ||| (words 14 &&& 0xffff))
    dbdy := i32 ((words 11 &&& 0xffff0000) ||| ((words 15 >>> 16) &&& 0xffff))
    dady := i32 (shl32 (words 11) 16 ||| (words 15 &&& 0xffff)) }

/-- The function `decode_z_setup(attr, words)`. -/
def decode_z_setup (attr : AttributeSetup) (words : Words) : AttributeSetup :=
  { attr with
    z := i32 (words 0)
    dzdx := i32 (words 1)
    dzde := i32 (words 2)
    dzdy := i32 (words 3) }

/-! ## Persistent render state -/

/-- The RGB selectors of one combiner stage. -/
structure CombinerInputsRGB where
  muladd : Nat := 0
  mulsub : Nat := 0
  mul : Nat := 0
  add : Nat := 0
  deriving DecidableEq

/-- The alpha selectors of one combiner stage. -/
structure CombinerInputsAlpha where
  muladd : Nat := 0
  mulsub : Nat := 0
  mul : Nat := 0
  add : Nat := 0
  deriving DecidableEq

/-- One stage of the colour combiner, an element of `static_state.combiner`. -/
structure CombinerInputs where
  rgb : CombinerInputsRGB := {}
  alpha : CombinerInputsAlpha := {}
  deriving DecidableEq

/-- The member `static_state`; `combiner0` and `combiner1` are `combiner[0]` and `combiner[1]`. -/
@[ext]
structure StaticRasterizationState where
  combiner0 : CombinerInputs := {}
  combiner1 : CombinerInputs := {}
  flags : Nat := 0
  dither : Nat := 0
  deriving DecidableEq

/-- The blend selectors of one cycle, an element of `depth_blend.blend_cycles`. -/
structure BlendModes where
  blend_1a : Nat := 0
  blend_1b : Nat := 0
  blend_2a : Nat := 0
  blend_2b : Nat := 0
  deriving DecidableEq

/-- The member `depth_blend`; `blend_cycles0` and `blend_cycles1` are `blend_cycles[0]` and
`blend_cycles[1]`. -/
@[ext]
structure DepthBlendState where
  blend_cycles0 : BlendModes := {}
  blend_cycles1 : BlendModes := {}
  flags : Nat := 0
  coverage_mode : Nat := 0
  z_mode : Nat := 0
  deriving DecidableEq

/-- The member `scissor_state`. -/
structure ScissorState where
  xlo : Nat := 0
  ylo : Nat := 0
  xhi : Nat := 0
  yhi : Nat := 0
  deriving DecidableEq

/-- The member `texture_image`. -/
structure TextureImage where
  addr : Nat := 0
  width : Nat := 0
  fmt : Nat := 0
  size : Nat := 0
  deriving DecidableEq

/-- The members of `CommandProcessor` that the command handlers read and write: the
persistent render state. -/
@[ext]
structure CommandProcessor where
  static_state : StaticRasterizationState := {}
  depth_blend : DepthBlendState := {}
  scissor_state : ScissorState := {}
  texture_image : TextureImage := {}
  deriving DecidableEq

/-! ## What the handlers forward -/

/-- The enumeration `FBFormat`, as far as `op_set_color_image` names it. -/
inductive FBFormat
  | I4
  | I8
  | RGBA5551
  | IA88
  | RGBA8888
  deriving DecidableEq

/-- The enumeration `UploadMode`. -/
inductive UploadMode
  | Tile
  | TLUT
  | Block
  deriving DecidableEq

/-- The record `TileMeta`. -/
structure TileMeta where
  offset : Nat := 0
  stride : Nat := 0
  fmt : Nat := 0
  size : Nat := 0
  palette : Nat := 0
  mask_s : Nat := 0
  shift_s : Nat := 0
  mask_t : Nat := 0
  shift_t : Nat := 0
  flags : Nat := 0
  deriving DecidableEq

/-- The record `LoadTileInfo`. -/
structure LoadTileInfo where
  tex_addr : Nat := 0
  tex_width : Nat := 0
  fmt : Nat := 0
  size : Nat := 0
  slo : Nat := 0
  tlo : Nat := 0
  shi : Nat := 0
  thi : Nat := 0
  mode : UploadMode := UploadMode.Tile
  deriving DecidableEq

/-- One call that a handler makes out of the command processor: a method of the renderer, a
push to the timeline worker, or the error log. -/
inductive Effect
  | flush
  | flush_and_signal
  | draw_flat_primitive (setup : TriangleSetup)
  | draw_shaded_primitive (setup : TriangleSetup) (attr : AttributeSetup)
  | set_color_framebuffer (addr width : Nat) (fbfmt : FBFormat)
  | set_depth_framebuffer (addr : Nat)
  | set_scissor_state (state : ScissorState)
  | set_static_rasterization_state (state : StaticRasterizationState)
  | set_depth_blend_state (state : DepthBlendState)
  | set_enable_primitive_depth (enable : Bool)
  | set_tile (tile : Nat) (info : TileMeta)
  | load_tile (tile : Nat) (info : LoadTileInfo)
  | set_tile_size (tile slo shi tlo thi : Nat)
  | set_blend_color (color : Nat)
  | set_env_color (color : Nat)
  | set_fog_color (color : Nat)
  | set_primitive_color (min_level level_frac color : Nat)
  | set_fill_color (color : Nat)
  | set_primitive_depth (z dz : Nat)
  | set_convert (k0 k1 k2 k3 k4 k5 : Nat)
  | timeline_worker_push (val : Nat)
  | LOGE (size : Nat)
  deriving DecidableEq

/-- A command handler: the state before and the command words to the state after and the calls
made, in order. -/
abbrev CommandFunc := CommandProcessor → Words → CommandProcessor × List Effect

/-! ## Command handlers -/

/-- The expression `(static_state.flags & RASTERIZATION_COPY_BIT) != 0`. -/
def copy_cycle (c : Consts) (p : CommandProcessor) : Bool :=
  (p.static_state.flags &&& c.RASTERIZATION_COPY_BIT) != 0

/-- The handler `op_sync_full`. -/
def op_sync_full : CommandFunc := fun p _ => (p, [Effect.flush])

/-- The handler `op_fill_triangle`. -/
def op_fill_triangle (c : Consts) : CommandFunc := fun p words =>
  let setup : TriangleSetup := {}
  let setup := decode_triangle_setup c setup words (copy_cycle c p)
  (p, [Effect.draw_flat_primitive setup])

/-- The handler `op_shade_triangle`. -/
def op_shade_triangle (c : Consts) : CommandFunc := fun p words =>
  let setup : TriangleSetup := {}
  let attr : AttributeSetup := {}
  let setup := decode_triangle_setup c setup words (copy_cycle c p)
  let attr := decode_rgba_setup attr (shift words 8)
  (p, [Effect.draw_shaded_primitive setup attr])

/-- The handler `op_shade_z_buffer_triangle`. -/
def op_shade_z_buffer_triangle (c : Consts) : CommandFunc := fun p words =>
  let setup : TriangleSetup := {}
  let attr : AttributeSetup := {}
  let setup := decode_triangle_setup c setup words (copy_cycle c p)
  let attr := decode_rgba_setup attr (shift words 8)
  let attr := decode_z_setup attr (shift words 24)
  (p, [Effect.draw_shaded_primitive setup attr])

/-- The handler `op_shade_texture_z_buffer_triangle`. -/
def op_shade_texture_z_buffer_triangle (c : Consts) : CommandFunc := fun p words =>
  let setup : TriangleSetup := {}
  let attr : AttributeSetup := {}
  let setup := decode_triangle_setup c setup words (copy_cycle c p)
  let attr := decode_rgba_setup attr (shift words 8)
  let attr := decode_tex_setup attr (shift words 24)
  let attr := decode_z_setup attr (shift words 40)
  (p, [Effect.draw_shaded_primitive setup attr])

/-- The handler `op_fill_z_buffer_triangle`. -/
def op_fill_z_buffer_triangle (c : Consts) : CommandFunc := fun p words =>
  let setup : TriangleSetup := {}
  let attr : AttributeSetup := {}
  let setup := decode_triangle_setup c setup words (copy_cycle c p)
  let attr := decode_z_setup attr (shift words 8)
  (p, [Effect.draw_shaded_primitive setup attr])

/-- The handler `op_texture_triangle`. -/
def op_texture_triangle (c : Consts) : CommandFunc := fun p words =>
  let setup : TriangleSetup := {}
  let attr : AttributeSetup := {}
  let setup := decode_triangle_setup c setup words (copy_cycle c p)
  let attr := decode_tex_setup attr (shift words 8)
  (p, [Effect.draw_shaded_primitive setup attr])

/-- The handler `op_texture_z_buffer_triangle`. -/
def op_texture_z_buffer_triangle (c : Consts) : CommandFunc := fun p words =>
  let setup : TriangleSetup := {}
  let attr : AttributeSetup := {}
  let setup := decode_triangle_setup c setup words (copy_cycle c p)
  let attr := decode_tex_setup attr (shift words 8)
  let attr := decode_z_setup attr (shift words 24)
  (p, [Effect.draw_shaded_primitive setup attr])

/-- The handler `op_shade_texture_triangle`. -/
def op_shade_texture_triangle (c : Consts) : CommandFunc := fun p words =>
  let setup : TriangleSetup := {}
  let attr : AttributeSetup := {}
  let setup := decode_triangle_setup c setup words (copy_cycle c p)
  let attr := decode_rgba_setup attr (shift words 8)
  let attr := decode_tex_setup attr (shift words 24)
  (p, [Effect.draw_shaded_primitive setup attr])

/-- The handler `op_set_color_image`.  The `switch (size)` assigns `fbfmt` in its four cases;
its `default` logs and returns. -/
def op_set_color_image : CommandFunc := fun p words =>
  let fmt := (words 0 >>> 21) &&& 7
  let size := (words 0 >>> 19) &&& 3
  let width := (words 0 &&& 1023) + 1
  let addr := words 1 &&& 0xffffff
  let fbfmt : Option FBFormat :=
    match size with
    | 0 => some FBFormat.I4
    | 1 => some FBFormat.I8
    | 2 => some (if fmt != 0 then FBFormat.IA88 else FBFormat.RGBA5551)
    | 3 => some FBFormat.RGBA8888
    | _ => none
  match fbfmt with
  | none => (p, [Effect.LOGE size])
  | some fbfmt => (p, [Effect.set_color_framebuffer addr width fbfmt])

/-- The handler `op_set_mask_image`. -/
def op_set_mask_image : CommandFunc := fun p words =>
  let addr := words 1 &&& 0xffffff
  (p, [Effect.set_depth_framebuffer addr])

/-- The handler `op_set_scissor`. -/
def op_set_scissor (c : Consts) : CommandFunc := fun p words =>
  let scissor_state : ScissorState :=
    { p.scissor_state with
      xlo := (words 0 >>> 12) &&& 0xfff
      xhi := (words 1 >>> 12) &&& 0xfff
      ylo := (words 0 >>> 0) &&& 0xfff
      yhi := (words 1 >>> 0) &&& 0xfff }
  let flags := p.static_state.flags
  let flags := STATE_MASK flags (bool (words 1 &&& (1 <<< 25))) c.RASTERIZATION_INTERLACE_FIELD_BIT
  let flags := STATE_MASK flags (bool (words 1 &&& (1 <<< 24))) c.RASTERIZATION_INTERLACE_KEEP_ODD_BIT
  let static_state : StaticRasterizationState := { p.static_state with flags := flags }
  ({ p with scissor_state := scissor_state, static_state := static_state },
    [Effect.set_scissor_state scissor_state, Effect.set_static_rasterization_state static_state])

/-- The handler `op_set_other_modes`.  `sf` is `static_state.flags` and `df` is
`depth_blend.flags`; each line is the statement of the source at the same place. -/
def op_set_other_modes (c : Consts) : CommandFunc := fun p words =>
  let sf := p.static_state.flags
  let df := p.depth_blend.flags
  let sf := STATE_MASK sf (bool (words 0 &&& (1 <<< 19))) c.RASTERIZATION_PERSPECTIVE_CORRECT_BIT
  let sf := STATE_MASK sf (bool (words 0 &&& (1 <<< 18))) c.RASTERIZATION_DETAIL_LOD_ENABLE_BIT
  let sf := STATE_MASK sf (bool (words 0 &&& (1 <<< 17))) c.RASTERIZATION_SHARPEN_LOD_ENABLE_BIT
  let sf := STATE_MASK sf (bool (words 0 &&& (1 <<< 16))) c.RASTERIZATION_TEX_LOD_ENABLE_BIT
  let sf := STATE_MASK sf (bool (words 0 &&& (1 <<< 15))) c.RASTERIZATION_TLUT_BIT
  let sf := STATE_MASK sf (bool (words 0 &&& (1 <<< 14))) c.RASTERIZATION_TLUT_TYPE_BIT
  let sf := STATE_MASK sf (bool (words 0 &&& (1 <<< 13))) c.RASTERIZATION_SAMPLE_MODE_BIT
  let sf := STATE_MASK sf (bool (words 0 &&& (1 <<< 12))) c.RASTERIZATION_SAMPLE_MID_TEXEL_BIT
  let df := STATE_MASK df (bool (words 1 &&& (1 <<< 14))) c.DEPTH_BLEND_FORCE_BLEND_BIT
  let sf := STATE_MASK sf (bool (words 1 &&& (1 <<< 13))) c.RASTERIZATION_ALPHA_CVG_SELECT_BIT
  let sf := STATE_MASK sf (bool (words 1 &&& (1 <<< 12))) c.RASTERIZATION_CVG_TIMES_ALPHA_BIT
  let df := STATE_MASK df (bool (words 1 &&& (1 <<< 7))) c.DEPTH_BLEND_COLOR_ON_COVERAGE_BIT
  let df := STATE_MASK df (bool (words 1 &&& (1 <<< 6))) c.DEPTH_BLEND_IMAGE_READ_ENABLE_BIT
  let df := STATE_MASK df (bool (words 1 &&& (1 <<< 5))) c.DEPTH_BLEND_DEPTH_UPDATE_BIT
  let df := STATE_MASK df (bool (words 1 &&& (1 <<< 4))) c.DEPTH_BLEND_DEPTH_TEST_BIT
  let sf := STATE_MASK sf (bool (words 1 &&& (1 <<< 3))) c.RASTERIZATION_AA_BIT
  let df := STATE_MASK df (bool (words 1 &&& (1 <<< 3))) c.DEPTH_BLEND_AA_BIT
  let sf := STATE_MASK sf (bool (words 1 &&& (1 <<< 1))) c.RASTERIZATION_ALPHA_TEST_DITHER_BIT
  let sf := STATE_MASK sf (bool (words 1 &&& (1 <<< 0))) c.RASTERIZATION_ALPHA_TEST_BIT
  let dither := (words 0 >>> 4) &&& 0x0f
  let df := STATE_MASK df ((dither >>> 2) != c.RGBDitherMode_Off) c.DEPTH_BLEND_DITHER_ENABLE_BIT
  let coverage_mode := (words 1 >>> 8) &&& 3
  let z_mode := (words 1 >>> 10) &&& 3
  let sf := clear_bits sf (c.RASTERIZATION_MULTI_CYCLE_BIT ||| c.RASTERIZATION_FILL_BIT |||
    c.RASTERIZATION_COPY_BIT)
  let df := clear_bits df c.DEPTH_BLEND_MULTI_CYCLE_BIT
  let cycle_type := (words 0 >>> 20) &&& 3
  let sf :=
    if cycle_type = c.CycleType_Cycle2 then sf ||| c.RASTERIZATION_MULTI_CYCLE_BIT
    else if cycle_type = c.CycleType_Fill then sf ||| c.RASTERIZATION_FILL_BIT
    else if cycle_type = c.CycleType_Copy then sf ||| c.RASTERIZATION_COPY_BIT
    else sf
  let df :=
    if cycle_type = c.CycleType_Cycle2 then df ||| c.DEPTH_BLEND_MULTI_CYCLE_BIT
    else df
  let blend_cycles0 : BlendModes :=
    { p.depth_blend.blend_cycles0 with
      blend_1a := (words 1 >>> 30) &&& 3
      blend_1b := (words 1 >>> 26) &&& 3
      blend_2a := (words 1 >>> 22) &&& 3
      blend_2b := (words 1 >>> 18) &&& 3 }
  let blend_cycles1 : BlendModes :=
    { p.depth_blend.blend_cycles1 with
      blend_1a := (words 1 >>> 28) &&& 3
      blend_1b := (words 1 >>> 24) &&& 3
      blend_2a := (words 1 >>> 20) &&& 3
      blend_2b := (words 1 >>> 16) &&& 3 }
  let static_state : StaticRasterizationState :=
    { p.static_state with flags := sf, dither := dither }
  let depth_blend : DepthBlendState :=
    { p.depth_blend with
      flags := df
      coverage_mode := coverage_mode
      z_mode := z_mode
      blend_cycles0 := blend_cycles0
      blend_cycles1 := blend_cycles1 }
  ({ p with static_state := static_state, depth_blend := depth_blend },
    [Effect.set_static_rasterization_state static_state,
     Effect.set_depth_blend_state depth_blend,
     Effect.set_enable_primitive_depth (bool (words 1 &&& (1 <<< 2)))])

/-- The handler `op_set_texture_image`. -/
def op_set_texture_image : CommandFunc := fun p words =>
  let fmt := (words 0 >>> 21) &&& 7
  let size := (words 0 >>> 19) &&& 3
  let width := (words 0 &&& 0x3ff) + 1
  let addr := words 1 &&& 0x00ffffff
  ({ p with
     texture_image :=
      { p.texture_image with addr := addr, width := width, size := size, fmt := fmt } }, [])

/-- The handler `op_set_tile`.  The fields of the local `info` that are assigned more than once
(`mask_s`, `mask_t`, `flags`) are carried as local values and stored at the end. -/
def op_set_tile (c : Consts) : CommandFunc := fun p words =>
  let tile := (words 1 >>> 24) &&& 7
  let offset := shl32 ((words 0 >>> 0) &&& 511) 3
  let stride := shl32 ((words 0 >>> 9) &&& 511) 3
  let size := (words 0 >>> 19) &&& 3
  let fmt := (words 0 >>> 21) &&& 7
  let palette := (words 1 >>> 20) &&& 15
  let shift_s := (words 1 >>> 0) &&& 15
  let mask_s := (words 1 >>> 4) &&& 15
  let shift_t := (words 1 >>> 10) &&& 15
  let mask_t := (words 1 >>> 14) &&& 15
  let flags := 0
  let flags := if bool (words 1 &&& (1 <<< 8)) then flags ||| c.TILE_INFO_MIRROR_S_BIT else flags
  let flags := if bool (words 1 &&& (1 <<< 9)) then flags ||| c.TILE_INFO_CLAMP_S_BIT else flags
  let flags := if bool (words 1 &&& (1 <<< 18)) then flags ||| c.TILE_INFO_MIRROR_T_BIT else flags
  let flags := if bool (words 1 &&& (1 <<< 19)) then flags ||| c.TILE_INFO_CLAMP_T_BIT else flags
  let (mask_s, flags) :=
    if mask_s > 10 then (10, flags)
    else if mask_s = 0 then (mask_s, flags ||| c.TILE_INFO_CLAMP_S_BIT)
    else (mask_s, flags)
  let (mask_t, flags) :=
    if mask_t > 10 then (10, flags)
    else if mask_t = 0 then (mask_t, flags ||| c.TILE_INFO_CLAMP_T_BIT)
    else (mask_t, flags)
  let info : TileMeta :=
    { offset := offset, stride := stride, size := size, fmt := fmt, palette := palette,
      shift_s := shift_s, mask_s := mask_s, shift_t := shift_t, mask_t := mask_t,
      flags := flags }
  (p, [Effect.set_tile tile info])

/-- The handler `op_load_tile`. -/
def op_load_tile : CommandFunc := fun p words =>
  let tile := (words 1 >>> 24) &&& 7
  let info : LoadTileInfo :=
    { tex_addr := p.texture_image.addr
      tex_width := p.texture_image.width
      fmt := p.texture_image.fmt
      size := p.texture_image.size
      slo := (words 0 >>> 12) &&& 0xfff
      shi := (words 1 >>> 12) &&& 0xfff
      tlo := (words 0 >>> 0) &&& 0xfff
      thi := (words 1 >>> 0) &&& 0xfff
      mode := UploadMode.Tile }
  (p, [Effect.load_tile tile info])

/-- The handler `op_load_tlut`. -/
def op_load_tlut : CommandFunc := fun p words =>
  let tile := (words 1 >>> 24) &&& 7
  let info : LoadTileInfo :=
    { tex_addr := p.texture_image.addr
      tex_width := p.texture_image.width
      fmt := p.texture_image.fmt
      size := p.texture_image.size
      slo := (words 0 >>> 12) &&& 0xfff
      shi := (words 1 >>> 12) &&& 0xfff
      tlo := (words 0 >>> 0) &&& 0xfff
      thi := (words 1 >>> 0) &&& 0xfff
      mode := UploadMode.TLUT }
  (p, [Effect.load_tile tile info])

/-- The handler `op_load_block`. -/
def op_load_block : CommandFunc := fun p words =>
  let tile := (words 1 >>> 24) &&& 7
  let info : LoadTileInfo :=
    { tex_addr := p.texture_image.addr
      tex_width := p.texture_image.width
      fmt := p.texture_image.fmt
      size := p.texture_image.size
      slo := (words 0 >>> 12) &&& 0xfff
      shi := (words 1 >>> 12) &&& 0xfff
      tlo := (words 0 >>> 0) &&& 0xfff
      thi := (words 1 >>> 0) &&& 0xfff
      mode := UploadMode.Block }
  (p, [Effect.load_tile tile info])

/-- The handler `op_set_tile_size`. -/
def op_set_tile_size : CommandFunc := fun p words =>
  let tile := (words 1 >>> 24) &&& 7
  let slo := (words 0 >>> 12) &&& 0xfff
  let shi := (words 1 >>> 12) &&& 0xfff
  let tlo := (words 0 >>> 0) &&& 0xfff
  let thi := (words 1 >>> 0) &&& 0xfff
  (p, [Effect.set_tile_size tile slo shi tlo thi])

/-- The handler `op_set_combine`. -/
def op_set_combine : CommandFunc := fun p words =>
  let combiner0 : CombinerInputs :=
    { rgb :=
        { p.static_state.combiner0.rgb with
          muladd := (words 0 >>> 20) &&& 0xf
          mul := (words 0 >>> 15) &&& 0x1f
          mulsub := (words 1 >>> 28) &&& 0xf
          add := (words 1 >>> 15) &&& 0x7 }
      alpha :=
        { p.static_state.combiner0.alpha with
          muladd := (words 0 >>> 12) &&& 0x7
          mulsub := (words 1 >>> 12) &&& 0x7
          mul := (words 0 >>> 9) &&& 0x7
          add := (words 1 >>> 9) &&& 0x7 } }
  let combiner1 : CombinerInputs :=
    { rgb :=
        { p.static_state.combiner1.rgb with
          muladd := (words 0 >>> 5) &&& 0xf
          mul := (words 0 >>> 0) &&& 0x1f
          mulsub := (words 1 >>> 24) &&& 0xf
          add := (words 1 >>> 6) &&& 0x7 }
      alpha :=
        { p.static_state.combiner1.alpha with
          muladd := (words 1 >>> 21) &&& 0x7
          mulsub := (words 1 >>> 3) &&& 0x7
          mul := (words 1 >>> 18) &&& 0x7
          add := (words 1 >>> 0) &&& 0x7 } }
  let static_state : StaticRasterizationState :=
    { p.static_state with combiner0 := combiner0, combiner1 := combiner1 }
  ({ p with static_state := static_state },
    [Effect.set_static_rasterization_state static_state])

/-- The handler `op_set_blend_color`. -/
def op_set_blend_color : CommandFunc := fun p words => (p, [Effect.set_blend_color (words 1)])

/-- The handler `op_set_env_color`. -/
def op_set_env_color : CommandFunc := fun p words => (p, [Effect.set_env_color (words 1)])

/-- The handler `op_set_fog_color`. -/
def op_set_fog_color : CommandFunc := fun p words => (p, [Effect.set_fog_color (words 1)])

/-- The handler `op_set_prim_color`. -/
def op_set_prim_color : CommandFunc := fun p words =>
  let prim_min_level := (words 0 >>> 8) &&& 31
  let prim_level_frac := (words 0 >>> 0) &&& 0xff
  (p, [Effect.set_primitive_color prim_min_level prim_level_frac (words 1)])

/-- The handler `op_set_fill_color`. -/
def op_set_fill_color : CommandFunc := fun p words => (p, [Effect.set_fill_color (words 1)])

/-- The handler `op_fill_rectangle`.  The values stored in the setup are below `2 ^ 26`. -/
def op_fill_rectangle (c : Consts) : CommandFunc := fun p words =>
  let xl := (words 0 >>> 12) &&& 0xfff
  let yl := (words 0 >>> 0) &&& 0xfff
  let xh := (words 1 >>> 12) &&& 0xfff
  let yh := (words 1 >>> 0) &&& 0xfff
  let yl :=
    if (p.static_state.flags &&& (c.RASTERIZATION_COPY_BIT ||| c.RASTERIZATION_FILL_BIT)) != 0
    then yl ||| 3 else yl
  let setup : TriangleSetup :=
    { xh := i32 (shl32 xh 14)
      xl := i32 (shl32 xl 14)
      xm := i32 (shl32 xl 14)
      ym := i32 yl
      yl := i32 yl
      yh := i32 yh
      flags := c.TRIANGLE_SETUP_FLIP_BIT }
  (p, [Effect.draw_flat_primitive setup])

/-- The handler `op_texture_rectangle`. -/
def op_texture_rectangle (c : Consts) : CommandFunc := fun p words =>
  let xl := (words 0 >>> 12) &&& 0xfff
  let yl := (words 0 >>> 0) &&& 0xfff
  let xh := (words 1 >>> 12) &&& 0xfff
  let yh := (words 1 >>> 0) &&& 0xfff
  let tile := (words 1 >>> 24) &&& 0x7
  let s : Int := i32 ((words 2 >>> 16) &&& 0xffff)
  let t : Int := i32 ((words 2 >>> 0) &&& 0xffff)
  let dsdx : Int := i32 ((words 3 >>> 16) &&& 0xffff)
  let dtdy : Int := i32 ((words 3 >>> 0) &&& 0xffff)
  let dsdx := sext 16 dsdx
  let dtdy := sext 16 dtdy
  let yl :=
    if (p.static_state.flags &&& (c.RASTERIZATION_COPY_BIT ||| c.RASTERIZATION_FILL_BIT)) != 0
    then yl ||| 3 else yl
  let flags := c.TRIANGLE_SETUP_FLIP_BIT
  let attr : AttributeSetup :=
    { s := shl_i32 s 16
      t := shl_i32 t 16
      dsdx := shl_i32 dsdx 11
      dtde := shl_i32 dtdy 11
      dtdy := shl_i32 dtdy 11 }
  let flags :=
    if (p.static_state.flags &&& c.RASTERIZATION_COPY_BIT) != 0
    then flags ||| c.TRIANGLE_SETUP_SKIP_XFRAC_BIT else flags
  let setup : TriangleSetup :=
    { xh := i32 (shl32 xh 14)
      xl := i32 (shl32 xl 14)
      xm := i32 (shl32 xl 14)
      ym := i32 yl
      yl := i32 yl
      yh := i32 yh
      flags := flags
      tile := tile }
  (p, [Effect.draw_shaded_primitive setup attr])

/-- The handler `op_texture_rectangle_flip`. -/
def op_texture_rectangle_flip (c : Consts) : CommandFunc := fun p words =>
  let xl := (words 0 >>> 12) &&& 0xfff
  let yl := (words 0 >>> 0) &&& 0xfff
  let xh := (words 1 >>> 12) &&& 0xfff
  let yh := (words 1 >>> 0) &&& 0xfff
  let tile := (words 1 >>> 24) &&& 0x7
  let s : Int := i32 ((words 2 >>> 16) &&& 0xffff)
  let t : Int := i32 ((words 2 >>> 0) &&& 0xffff)
  let dsdx : Int := i32 ((words 3 >>> 16) &&& 0xffff)
  let dtdy : Int := i32 ((words 3 >>> 0) &&& 0xffff)
  let dsdx := sext 16 dsdx
  let dtdy := sext 16 dtdy
  let yl :=
    if (p.static_state.flags &&& (c.RASTERIZATION_COPY_BIT ||| c.RASTERIZATION_FILL_BIT)) != 0
    then yl ||| 3 else yl
  let flags := c.TRIANGLE_SETUP_FLIP_BIT
  let attr : AttributeSetup :=
    { s := shl_i32 s 16
      t := shl_i32 t 16
      dtdx := shl_i32 dtdy 11
      dsde := shl_i32 dsdx 11
      dsdy := shl_i32 dsdx 11 }
  let flags :=
    if (p.static_state.flags &&& c.RASTERIZATION_COPY_BIT) != 0
    then flags ||| c.TRIANGLE_SETUP_SKIP_XFRAC_BIT else flags
  let setup : TriangleSetup :=
    { xh := i32 (shl32 xh 14)
      xl := i32 (shl32 xl 14)
      xm := i32 (shl32 xl 14)
      ym := i32 yl
      yl := i32 yl
      yh := i32 yh
      flags := flags
      tile := tile }
  (p, [Effect.draw_shaded_primitive setup attr])

/-- The handler `op_set_prim_depth`. -/
def op_set_prim_depth : CommandFunc := fun p words =>
  (p, [Effect.set_primitive_depth ((words 1 >>> 16) &&& 0xffff) (words 1 &&& 0xffff)])

/-- The handler `op_set_convert`. -/
def op_set_convert : CommandFunc := fun p words =>
  let merged := ((words 0 <<< 32) % 2 ^ 64) ||| words 1
  let k5 := (merged >>> 0) &&& 0x1ff
  let k4 := (merged >>> 9) &&& 0x1ff
  let k3 := (merged >>> 18) &&& 0x1ff
  let k2 := (merged >>> 27) &&& 0x1ff
  let k1 := (merged >>> 36) &&& 0x1ff
  let k0 := (merged >>> 45) &&& 0x1ff
  (p, [Effect.set_convert k0 k1 k2 k3 k4 k5])

/-- The handler `op_sync_load`, an empty body. -/
def op_sync_load : CommandFunc := fun p _ => (p, [])

/-- The handler `op_sync_pipe`, an empty body. -/
def op_sync_pipe : CommandFunc := fun p _ => (p, [])

/-- The handler `op_sync_tile`, an empty body. -/
def op_sync_tile : CommandFunc := fun p _ => (p, [])

/-- The handler `op_set_key_gb`, an empty body. -/
def op_set_key_gb : CommandFunc := fun p _ => (p, [])

/-- The handler `op_set_key_r`, an empty body. -/
def op_set_key_r : CommandFunc := fun p _ => (p, [])

/-! ## The dispatcher -/

/-- The table `funcs[64]` of `enqueue_command_direct`; `none` is `nullptr`. -/
def funcs (c : Consts) : Nat → Option CommandFunc
  | 0x08 => some (op_fill_triangle c)
  | 0x09 => some (op_fill_z_buffer_triangle c)
  | 0x0a => some (op_texture_triangle c)
  | 0x0b => some (op_texture_z_buffer_triangle c)
  | 0x0c => some (op_shade_triangle c)
  | 0x0d => some (op_shade_z_buffer_triangle c)
  | 0x0e => some (op_shade_texture_triangle c)
  | 0x0f => some (op_shade_texture_z_buffer_triangle c)
  | 0x24 => some (op_texture_rectangle c)
  | 0x25 => some (op_texture_rectangle_flip c)
  | 0x26 => some op_sync_load
  | 0x27 => some op_sync_pipe
  | 0x28 => some op_sync_tile
  | 0x29 => some op_sync_full
  | 0x2a => some op_set_key_gb
  | 0x2b => some op_set_key_r
  | 0x2c => some op_set_convert
  | 0x2d => some (op_set_scissor c)
  | 0x2e => some op_set_prim_depth
  | 0x2f => some (op_set_other_modes c)
  | 0x30 => some op_load_tlut
  | 0x32 => some op_set_tile_size
  | 0x33 => some op_load_block
  | 0x34 => some op_load_tile
  | 0x35 => some (op_set_tile c)
  | 0x36 => some (op_fill_rectangle c)
  | 0x37 => some op_set_fill_color
  | 0x38 => some op_set_fog_color
  | 0x39 => some op_set_blend_color
  | 0x3a => some op_set_prim_color
  | 0x3b => some op_set_env_color
  | 0x3c => some op_set_combine
  | 0x3d => some op_set_texture_image
  | 0x3e => some op_set_mask_image
  | 0x3f => some op_set_color_image
  | _ => none

/-- The function `enqueue_command_direct(num_words, words)`: the two meta opcodes are the cases
of the `switch`, every other opcode goes through `funcs`. -/
def enqueue_command_direct (c : Consts) (p : CommandProcessor) (num_words : Nat)
    (words : Words) : CommandProcessor × List Effect :=
  let _ := num_words
  let op := (words 0 >>> 24) &&& 63
  if op = c.Op_MetaSignalTimeline then
    let val := words 1 ||| ((words 2 <<< 32) % 2 ^ 64)
    (p, [Effect.flush_and_signal, Effect.timeline_worker_push val])
  else if op = c.Op_MetaFlush then
    (p, [Effect.flush])
  else
    match funcs c op with
    | some f => f p words
    | none => (p, [])

/-! ## Reads within a command window -/

/-- The result of code that reads a command window of known length: `none` once a read was
out of bounds, which the C++ code leaves undefined. -/
def Checked (α : Type) : Type := Option α

/-- Sequencing of code that reads a window: what follows a failed read is not run. -/
@[noinline]
def Checked.bind {α β : Type} (x : Checked α) (f : α → Checked β) : Checked β :=
  Option.bind x f

instance : Monad Checked where
  pure := fun a => some a
  bind := Checked.bind

/-- The pointer `words` into a command window of known length: the index of a word to its
value, or `none` where the index is not below the length. -/
abbrev WindowWords := Nat → Checked Nat

/-- The pointer to the first word of a window. -/
def window_words (window : List Nat) : WindowWords := fun i => window[i]?

/-- The pointer `words + k` into a window. -/
def shift_window (words : WindowWords) (k : Nat) : WindowWords := fun i => words (k + i)

/-- The function `decode_triangle_setup(setup, words, copy_cycle)` on a window: every
`words[i]` of the source is a read of the window, and the result is `none` when one of them is
out of bounds. -/
def decode_triangle_setup_checked (c : Consts) (setup : TriangleSetup) (words : WindowWords)
    (copy_cycle : Bool) : Checked TriangleSetup := do
  let flip : Bool := ((← words 0) &&& 0x800000) != 0
  let sign_dxhdy : Bool := ((← words 5) &&& 0x80000000) != 0
  let do_offset : Bool := flip == sign_dxhdy
  let flags := setup.flags ||| (if flip then c.TRIANGLE_SETUP_FLIP_BIT else 0)
  let flags := flags ||| (if do_offset then c.TRIANGLE_SETUP_DO_OFFSET_BIT else 0)
  let flags := flags ||| (if copy_cycle then c.TRIANGLE_SETUP_SKIP_XFRAC_BIT else 0)
  let tile := ((← words 0) >>> 16) &&& 63
  let yl := sext 14 (i32 (← words 0))
  let ym := sext 14 (i32 ((← words 1) >>> 16))
  let yh := sext 14 (i32 (← words 1))
  let xl := Int.land (sext 28 (i32 (← words 2))) (~~~1)
  let xh := Int.land (sext 28 (i32 (← words 4))) (~~~1)
  let xm := Int.land (sext 28 (i32 (← words 6))) (~~~1)
  let dxldy := Int.land (sext 28 (i32 ((← words 3) >>> 2))) (~~~1)
  let dxhdy := Int.land (sext 28 (i32 ((← words 5) >>> 2))) (~~~1)
  let dxmdy := Int.land (sext 28 (i32 ((← words 7) >>> 2))) (~~~1)
  pure { setup with
    flags := flags, tile := tile, yl := yl, ym := ym, yh := yh, xl := xl, xh := xh, xm := xm,
    dxldy := dxldy, dxhdy := dxhdy, dxmdy := dxmdy }

/-- The function `decode_tex_setup(attr, words)` on a window. -/
def decode_tex_setup_checked (attr : AttributeSetup) (words : WindowWords) :
    Checked AttributeSetup := do
  let s := i32 (((← words 0) &&& 0xffff0000) ||| (((← words 4) >>> 16) &&& 0x0000ffff))
  let t := i32 ((shl32 (← words 0) 16 &&& 0xffff0000) ||| ((← words 4) &&& 0x0000ffff))
  let w := i32 (((← words 1) &&& 0xffff0000) ||| (((← words 5) >>> 16) &&& 0x0000ffff))
  let dsdx := i32 (((← words 2) &&& 0xffff0000) ||| (((← words 6) >>> 16) &&& 0x0000ffff))
  let dtdx := i32 ((shl32 (← words 2) 16 &&& 0xffff0000) ||| ((← words 6) &&& 0x0000ffff))
  let dwdx := i32 (((← words 3) &&& 0xffff0000) ||| (((← words 7) >>> 16) &&& 0x0000ffff))
  let dsde := i32 (((← words 8) &&& 0xffff0000) ||| (((← words 12) >>> 16) &&& 0x0000ffff))
  let dtde := i32 ((shl32 (← words 8) 16 &&& 0xffff0000) ||| ((← words 12) &&& 0x0000ffff))
  let dwde := i32 (((← words 9) &&& 0xffff0000) ||| (((← words 13) >>> 16) &&& 0x0000ffff))
  let dsdy := i32 (((← words 10) &&& 0xffff0000) ||| (((← words 14) >>> 16) &&& 0x0000ffff))
  let dtdy := i32 ((shl32 (← words 10) 16 &&& 0xffff0000) ||| ((← words 14) &&& 0x0000ffff))
  let dwdy := i32 (((← words 11) &&& 0xffff0000) ||| (((← words 15) >>> 16) &&& 0x0000ffff))
  pure { attr with
    s := s, t := t, w := w, dsdx := dsdx, dtdx := dtdx, dwdx := dwdx, dsde := dsde,
    dtde := dtde, dwde := dwde, dsdy := dsdy, dtdy := dtdy, dwdy := dwdy }

/-- The function `decode_rgba_setup(attr, words)` on a window. -/
def decode_rgba_setup_checked (attr : AttributeSetup) (words : WindowWords) :
    Checked AttributeSetup := do
  let r := i32 (((← words 0) &&& 0xffff0000) ||| (((← words 4) >>> 16) &&& 0xffff))
  let g := i32 (shl32 (← words 0) 16 ||| ((← words 4) &&& 0xffff))
  let b := i32 (((← words 1) &&& 0xffff0000) ||| (((← words 5) >>> 16) &&& 0xffff))
  let a := i32 (shl32 (← words 1) 16 ||| ((← words 5) &&& 0xffff))
  let drdx := i32 (((← words 2) &&& 0xffff0000) ||| (((← words 6) >>> 16) &&& 0xffff))
  let dgdx := i32 (shl32 (← words 2) 16 ||| ((← words 6) &&& 0xffff))
  let dbdx := i32 (((← words 3) &&& 0xffff0000) ||| (((← words 7) >>> 16) &&& 0xffff))
  let dadx := i32 (shl32 (← words 3) 16 ||| ((← words 7) &&& 0xffff))
  let drde := i32 (((← words 8) &&& 0xffff0000) ||| (((← words 12) >>> 16) &&& 0xffff))
  let dgde := i32 (shl32 (← words 8) 16 ||| ((← words 12) &&& 0xffff))
  let dbde := i32 (((← words 9) &&& 0xffff0000) ||| (((← words 13) >>> 16) &&& 0xffff))
  let dade := i32 (shl32 (← words 9) 16 ||| ((← words 13) &&& 0xffff))
  let drdy := i32 (((← words 10) &&& 0xffff0000) ||| (((← words 14) >>> 16) &&& 0xffff))
  let dgdy := i32 (shl32 (← words 10) 16 ||| ((← words 14) &&& 0xffff))
  let dbdy := i32 (((← words 11) &&& 0xffff0000) ||| (((← words 15) >>> 16) &&& 0xffff))
  let dady := i32 (shl32 (← words 11) 16 ||| ((← words 15) &&& 0xffff))
  pure { attr with
    r := r, g := g, b := b, a := a, drdx := drdx, dgdx := dgdx, dbdx := dbdx, dadx := dadx,
    drde := drde, dgde := dgde, dbde := dbde, dade := dade, drdy := drdy, dgdy := dgdy,
    dbdy := dbdy, dady := dady }

/-- The function `decode_z_setup(attr, words)` on a window. -/
def decode_z_setup_checked (attr : AttributeSetup) (words : WindowWords) :
    Checked AttributeSetup := do
  let z := i32 (← words 0)
  let dzdx := i32 (← words 1)
  let dzde := i32 (← words 2)
  let dzdy := i32 (← words 3)
  pure { attr with z := z, dzdx := dzdx, dzde := dzde, dzdy := dzdy }

/-- A command handler on a window: `none` when it reads out of bounds. -/
abbrev WindowFunc :=
  CommandProcessor → WindowWords → Checked (CommandProcessor × List Effect)

/-- The handler `op_fill_triangle` on a window. -/
def op_fill_triangle_checked (c : Consts) : WindowFunc := fun p words => do
  let setup : TriangleSetup := {}
  let setup ← decode_triangle_setup_checked c setup words (copy_cycle c p)
  pure (p, [Effect.draw_flat_primitive setup])

/-- The handler `op_shade_triangle` on a window. -/
def op_shade_triangle_checked (c : Consts) : WindowFunc := fun p words => do
  let setup : TriangleSetup := {}
  let attr : AttributeSetup := {}
  let setup ← decode_triangle_setup_checked c setup words (copy_cycle c p)
  let attr ← decode_rgba_setup_checked attr (shift_window words 8)
  pure (p, [Effect.draw_shaded_primitive setup attr])

/-- The handler `op_shade_z_buffer_triangle` on a window. -/
def op_shade_z_buffer_triangle_checked (c : Consts) : WindowFunc := fun p words => do
  let setup : TriangleSetup := {}
  let attr : AttributeSetup := {}
  let setup ← decode_triangle_setup_checked c setup words (copy_cycle c p)
  let attr ← decode_rgba_setup_checked attr (shift_window words 8)
  let attr ← decode_z_setup_checked attr (shift_window words 24)
  pure (p, [Effect.draw_shaded_primitive setup attr])

/-- The handler `op_shade_texture_z_buffer_triangle` on a window. -/
def op_shade_texture_z_buffer_triangle_checked (c : Consts) : WindowFunc := fun p words => do
  let setup : TriangleSetup := {}
  let attr : AttributeSetup := {}
  let setup ← decode_triangle_setup_checked c setup words (copy_cycle c p)
  let attr ← decode_rgba_setup_checked attr (shift_window words 8)
  let attr ← decode_tex_setup_checked attr (shift_window words 24)
  let attr ← decode_z_setup_checked attr (shift_window words 40)
  pure (p, [Effect.draw_shaded_primitive setup attr])

/-- The handler `op_fill_z_buffer_triangle` on a window. -/
def op_fill_z_buffer_triangle_checked (c : Consts) : WindowFunc := fun p words => do
  let setup : TriangleSetup := {}
  let attr : AttributeSetup := {}
  let setup ← decode_triangle_setup_checked c setup words (copy_cycle c p)
  let attr ← decode_z_setup_checked attr (shift_window words 8)
  pure (p, [Effect.draw_shaded_primitive setup attr])

/-- The handler `op_texture_triangle` on a window. -/
def op_texture_triangle_checked (c : Consts) : WindowFunc := fun p words => do
  let setup : TriangleSetup := {}
  let attr : AttributeSetup := {}
  let setup ← decode_triangle_setup_checked c setup words (copy_cycle c p)
  let attr ← decode_tex_setup_checked attr (shift_window words 8)
  pure (p, [Effect.draw_shaded_primitive setup attr])

/-- The handler `op_texture_z_buffer_triangle` on a window. -/
def op_texture_z_buffer_triangle_checked (c : Consts) : WindowFunc := fun p words => do
  let setup : TriangleSetup := {}
  let attr : AttributeSetup := {}
  let setup ← decode_triangle_setup_checked c setup words (copy_cycle c p)
  let attr ← decode_tex_setup_checked attr (shift_window words 8)
  let attr ← decode_z_setup_checked attr (shift_window words 24)
  pure (p, [Effect.draw_shaded_primitive setup attr])

/-- The handler `op_shade_texture_triangle` on a window. -/
def op_shade_texture_triangle_checked (c : Consts) : WindowFunc := fun p words => do
  let setup : TriangleSetup := {}
  let attr : AttributeSetup := {}
  let setup ← decode_triangle_setup_checked c setup words (copy_cycle c p)
  let attr ← decode_rgba_setup_checked attr (shift_window words 8)
  let attr ← decode_tex_setup_checked attr (shift_window words 24)
  pure (p, [Effect.draw_shaded_primitive setup attr])

/-- The rows 0x08 to 0x0f of the table `funcs`, with the handlers on a window. -/
def funcs_checked (c : Consts) : Nat → Option WindowFunc
  | 0x08 => some (op_fill_triangle_checked c)
  | 0x09 => some (op_fill_z_buffer_triangle_checked c)
  | 0x0a => some (op_texture_triangle_checked c)
  | 0x0b => some (op_texture_z_buffer_triangle_checked c)
  | 0x0c => some (op_shade_triangle_checked c)
  | 0x0d => some (op_shade_z_buffer_triangle_checked c)
  | 0x0e => some (op_shade_texture_triangle_checked c)
  | 0x0f => some (op_shade_texture_z_buffer_triangle_checked c)
  | _ => none

/-! ## The synchronization timeline -/

/-- The members of `CommandProcessor` that `signal_timeline`, `wait_for_timeline` and `idle`
touch, next to the persistent render state: `timeline_value`, the counter of requested
tickets, and `thread_timeline_value`, the value that the timeline worker publishes. -/
structure ProcessorState where
  render : CommandProcessor := {}
  timeline_value : Nat := 0
  thread_timeline_value : Nat := 0
  deriving DecidableEq

/-- The function `flush()`: the one word it hands to `enqueue_command`. -/
def flush (c : Consts) : Words := fun i =>
  [shl32 c.Op_MetaFlush 24].getD i 0

/-- The function `signal_timeline()`: `timeline_value++` on a `uint64_t`, then the three words
handed to `enqueue_command`.  The result is the new `timeline_value`, which is also the value
returned, and the words. -/
def signal_timeline (c : Consts) (timeline_value : Nat) : Nat × Words :=
  let timeline_value := (timeline_value + 1) % 2 ^ 64
  let words : Words := fun i =>
    [shl32 c.Op_MetaSignalTimeline 24,
     timeline_value % 2 ^ 32,
     (timeline_value >>> 32) % 2 ^ 32].getD i 0
  (timeline_value, words)

/-- The function `FenceExecutor::notify_work_locked(work)`: `*value = work.second`. -/
def notify_work_locked (value : Nat) (work_second : Nat) : Nat :=
  let _ := value
  work_second

/-- The predicate of `wait_for_timeline(index)`: `thread_timeline_value >= index`. -/
def wait_for_timeline (thread_timeline_value index : Nat) : Bool :=
  decide (thread_timeline_value ≥ index)

/-- The values that a list of calls pushes to the timeline worker, in order. -/
def pushed : List Effect → List Nat
  | [] => []
  | Effect.timeline_worker_push val :: rest => val :: pushed rest
  | _ :: rest => pushed rest

/-- Dispatching a sequence of commands: each command, its word count and its words, goes
through `enqueue_command_direct` in the order of the sequence.  The result is the state after
the last command and all the calls made, in order. -/
def dispatch_all (c : Consts) : CommandProcessor → List (Nat × Words) →
    CommandProcessor × List Effect
  | p, [] => (p, [])
  | p, cmd :: rest =>
    let r := enqueue_command_direct c p cmd.1 cmd.2
    let t := dispatch_all c r.1 rest
    (t.1, r.2 ++ t.2)

/-- Modelled from the spec: the transport `ring`, whose class is declared outside the
translated file, passes the commands handed to `enqueue_command` one by one, in the order of
submission, to `enqueue_command_direct`. -/
def ring_drain (c : Consts) (p : CommandProcessor) (cmds : List (Nat × Words)) :
    CommandProcessor × List Effect :=
  dispatch_all c p cmds

/-- Modelled from the spec: the timeline worker, whose thread class is declared outside the
translated file, takes the pushed entries in the order of submission, waits for the signal of
each and then calls `notify_work_locked` on it.  The result lists the published value after
each completion. -/
def worker_trace (value : Nat) : List Nat → List Nat
  | [] => []
  | work :: rest =>
    let value := notify_work_locked value work
    value :: worker_trace value rest

/-- The published value once the worker has completed every entry of the list. -/
def worker_final (value : Nat) (works : List Nat) : Nat :=
  (worker_trace value works).getLastD value

/-- The function `idle()`: `wait_for_timeline(signal_timeline())`, run to completion: the
signal command reaches `enqueue_command_direct` through the transport, the worker completes
what was pushed, and the wait returns when its predicate holds.  The result is `none` when the
predicate does not hold then, so that the wait would block for ever. -/
def idle (c : Consts) (s : ProcessorState) : Option ProcessorState :=
  let r := signal_timeline c s.timeline_value
  let d := ring_drain c s.render [(3, r.2)]
  let reached := worker_final s.thread_timeline_value (pushed d.2)
  if wait_for_timeline reached r.1 then
    some { render := d.1, timeline_value := r.1, thread_timeline_value := reached }
  else none

/-- The function `idle()` called `n` times in a row. -/
def idle_times (c : Consts) : Nat → ProcessorState → Option ProcessorState
  | 0, s => some s
  | n + 1, s => (idle c s).bind (idle_times c n)

/-- The first `n` calls of `signal_timeline()` from the counter `timeline_value`: the words
enqueued and the ticket returned by each, in order. -/
def signal_timeline_calls (c : Consts) : Nat → Nat → List (Words × Nat)
  | 0, _ => []
  | n + 1, timeline_value =>
    let r := signal_timeline c timeline_value
    (r.2, r.1) :: signal_timeline_calls c n r.1

/-! ## Vocabulary of the statements -/

/-- The bits of `static_state.flags` that `op_set_other_modes` writes: the union of the sixteen
masks it names. -/
def Consts.otherModesMask (c : Consts) : Nat :=
  c.RASTERIZATION_PERSPECTIVE_CORRECT_BIT ||| c.RASTERIZATION_DETAIL_LOD_ENABLE_BIT |||
  c.RASTERIZATION_SHARPEN_LOD_ENABLE_BIT ||| c.RASTERIZATION_TEX_LOD_ENABLE_BIT |||
  c.RASTERIZATION_TLUT_BIT ||| c.RASTERIZATION_TLUT_TYPE_BIT |||
  c.RASTERIZATION_SAMPLE_MODE_BIT ||| c.RASTERIZATION_SAMPLE_MID_TEXEL_BIT |||
  c.RASTERIZATION_ALPHA_CVG_SELECT_BIT ||| c.RASTERIZATION_CVG_TIMES_ALPHA_BIT |||
  c.RASTERIZATION_AA_BIT ||| c.RASTERIZATION_ALPHA_TEST_DITHER_BIT |||
  c.RASTERIZATION_ALPHA_TEST_BIT ||| c.RASTERIZATION_MULTI_CYCLE_BIT |||
  c.RASTERIZATION_FILL_BIT ||| c.RASTERIZATION_COPY_BIT

/-- The value of a field of `N` bits read as two's complement, in the words of the
specification: the field itself when its top bit, bit `N - 1`, is clear, and the field less
`2 ^ N` when it is set. -/
def twosComplement (N field : Nat) : Int :=
  if field.testBit (N - 1) then (field : Int) - 2 ^ N else (field : Int)

/-- An integer with bit 0 cleared: the even number just below it, or itself. -/
def clearBit0 (v : Int) : Int := v - v % 2

/-- The 32-bit pattern of an `int32_t` value. -/
def bits32 (v : Int) : Nat := (v % 2 ^ 32).toNat

/-- The pairing of the specification for the first attribute of base index `i`: the high half
of word `i` over the high half of word `i + 4`. -/
def hiPair (W : Words) (i : Nat) : Nat := (W i &&& 0xffff0000) ||| (W (i + 4) >>> 16)

/-- The pairing of the specification for the second attribute of base index `i`: the low half
of word `i` over the low half of word `i + 4`. -/
def loPair (W : Words) (i : Nat) : Nat := ((W i <<< 16) % 2 ^ 32) ||| (W (i + 4) &&& 0xffff)

/-- The opcodes that the specification lists as reserved: 0x00 to 0x07, 0x10 to 0x23 and
0x31, the `nullptr` slots of `funcs`. -/
def ReservedOpcode (op : Nat) : Prop := op ≤ 0x07 ∨ (0x10 ≤ op ∧ op ≤ 0x23) ∨ op = 0x31

instance (op : Nat) : Decidable (ReservedOpcode op) := by
  unfold ReservedOpcode
  infer_instance

/-- The 6-bit opcode of a command, bits [29:24] of word 0. -/
def opcode (W : Words) : Nat := (W 0 >>> 24) &&& 63

/-- The two meta opcodes have no slot in the handler table, as the specification requires:
each is one of the reserved 6-bit opcodes, and they differ. -/
def Consts.MetaWF (c : Consts) : Prop :=
  ReservedOpcode c.Op_MetaSignalTimeline ∧ ReservedOpcode c.Op_MetaFlush ∧
    c.Op_MetaSignalTimeline ≠ c.Op_MetaFlush

instance (c : Consts) : Decidable c.MetaWF := by
  unfold Consts.MetaWF
  infer_instance

/-- The triangle setup that a list of calls forwards, when the list is one draw call. -/
def forwardedSetup : List Effect → Option TriangleSetup
  | [Effect.draw_flat_primitive setup] => some setup
  | [Effect.draw_shaded_primitive setup _] => some setup
  | _ => none

/-- Whether the most recent set_other_modes command (opcode 0x2f) of a command sequence
selected copy-cycle in bits [21:20] of its word 0; `false` when the sequence has none.  The
sequence is read in the order of dispatch and each set_other_modes command replaces the answer. -/
def copySelected (c : Consts) (cmds : List (Nat × Words)) : Bool :=
  cmds.foldl
    (fun b cmd =>
      if opcode cmd.2 = 0x2f then decide ((cmd.2 0 >>> 20) &&& 3 = c.CycleType_Copy) else b)
    false

/-- The 64-bit merged command of `op_set_combine`, `word0 << 32 | word1`. -/
def merged (W : Words) : Nat := (W 0 <<< 32) ||| W 1

/-- The field of `width` bits of a number that starts at bit `lo`. -/
def bitField (x lo width : Nat) : Nat := (x >>> lo) % 2 ^ width

/-- The bit ranges of the merged command that `op_set_combine` reads, as the lowest bit and
the width: for stage 0 then stage 1, rgb muladd, mul, mulsub, add and alpha muladd, mulsub,
mul, add. -/
def combineRanges : List (Nat × Nat) :=
  [(52, 4), (47, 5), (28, 4), (15, 3), (44, 3), (12, 3), (41, 3), (9, 3),
   (37, 4), (32, 5), (24, 4), (6, 3), (21, 3), (3, 3), (18, 3), (0, 3)]

/-- The sixteen selectors of a combiner state, in the order of `combineRanges`. -/
def combinerSelectors (s : StaticRasterizationState) : List Nat :=
  [s.combiner0.rgb.muladd, s.combiner0.rgb.mul, s.combiner0.rgb.mulsub, s.combiner0.rgb.add,
   s.combiner0.alpha.muladd, s.combiner0.alpha.mulsub, s.combiner0.alpha.mul,
   s.combiner0.alpha.add,
   s.combiner1.rgb.muladd, s.combiner1.rgb.mul, s.combiner1.rgb.mulsub, s.combiner1.rgb.add,
   s.combiner1.alpha.muladd, s.combiner1.alpha.mulsub, s.combiner1.alpha.mul,
   s.combiner1.alpha.add]

/-- The property that the specification gives the depth values: the upper half of the value
is fixed by word `i` of the block and the lower half by word `j`, for two different words `i`
and `j`, as for the colour and texture attributes. -/
def HalvesFromTwoWords (f : Words → Int) : Prop :=
  ∃ i j : Nat, i ≠ j ∧ ∀ W V : Words, Words32 W → Words32 V →
    (W i = V i → bits32 (f W) >>> 16 = bits32 (f V) >>> 16) ∧
    (W j = V j → bits32 (f W) % 2 ^ 16 = bits32 (f V) % 2 ^ 16)

/-- A persistent render state with every field non-zero, to instantiate theorems at. -/
def sampleState : CommandProcessor where
  static_state :=
    { combiner0 := { rgb := { muladd := 1, mulsub := 2, mul := 3, add := 4 },
                     alpha := { muladd := 5, mulsub := 6, mul := 7, add := 1 } }
      combiner1 := { rgb := { muladd := 2, mulsub := 3, mul := 4, add := 5 },
                     alpha := { muladd := 6, mulsub := 7, mul := 1, add := 2 } }
      flags := 0x2a5a5
      dither := 9 }
  depth_blend :=
    { blend_cycles0 := { blend_1a := 1, blend_1b := 2, blend_2a := 3, blend_2b := 1 }
      blend_cycles1 := { blend_1a := 2, blend_1b := 3, blend_2a := 1, blend_2b := 2 }
      flags := 0x1b3
      coverage_mode := 2
      z_mode := 1 }
  scissor_state := { xlo := 4, ylo := 8, xhi := 1280, yhi := 960 }
  texture_image := { addr := 0x123456, width := 320, fmt := 2, size := 3 }

/-- A window of 44 command words with varied bit patterns (zero beyond it), to instantiate
theorems at. -/
def sampleWords : Words := fun i =>
  [0x2fb5c3a7, 0x8e41d96b, 0xf00dfeed, 0x7badcafe, 0x80000001, 0xdeadbeef, 0x0ffffffe,
   0xc0000003, 0x12345678, 0x9abcdef0, 0x0fedcba9, 0x87654321, 0xffff0000, 0x0000ffff,
   0x8000ffff, 0x7fff8000, 0x13579bdf, 0x2468ace0, 0xfdb97531, 0x0eca8642, 0xaaaaaaaa,
   0x55555555, 0xcccccccc, 0x33333333, 0xf0f0f0f0, 0x0f0f0f0f, 0xff00ff00, 0x00ff00ff,
   0x80000000, 0x7fffffff, 0xffffffff, 0x00000001, 0x01020304, 0x05060708, 0x090a0b0c,
   0x0d0e0f10, 0x11121314, 0x15161718, 0x191a1b1c, 0x1d1e1f20, 0xa1b2c3d4, 0xe5f60718,
   0x293a4b5c, 0x6d7e8f90].getD i 0

/-- The sample window with its word 0 replaced. -/
def sampleWordsWith (word0 : Nat) : Words := fun i => if i = 0 then word0 else sampleWords i

/-- The two bits of `static_state.flags` that `op_set_scissor` writes. -/
def Consts.interlaceMask (c : Consts) : Nat :=
  c.RASTERIZATION_INTERLACE_FIELD_BIT ||| c.RASTERIZATION_INTERLACE_KEEP_ODD_BIT

/-- A flag is set in a flag word when the test of the source, `(flags & MASK) != 0`, holds. -/
def FlagSet (flags mask : Nat) : Prop := flags &&& mask ≠ 0

instance (flags mask : Nat) : Decidable (FlagSet flags mask) := by
  unfold FlagSet
  infer_instance

/-- The relation between the flag words that holds in every reachable state: the depth/blend
AA and MULTI_CYCLE flags mirror the rasterization ones, and no two of the rasterization flags
MULTI_CYCLE, FILL, COPY are set together. -/
def FlagsInvariant (c : Consts) (p : CommandProcessor) : Prop :=
  (FlagSet p.depth_blend.flags c.DEPTH_BLEND_AA_BIT ↔
    FlagSet p.static_state.flags c.RASTERIZATION_AA_BIT) ∧
  (FlagSet p.depth_blend.flags c.DEPTH_BLEND_MULTI_CYCLE_BIT ↔
    FlagSet p.static_state.flags c.RASTERIZATION_MULTI_CYCLE_BIT) ∧
  ¬ (FlagSet p.static_state.flags c.RASTERIZATION_MULTI_CYCLE_BIT ∧
      FlagSet p.static_state.flags c.RASTERIZATION_FILL_BIT) ∧
  ¬ (FlagSet p.static_state.flags c.RASTERIZATION_MULTI_CYCLE_BIT ∧
      FlagSet p.static_state.flags c.RASTERIZATION_COPY_BIT) ∧
  ¬ (FlagSet p.static_state.flags c.RASTERIZATION_FILL_BIT ∧
      FlagSet p.static_state.flags c.RASTERIZATION_COPY_BIT)

instance (c : Consts) (p : CommandProcessor) : Decidable (FlagsInvariant c p) := by
  unfold FlagsInvariant
  infer_instance

/-- The length in words of the triangle command with opcode 0x08 + k, in the words of the
specification: 8 words of edges, then 16 of colour when bit 2 of k is set, 16 of texture when
bit 1 is set and 4 of depth when bit 0 is set. -/
def triangleLength (k : Nat) : Nat :=
  8 + 16 * (k.testBit 2).toNat + 16 * (k.testBit 1).toNat + 4 * (k.testBit 0).toNat

/-- The attributes of the triangle command with opcode 0x08 + k, in the words of the
specification: after the 8 words of edges the colour block is decoded when bit 2 of k is set,
then the texture block when bit 1 is set, then the depth block when bit 0 is set, each block
starting where the one before it ends; nothing else is written to the zero attributes. -/
def triangleAttributes (k : Nat) (W : Words) : AttributeSetup :=
  let attr : AttributeSetup := {}
  let colour := 8
  let attr := if k.testBit 2 then decode_rgba_setup attr (shift W colour) else attr
  let texture := colour + 16 * (k.testBit 2).toNat
  let attr := if k.testBit 1 then decode_tex_setup attr (shift W texture) else attr
  let depth := texture + 16 * (k.testBit 1).toNat
  if k.testBit 0 then decode_z_setup attr (shift W depth) else attr

/-- The sixteen colour attributes of an attribute setup. -/
def colourAttributes (a : AttributeSetup) : List Int :=
  [a.r, a.g, a.b, a.a, a.drdx, a.dgdx, a.dbdx, a.dadx, a.drde, a.dgde, a.dbde, a.dade,
   a.drdy, a.dgdy, a.dbdy, a.dady]

/-- The twelve texture attributes of an attribute setup. -/
def textureAttributes (a : AttributeSetup) : List Int :=
  [a.s, a.t, a.w, a.dsdx, a.dtdx, a.dwdx, a.dsde, a.dtde, a.dwde, a.dsdy, a.dtdy, a.dwdy]

/-- The four depth attributes of an attribute setup. -/
def depthAttributes (a : AttributeSetup) : List Int := [a.z, a.dzdx, a.dzde, a.dzdy]

/-- The 64-bit value carried by the two payload words of a signal-timeline command, the low
word then the high word. -/
def payload (W : Words) : Nat := W 1 ||| ((W 2 <<< 32) % 2 ^ 64)

/-! # Lemmas and theorems -/

/-! ## Bit-level lemmas -/

theorem testBit_clear_bits (f m i : Nat) :
    (clear_bits f m).testBit i = (f.testBit i && !m.testBit i) := by
  simp only [clear_bits, Nat.testBit_xor, Nat.testBit_and]
  cases f.testBit i <;> cases m.testBit i <;> rfl

theorem clear_bits_eq_ldiff (f m : Nat) : clear_bits f m = Nat.ldiff f m := by
  apply Nat.eq_of_testBit_eq
  intro i
  rw [testBit_clear_bits, Nat.testBit_ldiff]

theorem testBit_STATE_MASK (f : Nat) (b : Bool) (m i : Nat) :
    (STATE_MASK f b m).testBit i = if m.testBit i then b else f.testBit i := by
  cases b <;> cases h : m.testBit i <;> simp [STATE_MASK, testBit_clear_bits, Nat.testBit_or, h]

theorem testBit_false_of_and_eq_zero {a b : Nat} (h : a &&& b = 0) (i : Nat)
    (ha : a.testBit i = true) : b.testBit i = false := by
  have := congrArg (fun n => n.testBit i) h
  simp [Nat.testBit_and, ha] at this
  exact this

theorem and_or_eq_zero {a b d : Nat} (h1 : a &&& b = 0) (h2 : a &&& d = 0) :
    a &&& (b ||| d) = 0 := by
  apply Nat.eq_of_testBit_eq
  intro i
  have e1 := congrArg (fun n => n.testBit i) h1
  have e2 := congrArg (fun n => n.testBit i) h2
  simp only [Nat.testBit_and, Nat.zero_testBit] at e1 e2
  simp only [Nat.testBit_and, Nat.testBit_or, Nat.zero_testBit, Bool.and_or_distrib_left, e1, e2]
  rfl

/-- After `x |= m` every bit of `m` is set. -/
theorem or_and_self (x m : Nat) : (x ||| m) &&& m = m := by
  apply Nat.eq_of_testBit_eq
  intro i
  simp only [Nat.testBit_and, Nat.testBit_or]
  cases x.testBit i <;> cases m.testBit i <;> rfl

/-- After `x &= ~k` every bit of a mask inside `k` is clear. -/
theorem clear_bits_and_eq_zero (x k m : Nat) (h : m &&& k = m) : clear_bits x k &&& m = 0 := by
  apply Nat.eq_of_testBit_eq
  intro i
  have e := congrArg (fun n => n.testBit i) h
  simp only [Nat.testBit_and] at e
  simp only [Nat.testBit_and, testBit_clear_bits, Nat.zero_testBit]
  revert e
  cases x.testBit i <;> cases m.testBit i <;> cases k.testBit i <;> simp

/-- Setting `m` after clearing `k` leaves a mask inside `k` and disjoint from `m` clear. -/
theorem clear_bits_or_and_eq_zero (x k m n : Nat) (h : n &&& k = n) (hd : m &&& n = 0) :
    (clear_bits x k ||| m) &&& n = 0 := by
  apply Nat.eq_of_testBit_eq
  intro i
  have e := congrArg (fun n => n.testBit i) h
  have d := congrArg (fun n => n.testBit i) hd
  simp only [Nat.testBit_and, Nat.zero_testBit] at e d
  simp only [Nat.testBit_and, testBit_clear_bits, Nat.testBit_or, Nat.zero_testBit]
  revert e d
  cases x.testBit i <;> cases m.testBit i <;> cases k.testBit i <;> cases n.testBit i <;> simp

theorem and_or3 (m f k : Nat) :
    m &&& (m ||| f ||| k) = m ∧ f &&& (m ||| f ||| k) = f ∧ k &&& (m ||| f ||| k) = k := by
  refine ⟨?_, ?_, ?_⟩ <;>
  · apply Nat.eq_of_testBit_eq
    intro i
    simp only [Nat.testBit_and, Nat.testBit_or]
    cases m.testBit i <;> cases f.testBit i <;> cases k.testBit i <;> rfl

/-- The test `bool(w & (1 << k))` of the source reads bit `k` of `w`. -/
theorem bool_and_bit (w k : Nat) : bool (w &&& (1 <<< k)) = w.testBit k := by
  simp only [bool, Nat.one_shiftLeft, Nat.and_two_pow]
  cases h : w.testBit k <;> simp [h]

/-! ## The sample constants are admissible -/

theorem sampleConsts_RasterWF : sampleConsts.RasterWF := by decide

theorem sampleConsts_DepthBlendWF : sampleConsts.DepthBlendWF := by decide

theorem sampleConsts_TriangleWF : sampleConsts.TriangleWF := by decide

theorem sampleConsts_TileWF : sampleConsts.TileWF := by decide

theorem sampleConsts_CycleWF : sampleConsts.CycleWF := by decide

/-! ## Frame of the mode commands -/

theorem other_modes_flags_frame (c : Consts) (p : CommandProcessor) (words : Words) (i : Nat)
    (h : c.otherModesMask.testBit i = false) :
    (op_set_other_modes c p words).1.static_state.flags.testBit i
      = p.static_state.flags.testBit i := by
  simp only [Consts.otherModesMask, Nat.testBit_or, Bool.or_eq_false_iff] at h
  obtain ⟨⟨⟨⟨⟨⟨⟨⟨⟨⟨⟨⟨⟨⟨⟨h1, h2⟩, h3⟩, h4⟩, h5⟩, h6⟩, h7⟩, h8⟩, h9⟩, h10⟩, h11⟩, h12⟩, h13⟩, h14⟩,
    h15⟩, h16⟩ := h
  simp only [op_set_other_modes]
  split_ifs <;>
    simp [testBit_STATE_MASK, testBit_clear_bits, Nat.testBit_or, h1, h2, h3, h4, h5, h6, h7, h8,
      h9, h10, h11, h12, h13, h14, h15, h16]

theorem other_modes_flags_local (c : Consts) (p q : CommandProcessor) (words : Words) (i : Nat)
    (h : p.static_state.flags.testBit i = q.static_state.flags.testBit i) :
    (op_set_other_modes c p words).1.static_state.flags.testBit i
      = (op_set_other_modes c q words).1.static_state.flags.testBit i := by
  simp only [op_set_other_modes]
  split_ifs <;>
    simp only [testBit_STATE_MASK, testBit_clear_bits, Nat.testBit_or, h]

theorem interlace_disjoint (c : Consts) (hc : c.RasterWF) :
    c.RASTERIZATION_INTERLACE_FIELD_BIT &&& c.otherModesMask = 0 ∧
    c.RASTERIZATION_INTERLACE_KEEP_ODD_BIT &&& c.otherModesMask = 0 := by
  have h := hc.2
  simp only [Consts.rasterMasks, List.pairwise_cons, List.mem_cons, forall_eq_or_imp,
    List.mem_singleton, forall_eq, List.not_mem_nil, IsEmpty.forall_iff, implies_true,
    and_true] at h
  obtain ⟨⟨-, hF⟩, ⟨hK, -⟩⟩ := h
  simp only [Consts.otherModesMask]
  constructor
  · repeat first | apply and_or_eq_zero | tauto
  · repeat first | apply and_or_eq_zero | tauto

theorem scissor_flags_testBit (c : Consts) (p : CommandProcessor) (words : Words) (i : Nat) :
    (op_set_scissor c p words).1.static_state.flags.testBit i =
      if c.RASTERIZATION_INTERLACE_KEEP_ODD_BIT.testBit i then bool (words 1 &&& (1 <<< 24))
      else if c.RASTERIZATION_INTERLACE_FIELD_BIT.testBit i then bool (words 1 &&& (1 <<< 25))
      else p.static_state.flags.testBit i := by
  simp only [op_set_scissor, testBit_STATE_MASK]

theorem other_modes_keeps_mask (c : Consts) (p : CommandProcessor) (words : Words) (m : Nat)
    (hm : m &&& c.otherModesMask = 0) :
    (op_set_other_modes c p words).1.static_state.flags &&& m = p.static_state.flags &&& m := by
  apply Nat.eq_of_testBit_eq
  intro i
  rw [Nat.testBit_and, Nat.testBit_and]
  cases h : m.testBit i
  · simp
  · rw [other_modes_flags_frame c p words i (testBit_false_of_and_eq_zero hm i h)]

theorem scissor_other_modes_flags_comm (c : Consts) (hc : c.RasterWF) (p : CommandProcessor)
    (wa wb : Words) :
    (op_set_other_modes c (op_set_scissor c p wa).1 wb).1.static_state.flags =
      (op_set_scissor c (op_set_other_modes c p wb).1 wa).1.static_state.flags := by
  obtain ⟨hF, hK⟩ := interlace_disjoint c hc
  apply Nat.eq_of_testBit_eq
  intro i
  rw [scissor_flags_testBit]
  cases hk : c.RASTERIZATION_INTERLACE_KEEP_ODD_BIT.testBit i
  · cases hf : c.RASTERIZATION_INTERLACE_FIELD_BIT.testBit i
    · simp only [Bool.false_eq_true, if_false]
      apply other_modes_flags_local
      rw [scissor_flags_testBit]
      simp [hk, hf]
    · rw [other_modes_flags_frame c _ wb i (testBit_false_of_and_eq_zero hF i hf),
        scissor_flags_testBit]
      simp [hk, hf]
  · rw [other_modes_flags_frame c _ wb i (testBit_false_of_and_eq_zero hK i hk),
      scissor_flags_testBit]
    simp [hk]

theorem scissor_flags_outside (c : Consts) (p : CommandProcessor) (words : Words) :
    clear_bits (op_set_scissor c p words).1.static_state.flags c.interlaceMask =
      clear_bits p.static_state.flags c.interlaceMask := by
  apply Nat.eq_of_testBit_eq
  intro i
  rw [testBit_clear_bits, testBit_clear_bits, scissor_flags_testBit]
  simp only [Consts.interlaceMask, Nat.testBit_or]
  cases hk : c.RASTERIZATION_INTERLACE_KEEP_ODD_BIT.testBit i <;>
    cases hf : c.RASTERIZATION_INTERLACE_FIELD_BIT.testBit i <;> simp

theorem cycle_masks (c : Consts) (hc : c.RasterWF) :
    c.RASTERIZATION_MULTI_CYCLE_BIT ≠ 0 ∧ c.RASTERIZATION_FILL_BIT ≠ 0 ∧
    c.RASTERIZATION_COPY_BIT ≠ 0 ∧
    c.RASTERIZATION_MULTI_CYCLE_BIT &&& c.RASTERIZATION_FILL_BIT = 0 ∧
    c.RASTERIZATION_MULTI_CYCLE_BIT &&& c.RASTERIZATION_COPY_BIT = 0 ∧
    c.RASTERIZATION_FILL_BIT &&& c.RASTERIZATION_COPY_BIT = 0 := by
  obtain ⟨h0, h⟩ := hc
  simp only [Consts.rasterMasks, List.pairwise_cons, List.mem_cons, forall_eq_or_imp,
    List.mem_singleton, forall_eq, List.not_mem_nil, IsEmpty.forall_iff, implies_true,
    and_true] at h h0
  tauto

/-- The flag words after `op_set_other_modes`, by the case of the `switch` on the cycle type. -/
theorem other_modes_cycle_flags (c : Consts) (p : CommandProcessor) (words : Words) :
    ∃ x : Nat,
      (op_set_other_modes c p words).1.static_state.flags =
        (if (words 0 >>> 20) &&& 3 = c.CycleType_Cycle2 then
          clear_bits x (c.RASTERIZATION_MULTI_CYCLE_BIT ||| c.RASTERIZATION_FILL_BIT |||
            c.RASTERIZATION_COPY_BIT) ||| c.RASTERIZATION_MULTI_CYCLE_BIT
        else if (words 0 >>> 20) &&& 3 = c.CycleType_Fill then
          clear_bits x (c.RASTERIZATION_MULTI_CYCLE_BIT ||| c.RASTERIZATION_FILL_BIT |||
            c.RASTERIZATION_COPY_BIT) ||| c.RASTERIZATION_FILL_BIT
        else if (words 0 >>> 20) &&& 3 = c.CycleType_Copy then
          clear_bits x (c.RASTERIZATION_MULTI_CYCLE_BIT ||| c.RASTERIZATION_FILL_BIT |||
            c.RASTERIZATION_COPY_BIT) ||| c.RASTERIZATION_COPY_BIT
        else
          clear_bits x (c.RASTERIZATION_MULTI_CYCLE_BIT ||| c.RASTERIZATION_FILL_BIT |||
            c.RASTERIZATION_COPY_BIT)) ∧
      ∃ y : Nat, (op_set_other_modes c p words).1.depth_blend.flags =
        (if (words 0 >>> 20) &&& 3 = c.CycleType_Cycle2 then
          clear_bits y c.DEPTH_BLEND_MULTI_CYCLE_BIT ||| c.DEPTH_BLEND_MULTI_CYCLE_BIT
        else clear_bits y c.DEPTH_BLEND_MULTI_CYCLE_BIT) :=
  ⟨_, rfl, _, rfl⟩

/-! ## Sign extension -/

theorem ldiff_one (n : Nat) : Nat.ldiff n 1 = n - n % 2 := by
  apply Nat.eq_of_testBit_eq
  intro i
  rw [Nat.testBit_ldiff]
  have h : n - n % 2 = 2 * (n / 2) := by omega
  rw [h]
  cases i with
  | zero => simp [Nat.testBit_zero]
  | succ j =>
    rw [Nat.testBit_succ, Nat.testBit_succ, Nat.testBit_succ]
    simp

theorem lor_one (n : Nat) : n ||| 1 = n + 1 - n % 2 := by
  apply Nat.eq_of_testBit_eq
  intro i
  rw [Nat.testBit_or]
  have h : n + 1 - n % 2 = 2 * (n / 2) + 1 := by omega
  rw [h]
  cases i with
  | zero => simp [Nat.testBit_zero]; omega
  | succ j =>
    rw [Nat.testBit_succ, Nat.testBit_succ, Nat.testBit_succ]
    have : (2 * (n / 2) + 1) / 2 = n / 2 := by omega
    simp [this]

/-- The expression `x & ~1` on an integer clears bit 0. -/
theorem land_not_one (x : Int) : Int.land x (~~~1) = clearBit0 x := by
  unfold clearBit0
  cases x with
  | ofNat n =>
    show Int.ofNat (Nat.ldiff n 1) = _
    rw [ldiff_one]
    simp only [Int.ofNat_eq_coe]
    omega
  | negSucc m =>
    show Int.negSucc (m ||| 1) = _
    rw [lor_one]
    simp only [Int.negSucc_eq]
    omega

theorem and_0x3fff (w : Nat) : w &&& 0x3fff = w % 2 ^ 14 := Nat.and_pow_two_sub_one_eq_mod w 14

theorem and_0xfffffff (w : Nat) : w &&& 0xfffffff = w % 2 ^ 28 :=
  Nat.and_pow_two_sub_one_eq_mod w 28

theorem sext14_i32 (w : Nat) : sext 14 (i32 w) = twosComplement 14 (w &&& 0x3fff) := by
  rw [and_0x3fff]
  simp only [sext, i32, int32_t, twosComplement, Nat.testBit_to_div_mod,
    decide_eq_true_eq]
  norm_num
  split_ifs <;> omega

theorem sext28_i32 (w : Nat) : sext 28 (i32 w) = twosComplement 28 (w &&& 0xfffffff) := by
  rw [and_0xfffffff]
  simp only [sext, i32, int32_t, twosComplement, Nat.testBit_to_div_mod,
    decide_eq_true_eq]
  norm_num
  split_ifs <;> omega

theorem sext14_range (v : Int) : -8192 ≤ sext 14 v ∧ sext 14 v ≤ 8191 := by
  simp only [sext]
  norm_num
  split_ifs <;> omega

theorem clearBit0_sext28 (v : Int) :
    clearBit0 (sext 28 v) % 2 = 0 ∧ -2 ^ 27 ≤ clearBit0 (sext 28 v) ∧
      clearBit0 (sext 28 v) ≤ 2 ^ 27 - 2 := by
  simp only [sext, clearBit0]
  norm_num
  split_ifs <;> omega

/-! ## Flags of a word built with `|=` -/

theorem and_ne_zero_iff_exists (a b : Nat) :
    a &&& b ≠ 0 ↔ ∃ i, a.testBit i = true ∧ b.testBit i = true := by
  constructor
  · intro h
    obtain ⟨i, hi⟩ := Nat.ne_zero_implies_bit_true h
    exact ⟨i, by simpa [Nat.testBit_and] using hi⟩
  · rintro ⟨i, ha, hb⟩ h
    have := congrArg (fun n => n.testBit i) h
    simp [Nat.testBit_and, ha, hb] at this

theorem flagSet_or (a b m : Nat) : FlagSet (a ||| b) m ↔ FlagSet a m ∨ FlagSet b m := by
  simp only [FlagSet, and_ne_zero_iff_exists, Nat.testBit_or, Bool.or_eq_true]
  constructor
  · rintro ⟨i, h | h, hm⟩
    · exact Or.inl ⟨i, h, hm⟩
    · exact Or.inr ⟨i, h, hm⟩
  · rintro (⟨i, h, hm⟩ | ⟨i, h, hm⟩)
    · exact ⟨i, Or.inl h, hm⟩
    · exact ⟨i, Or.inr h, hm⟩

theorem not_flagSet_zero (m : Nat) : ¬ FlagSet 0 m := by
  simp [FlagSet]

theorem flagSet_self (m : Nat) (h : m ≠ 0) : FlagSet m m := by
  simpa [FlagSet] using h

theorem not_flagSet_of_disjoint {a m : Nat} (h : a &&& m = 0) : ¬ FlagSet a m := by
  simp [FlagSet, h]

/-- A flag conditionally or-ed into a word is set exactly under its condition. -/
theorem flagSet_ite_self (q : Prop) [Decidable q] (m : Nat) (h : m ≠ 0) :
    FlagSet (if q then m else 0) m ↔ q := by
  by_cases hq : q
  · simp [hq, flagSet_self m h]
  · simp [hq, not_flagSet_zero]

/-- A flag conditionally or-ed into a word does not set a disjoint flag. -/
theorem not_flagSet_ite {a m : Nat} (q : Prop) [Decidable q] (h : a &&& m = 0) :
    ¬ FlagSet (if q then a else 0) m := by
  by_cases hq : q
  · simpa [hq] using not_flagSet_of_disjoint h
  · simpa [hq] using not_flagSet_zero m

theorem and_pow_ne_zero (w k : Nat) : ((w &&& 2 ^ k) != 0) = w.testBit k := by
  rw [Nat.and_two_pow]
  cases h : w.testBit k <;> simp [h]

theorem triangle_masks (c : Consts) (hc : c.TriangleWF) :
    c.TRIANGLE_SETUP_FLIP_BIT ≠ 0 ∧ c.TRIANGLE_SETUP_DO_OFFSET_BIT ≠ 0 ∧
    c.TRIANGLE_SETUP_SKIP_XFRAC_BIT ≠ 0 ∧
    c.TRIANGLE_SETUP_FLIP_BIT &&& c.TRIANGLE_SETUP_DO_OFFSET_BIT = 0 ∧
    c.TRIANGLE_SETUP_FLIP_BIT &&& c.TRIANGLE_SETUP_SKIP_XFRAC_BIT = 0 ∧
    c.TRIANGLE_SETUP_DO_OFFSET_BIT &&& c.TRIANGLE_SETUP_SKIP_XFRAC_BIT = 0 := by
  obtain ⟨h0, h⟩ := hc
  simp only [Consts.triangleMasks, List.pairwise_cons, List.mem_cons, forall_eq_or_imp,
    List.mem_singleton, forall_eq, List.not_mem_nil, IsEmpty.forall_iff, implies_true,
    and_true] at h h0
  tauto

/-- The flags that `decode_triangle_setup` leaves in a zero-initialised setup. -/
theorem triangle_setup_flags (c : Consts) (W : Words) (copy : Bool) :
    (decode_triangle_setup c {} W copy).flags =
      0 ||| (if (W 0).testBit 23 then c.TRIANGLE_SETUP_FLIP_BIT else 0) |||
        (if (W 0).testBit 23 = (W 5).testBit 31 then c.TRIANGLE_SETUP_DO_OFFSET_BIT else 0) |||
        (if copy then c.TRIANGLE_SETUP_SKIP_XFRAC_BIT else 0) := by
  have h0 : ((W 0 &&& 0x800000) != 0) = (W 0).testBit 23 := and_pow_ne_zero (W 0) 23
  have h5 : ((W 5 &&& 0x80000000) != 0) = (W 5).testBit 31 := and_pow_ne_zero (W 5) 31
  simp only [decode_triangle_setup, h0, h5, beq_iff_eq]

/-! ## Halves of 32-bit words -/

theorem testBit_of_lt_two_pow {x n i : Nat} (h : x < 2 ^ n) (hi : n ≤ i) :
    x.testBit i = false :=
  Nat.testBit_lt_two_pow (lt_of_lt_of_le h (Nat.pow_le_pow_right (by decide) hi))

theorem testBit_0xffff0000 (i : Nat) :
    (0xffff0000 : Nat).testBit i = (decide (16 ≤ i) && decide (i < 32)) := by
  have h : (0xffff0000 : Nat) = (2 ^ 16 - 1) <<< 16 := by decide
  rw [h, Nat.testBit_shiftLeft, Nat.testBit_two_pow_sub_one]
  by_cases h1 : 16 ≤ i <;> by_cases h2 : i < 32 <;> simp [h1, h2] <;> omega

theorem testBit_0xffff (i : Nat) : (0xffff : Nat).testBit i = decide (i < 16) :=
  Nat.testBit_two_pow_sub_one 16 i

theorem shr16_and_0xffff (x : Nat) (h : x < 2 ^ 32) : (x >>> 16) &&& 0xffff = x >>> 16 := by
  have h1 : (x >>> 16) &&& 0xffff = (x >>> 16) % 2 ^ 16 :=
    Nat.and_pow_two_sub_one_eq_mod (x >>> 16) 16
  rw [h1, Nat.shiftRight_eq_div_pow]
  apply Nat.mod_eq_of_lt
  omega

theorem testBit_shl32 (x k i : Nat) :
    (shl32 x k).testBit i = (decide (i < 32) && (decide (k ≤ i) && x.testBit (i - k))) := by
  simp only [shl32, Nat.testBit_mod_two_pow, Nat.testBit_shiftLeft, ge_iff_le]

theorem shl32_16_and (x : Nat) : shl32 x 16 &&& 0xffff0000 = shl32 x 16 := by
  apply Nat.eq_of_testBit_eq
  intro i
  rw [Nat.testBit_and, testBit_shl32, testBit_0xffff0000]
  by_cases h1 : 16 ≤ i <;> by_cases h2 : i < 32 <;> simp [h1, h2]

theorem bits32_i32 (n : Nat) (h : n < 2 ^ 32) : bits32 (i32 n) = n := by
  simp only [bits32, i32, int32_t]
  omega

theorem hiPair_halves (W : Words) (hW : Words32 W) (i : Nat) :
    hiPair W i >>> 16 = W i >>> 16 ∧ hiPair W i % 2 ^ 16 = W (i + 4) >>> 16 := by
  have h4 := hW (i + 4)
  have h0 := hW i
  constructor
  · apply Nat.eq_of_testBit_eq
    intro j
    simp only [hiPair, Nat.testBit_shiftRight, Nat.testBit_or, Nat.testBit_and,
      testBit_0xffff0000]
    by_cases hj : 16 + j < 32
    · have : (W (i + 4)).testBit (16 + (16 + j)) = false :=
        testBit_of_lt_two_pow h4 (by omega)
      simp [hj, this]
    · have h1 : (W (i + 4)).testBit (16 + (16 + j)) = false :=
        testBit_of_lt_two_pow h4 (by omega)
      have h2 : (W i).testBit (16 + j) = false := testBit_of_lt_two_pow h0 (by omega)
      simp [hj, h1, h2]
  · apply Nat.eq_of_testBit_eq
    intro j
    simp only [hiPair, Nat.testBit_mod_two_pow, Nat.testBit_shiftRight, Nat.testBit_or,
      Nat.testBit_and, testBit_0xffff0000]
    by_cases hj : j < 16
    · have : ¬ 16 ≤ j := by omega
      simp [hj, this]
    · have h1 : (W (i + 4)).testBit (16 + j) = false := testBit_of_lt_two_pow h4 (by omega)
      simp [hj, h1]

theorem loPair_halves (W : Words) (i : Nat) :
    loPair W i >>> 16 = W i % 2 ^ 16 ∧ loPair W i % 2 ^ 16 = W (i + 4) % 2 ^ 16 := by
  have e : ∀ x : Nat, (x <<< 16) % 2 ^ 32 = shl32 x 16 := fun _ => rfl
  constructor
  · apply Nat.eq_of_testBit_eq
    intro j
    simp only [loPair, e, Nat.testBit_shiftRight, Nat.testBit_or, Nat.testBit_and,
      testBit_shl32, testBit_0xffff, Nat.testBit_mod_two_pow]
    by_cases hj : j < 16
    · have h1 : 16 + j < 32 := by omega
      have h2 : ¬ 16 + j < 16 := by omega
      simp [hj, h1, h2]
    · have h1 : ¬ 16 + j < 32 := by omega
      have h2 : ¬ 16 + j < 16 := by omega
      simp [hj, h1, h2]
  · apply Nat.eq_of_testBit_eq
    intro j
    simp only [loPair, e, Nat.testBit_or, Nat.testBit_and,
      testBit_shl32, testBit_0xffff, Nat.testBit_mod_two_pow]
    by_cases hj : j < 16
    · have h1 : ¬ 16 ≤ j := by omega
      simp [hj, h1]
    · simp [hj]

theorem hiPair_lt (W : Words) (hW : Words32 W) (i : Nat) : hiPair W i < 2 ^ 32 := by
  have h4 := hW (i + 4)
  apply Nat.or_lt_two_pow
  · exact Nat.and_lt_two_pow _ (by decide)
  · rw [Nat.shiftRight_eq_div_pow]
    omega

theorem loPair_lt (W : Words) (i : Nat) : loPair W i < 2 ^ 32 := by
  apply Nat.or_lt_two_pow
  · exact Nat.mod_lt _ (by decide)
  · exact lt_of_le_of_lt Nat.and_le_right (by decide)

theorem sampleWords_32 : Words32 sampleWords := by
  intro i
  by_cases h : i < 44
  · interval_cases i <;> decide
  · have : sampleWords i = 0 := by
      unfold sampleWords
      exact List.getD_eq_default _ _ (by simpa using h)
    rw [this]
    decide

/-! ## Tile flags -/

theorem flagSet_ite_or (q : Prop) [Decidable q] (x a m : Nat) :
    FlagSet (if q then x ||| a else x) m ↔ FlagSet x m ∨ (q ∧ FlagSet a m) := by
  by_cases hq : q
  · simp [hq, flagSet_or]
  · simp [hq]

theorem tile_masks (c : Consts) (hc : c.TileWF) :
    c.TILE_INFO_CLAMP_S_BIT ≠ 0 ∧ c.TILE_INFO_CLAMP_T_BIT ≠ 0 ∧
    c.TILE_INFO_MIRROR_S_BIT &&& c.TILE_INFO_CLAMP_S_BIT = 0 ∧
    c.TILE_INFO_MIRROR_S_BIT &&& c.TILE_INFO_CLAMP_T_BIT = 0 ∧
    c.TILE_INFO_MIRROR_T_BIT &&& c.TILE_INFO_CLAMP_T_BIT = 0 ∧
    c.TILE_INFO_CLAMP_S_BIT &&& c.TILE_INFO_MIRROR_T_BIT = 0 ∧
    c.TILE_INFO_CLAMP_S_BIT &&& c.TILE_INFO_CLAMP_T_BIT = 0 := by
  obtain ⟨h0, h⟩ := hc
  simp only [Consts.tileMasks, List.pairwise_cons, List.mem_cons, forall_eq_or_imp,
    List.mem_singleton, forall_eq, List.not_mem_nil, IsEmpty.forall_iff, implies_true,
    and_true] at h h0
  tauto

theorem ite_or_eq (q : Prop) [Decidable q] (f m : Nat) :
    (if q then f ||| m else f) = f ||| (if q then m else 0) := by
  by_cases hq : q <;> simp [hq]

theorem saturate_step (m f k : Nat) :
    (if m > 10 then (10, f) else if m = 0 then (m, f ||| k) else (m, f)) =
      (min m 10, f ||| (if m = 0 then k else 0)) := by
  by_cases h1 : m > 10
  · have h2 : ¬ m = 0 := by omega
    have h3 : min m 10 = 10 := by omega
    simp [h1, h2, h3]
  · have h3 : min m 10 = m := by omega
    by_cases h2 : m = 0 <;> simp [h1, h2, h3]

/-- What `op_set_tile` forwards: one `set_tile` call whose masks are saturated at 10 and whose
flags are the four bits of the command and the two clamps forced by a zero mask. -/
theorem set_tile_forwards (c : Consts) (p : CommandProcessor) (W : Words) :
    op_set_tile c p W = (p, [Effect.set_tile ((W 1 >>> 24) &&& 7)
      { offset := shl32 ((W 0 >>> 0) &&& 511) 3
        stride := shl32 ((W 0 >>> 9) &&& 511) 3
        size := (W 0 >>> 19) &&& 3
        fmt := (W 0 >>> 21) &&& 7
        palette := (W 1 >>> 20) &&& 15
        shift_s := (W 1 >>> 0) &&& 15
        mask_s := min ((W 1 >>> 4) &&& 15) 10
        shift_t := (W 1 >>> 10) &&& 15
        mask_t := min ((W 1 >>> 14) &&& 15) 10
        flags :=
          0 ||| (if (W 1).testBit 8 then c.TILE_INFO_MIRROR_S_BIT else 0) |||
            (if (W 1).testBit 9 then c.TILE_INFO_CLAMP_S_BIT else 0) |||
            (if (W 1).testBit 18 then c.TILE_INFO_MIRROR_T_BIT else 0) |||
            (if (W 1).testBit 19 then c.TILE_INFO_CLAMP_T_BIT else 0) |||
            (if (W 1 >>> 4) &&& 15 = 0 then c.TILE_INFO_CLAMP_S_BIT else 0) |||
            (if (W 1 >>> 14) &&& 15 = 0 then c.TILE_INFO_CLAMP_T_BIT else 0) }]) := by
  simp only [op_set_tile, bool_and_bit, ite_or_eq, saturate_step]

/-! ## Dispatch -/

theorem funcs_reserved (c : Consts) (op : Nat) (h : ReservedOpcode op) : funcs c op = none := by
  rcases h with h | ⟨h1, h2⟩ | h
  · interval_cases op <;> rfl
  · interval_cases op <;> rfl
  · subst h; rfl

theorem opcode_of_shift (m : Nat) (h : m < 64) : opcode (fun _ => m <<< 24) = m := by
  unfold opcode
  interval_cases m <;> rfl

/-- The two meta opcodes are served by the `switch` whatever slot of `funcs` they index: a
command whose opcode is `MetaFlush` flushes the renderer, one whose opcode is
`MetaSignalTimeline` flushes with a signal and pushes to the timeline worker. -/
theorem meta_opcodes_dispatch (c : Consts) (p : CommandProcessor) (n : Nat) (W : Words) :
    (opcode W = c.Op_MetaSignalTimeline →
      enqueue_command_direct c p n W =
        (p, [Effect.flush_and_signal,
          Effect.timeline_worker_push (W 1 ||| ((W 2 <<< 32) % 2 ^ 64))])) ∧
    (opcode W ≠ c.Op_MetaSignalTimeline → opcode W = c.Op_MetaFlush →
      enqueue_command_direct c p n W = (p, [Effect.flush])) := by
  constructor
  · intro h
    unfold opcode at h
    simp only [enqueue_command_direct, h, if_true]
  · intro h1 h2
    unfold opcode at h1 h2
    rw [h2] at h1
    simp only [enqueue_command_direct, h2, h1, if_true, if_false]

/-- Whatever values below 64 the header gives the two meta opcodes, the word
`uint32_t(Op::MetaFlush) << 24` that `flush()` builds and the word
`uint32_t(Op::MetaSignalTimeline) << 24` that `signal_timeline()` builds are commands that call
the renderer.  When the value has no slot in `funcs`, it is a reserved opcode that is not a
no-op. -/
theorem meta_commands_call_renderer (c : Consts) (p : CommandProcessor) (n : Nat)
    (hs : c.Op_MetaSignalTimeline < 64) (hf : c.Op_MetaFlush < 64)
    (hne : c.Op_MetaFlush ≠ c.Op_MetaSignalTimeline) :
    enqueue_command_direct c p n (fun _ => c.Op_MetaFlush <<< 24) = (p, [Effect.flush]) ∧
    (enqueue_command_direct c p n (fun _ => c.Op_MetaSignalTimeline <<< 24)).2 ≠ [] := by
  constructor
  · exact (meta_opcodes_dispatch c p n _).2 (by rw [opcode_of_shift _ hf]; exact hne)
      (opcode_of_shift _ hf)
  · rw [(meta_opcodes_dispatch c p n _).1 (opcode_of_shift _ hs)]
    simp

/-! ## C1 to C3: the mode commands -/

/-- C1. Each mode command writes only what it owns.  `op_set_scissor` leaves the depth/blend
state, the texture image descriptor, the dither, both combiner stages and every bit of the
rasterization flags outside the two interlace masks as they were (only the scissor bounds and
the interlace bits can differ); `op_set_other_modes` leaves the two interlace bits, the scissor
bounds, both combiner stages and the texture image descriptor as they were; `op_set_combine`
leaves everything but the two combiner stages; `op_set_texture_image` leaves everything but the
texture image descriptor. -/
theorem mode_commands_frame (c : Consts) (hc : c.RasterWF) (p : CommandProcessor)
    (words : Words) :
    ((op_set_scissor c p words).1.depth_blend = p.depth_blend ∧
      (op_set_scissor c p words).1.texture_image = p.texture_image ∧
      (op_set_scissor c p words).1.static_state.dither = p.static_state.dither ∧
      (op_set_scissor c p words).1.static_state.combiner0 = p.static_state.combiner0 ∧
      (op_set_scissor c p words).1.static_state.combiner1 = p.static_state.combiner1 ∧
      clear_bits (op_set_scissor c p words).1.static_state.flags c.interlaceMask =
        clear_bits p.static_state.flags c.interlaceMask) ∧
    ((op_set_other_modes c p words).1.static_state.flags &&& c.RASTERIZATION_INTERLACE_FIELD_BIT =
        p.static_state.flags &&& c.RASTERIZATION_INTERLACE_FIELD_BIT ∧
      (op_set_other_modes c p words).1.static_state.flags &&&
          c.RASTERIZATION_INTERLACE_KEEP_ODD_BIT =
        p.static_state.flags &&& c.RASTERIZATION_INTERLACE_KEEP_ODD_BIT ∧
      (op_set_other_modes c p words).1.scissor_state = p.scissor_state ∧
      (op_set_other_modes c p words).1.static_state.combiner0 = p.static_state.combiner0 ∧
      (op_set_other_modes c p words).1.static_state.combiner1 = p.static_state.combiner1 ∧
      (op_set_other_modes c p words).1.texture_image = p.texture_image) ∧
    ((op_set_combine p words).1.static_state.flags = p.static_state.flags ∧
      (op_set_combine p words).1.static_state.dither = p.static_state.dither ∧
      (op_set_combine p words).1.depth_blend = p.depth_blend ∧
      (op_set_combine p words).1.scissor_state = p.scissor_state ∧
      (op_set_combine p words).1.texture_image = p.texture_image) ∧
    ((op_set_texture_image p words).1.static_state = p.static_state ∧
      (op_set_texture_image p words).1.depth_blend = p.depth_blend ∧
      (op_set_texture_image p words).1.scissor_state = p.scissor_state) := by
  obtain ⟨hF, hK⟩ := interlace_disjoint c hc
  exact ⟨⟨rfl, rfl, rfl, rfl, rfl, scissor_flags_outside c p words⟩,
    ⟨other_modes_keeps_mask c p words _ hF, other_modes_keeps_mask c p words _ hK,
      rfl, rfl, rfl, rfl⟩,
    ⟨rfl, rfl, rfl, rfl, rfl⟩, ⟨rfl, rfl, rfl⟩⟩

/-- Witness of C1 at the sample constants, state and window: `op_set_other_modes` keeps the
interlace-field bit. -/
theorem mode_commands_frame_witness :
    sampleConsts.RasterWF ∧
      (op_set_other_modes sampleConsts sampleState sampleWords).1.static_state.flags &&&
          sampleConsts.RASTERIZATION_INTERLACE_FIELD_BIT =
        sampleState.static_state.flags &&& sampleConsts.RASTERIZATION_INTERLACE_FIELD_BIT :=
  ⟨by decide, (mode_commands_frame sampleConsts (by decide) sampleState sampleWords).2.1.1⟩

/-- C2. Two mode commands of different kinds among set_scissor, set_other_modes, set_combine and
set_texture_image commute: for each of the six pairs, with any words for either command, the
whole persistent render state after `A; B` is the state after `B; A`. -/
theorem mode_commands_commute (c : Consts) (hc : c.RasterWF) (p : CommandProcessor)
    (wa wb : Words) :
    (op_set_other_modes c (op_set_scissor c p wa).1 wb).1 =
        (op_set_scissor c (op_set_other_modes c p wb).1 wa).1 ∧
    (op_set_combine (op_set_scissor c p wa).1 wb).1 =
        (op_set_scissor c (op_set_combine p wb).1 wa).1 ∧
    (op_set_texture_image (op_set_scissor c p wa).1 wb).1 =
        (op_set_scissor c (op_set_texture_image p wb).1 wa).1 ∧
    (op_set_combine (op_set_other_modes c p wa).1 wb).1 =
        (op_set_other_modes c (op_set_combine p wb).1 wa).1 ∧
    (op_set_texture_image (op_set_other_modes c p wa).1 wb).1 =
        (op_set_other_modes c (op_set_texture_image p wb).1 wa).1 ∧
    (op_set_texture_image (op_set_combine p wa).1 wb).1 =
        (op_set_combine (op_set_texture_image p wb).1 wa).1 := by
  refine ⟨?_, rfl, rfl, rfl, rfl, rfl⟩
  apply CommandProcessor.ext
  · apply StaticRasterizationState.ext
    · rfl
    · rfl
    · exact scissor_other_modes_flags_comm c hc p wa wb
    · rfl
  · rfl
  · rfl
  · rfl

/-- Witness of C2 at the sample constants and state: set_scissor with the words of the sample
window from index 0 and set_other_modes with those from index 2 commute. -/
theorem mode_commands_commute_witness :
    sampleConsts.RasterWF ∧
      (op_set_other_modes sampleConsts
          (op_set_scissor sampleConsts sampleState sampleWords).1 (shift sampleWords 2)).1 =
        (op_set_scissor sampleConsts
          (op_set_other_modes sampleConsts sampleState (shift sampleWords 2)).1 sampleWords).1 :=
  ⟨by decide,
    (mode_commands_commute sampleConsts (by decide) sampleState sampleWords
      (shift sampleWords 2)).1⟩

/-- C3. After `op_set_other_modes`, whatever the state before: when bits [21:20] of word 0 are
the two-cycle, fill or copy enumerator, the rasterization flag of that cycle type is set and the
other two of MULTI_CYCLE, FILL, COPY are clear; and the depth/blend MULTI_CYCLE flag is set
exactly when the rasterization MULTI_CYCLE flag is. -/
theorem cycle_type_exclusive (c : Consts) (hr : c.RasterWF) (hd : c.DepthBlendWF)
    (hy : c.CycleWF) (p : CommandProcessor) (words : Words) :
    ((words 0 >>> 20) &&& 3 = c.CycleType_Cycle2 →
      FlagSet (op_set_other_modes c p words).1.static_state.flags c.RASTERIZATION_MULTI_CYCLE_BIT ∧
      ¬ FlagSet (op_set_other_modes c p words).1.static_state.flags c.RASTERIZATION_FILL_BIT ∧
      ¬ FlagSet (op_set_other_modes c p words).1.static_state.flags c.RASTERIZATION_COPY_BIT) ∧
    ((words 0 >>> 20) &&& 3 = c.CycleType_Fill →
      ¬ FlagSet (op_set_other_modes c p words).1.static_state.flags
          c.RASTERIZATION_MULTI_CYCLE_BIT ∧
      FlagSet (op_set_other_modes c p words).1.static_state.flags c.RASTERIZATION_FILL_BIT ∧
      ¬ FlagSet (op_set_other_modes c p words).1.static_state.flags c.RASTERIZATION_COPY_BIT) ∧
    ((words 0 >>> 20) &&& 3 = c.CycleType_Copy →
      ¬ FlagSet (op_set_other_modes c p words).1.static_state.flags
          c.RASTERIZATION_MULTI_CYCLE_BIT ∧
      ¬ FlagSet (op_set_other_modes c p words).1.static_state.flags c.RASTERIZATION_FILL_BIT ∧
      FlagSet (op_set_other_modes c p words).1.static_state.flags c.RASTERIZATION_COPY_BIT) ∧
    (FlagSet (op_set_other_modes c p words).1.depth_blend.flags c.DEPTH_BLEND_MULTI_CYCLE_BIT ↔
      FlagSet (op_set_other_modes c p words).1.static_state.flags
        c.RASTERIZATION_MULTI_CYCLE_BIT) := by
  obtain ⟨hM, hF, hC, hMF, hMC, hFC⟩ := cycle_masks c hr
  have hD : c.DEPTH_BLEND_MULTI_CYCLE_BIT ≠ 0 := hd.1 _ (by simp [Consts.depthBlendMasks])
  obtain ⟨h2f, h2c, hfc⟩ := hy
  obtain ⟨x, hx, y, hy⟩ := other_modes_cycle_flags c p words
  obtain ⟨sM, sF, sC⟩ := and_or3 c.RASTERIZATION_MULTI_CYCLE_BIT c.RASTERIZATION_FILL_BIT
    c.RASTERIZATION_COPY_BIT
  have hFM : c.RASTERIZATION_FILL_BIT &&& c.RASTERIZATION_MULTI_CYCLE_BIT = 0 := by
    rw [Nat.land_comm]; exact hMF
  have hCM : c.RASTERIZATION_COPY_BIT &&& c.RASTERIZATION_MULTI_CYCLE_BIT = 0 := by
    rw [Nat.land_comm]; exact hMC
  have hCF : c.RASTERIZATION_COPY_BIT &&& c.RASTERIZATION_FILL_BIT = 0 := by
    rw [Nat.land_comm]; exact hFC
  have hDD : c.DEPTH_BLEND_MULTI_CYCLE_BIT &&& c.DEPTH_BLEND_MULTI_CYCLE_BIT
      = c.DEPTH_BLEND_MULTI_CYCLE_BIT := Nat.and_self _
  rw [hx, hy]
  unfold FlagSet
  refine ⟨?_, ?_, ?_, ?_⟩
  · intro h
    rw [if_pos h]
    simp [or_and_self, clear_bits_or_and_eq_zero, sF, sC, hMF, hMC, hM]
  · intro h
    rw [if_neg (by rw [h]; exact fun e => h2f e.symm), if_pos h]
    simp [or_and_self, clear_bits_or_and_eq_zero, sM, sC, hFM, hFC, hF]
  · intro h
    rw [if_neg (by rw [h]; exact fun e => h2c e.symm),
      if_neg (by rw [h]; exact fun e => hfc e.symm), if_pos h]
    simp [or_and_self, clear_bits_or_and_eq_zero, sM, sF, hCM, hCF, hC]
  · by_cases h : (words 0 >>> 20) &&& 3 = c.CycleType_Cycle2
    · rw [if_pos h, if_pos h]
      simp [or_and_self, hM, hD]
    · rw [if_neg h, if_neg h]
      have e1 := clear_bits_and_eq_zero y _ _ hDD
      split_ifs
      · simp [e1, clear_bits_or_and_eq_zero, sM, hFM]
      · simp [e1, clear_bits_or_and_eq_zero, sM, hCM]
      · simp [e1, clear_bits_and_eq_zero, sM]

/-- Witness of C3 at the sample constants and state and a command whose bits [21:20] of word 0
are the copy enumerator: only the COPY flag of the three is set afterwards. -/
theorem cycle_type_exclusive_witness :
    sampleConsts.RasterWF ∧ sampleConsts.DepthBlendWF ∧ sampleConsts.CycleWF ∧
      (¬ FlagSet (op_set_other_modes sampleConsts sampleState
            (fun _ => 0x2f200000)).1.static_state.flags
          sampleConsts.RASTERIZATION_MULTI_CYCLE_BIT ∧
        ¬ FlagSet (op_set_other_modes sampleConsts sampleState
            (fun _ => 0x2f200000)).1.static_state.flags
          sampleConsts.RASTERIZATION_FILL_BIT ∧
        FlagSet (op_set_other_modes sampleConsts sampleState
            (fun _ => 0x2f200000)).1.static_state.flags
          sampleConsts.RASTERIZATION_COPY_BIT) :=
  ⟨by decide, by decide, by decide,
    (cycle_type_exclusive sampleConsts (by decide) (by decide) (by decide) sampleState
      (fun _ => 0x2f200000)).2.2.1 (by decide)⟩

/-! ## C4 to C6: sign extension and the triangle setup -/

/-- C4. For each width `N` of 14, 16 and 28 and every input `v`, `sext<N>(v)` is the two's
complement value of the low `N` bits of `v`: it lies in `[-2^(N-1), 2^(N-1)-1]`, differs from `v`
by a multiple of `2^N`, depends on `v` only through its low `N` bits (so also not on the
conversion of a 32-bit word to `int32_t`), sends the pattern `2^(N-1)` to `-2^(N-1)` and the
pattern `2^(N-1)-1` to itself. -/
theorem sext_twos_complement (N : Nat) (hN : N = 14 ∨ N = 16 ∨ N = 28) (v : Int) :
    -(2 : Int) ^ (N - 1) ≤ sext N v ∧ sext N v ≤ 2 ^ (N - 1) - 1 ∧
    (sext N v - v) % 2 ^ N = 0 ∧
    (∀ u : Int, u % 2 ^ N = v % 2 ^ N → sext N u = sext N v) ∧
    sext N (int32_t v) = sext N v ∧
    sext N (2 ^ (N - 1)) = -(2 : Int) ^ (N - 1) ∧
    sext N (2 ^ (N - 1) - 1) = 2 ^ (N - 1) - 1 := by
  rcases hN with rfl | rfl | rfl
  all_goals
    refine ⟨?_, ?_, ?_, ?_, ?_, ?_, ?_⟩
    all_goals simp only [sext, int32_t]
    all_goals norm_num
    all_goals first
      | done
      | (intro u hu; rw [hu])
      | (split_ifs <;> omega)

/-- Witness of C4 at width 14 and the input 0xffffe000, whose low 14 bits are the maximal
negative pattern. -/
theorem sext_twos_complement_witness :
    (14 = 14 ∨ 14 = 16 ∨ 14 = 28) ∧ sext 14 (int32_t 0xffffe000) = sext 14 0xffffe000 :=
  ⟨Or.inl rfl, (sext_twos_complement 14 (Or.inl rfl) 0xffffe000).2.2.2.2.1⟩

/-- C5. For every edge window, `decode_triangle_setup` yields `yl`, `ym`, `yh` equal to the
14-bit two's complement values of word0[13:0], word1[29:16], word1[13:0], each in
`[-8192, 8191]`; `xl`, `xh`, `xm` equal to the 28-bit two's complement values of word2[27:0],
word4[27:0], word6[27:0] with bit 0 cleared; `dxldy`, `dxhdy`, `dxmdy` equal to those of
word3[29:2], word5[29:2], word7[29:2] with bit 0 cleared; the six are even and lie in
`[-2^27, 2^27-2]`. -/
theorem triangle_setup_coordinates (c : Consts) (setup : TriangleSetup) (W : Words)
    (copy : Bool) :
    ((decode_triangle_setup c setup W copy).yl = twosComplement 14 (W 0 &&& 0x3fff) ∧
      (decode_triangle_setup c setup W copy).ym = twosComplement 14 ((W 1 >>> 16) &&& 0x3fff) ∧
      (decode_triangle_setup c setup W copy).yh = twosComplement 14 (W 1 &&& 0x3fff)) ∧
    ((-8192 ≤ (decode_triangle_setup c setup W copy).yl ∧
        (decode_triangle_setup c setup W copy).yl ≤ 8191) ∧
      (-8192 ≤ (decode_triangle_setup c setup W copy).ym ∧
        (decode_triangle_setup c setup W copy).ym ≤ 8191) ∧
      (-8192 ≤ (decode_triangle_setup c setup W copy).yh ∧
        (decode_triangle_setup c setup W copy).yh ≤ 8191)) ∧
    ((decode_triangle_setup c setup W copy).xl
        = clearBit0 (twosComplement 28 (W 2 &&& 0xfffffff)) ∧
      (decode_triangle_setup c setup W copy).xh
        = clearBit0 (twosComplement 28 (W 4 &&& 0xfffffff)) ∧
      (decode_triangle_setup c setup W copy).xm
        = clearBit0 (twosComplement 28 (W 6 &&& 0xfffffff))) ∧
    ((decode_triangle_setup c setup W copy).dxldy
        = clearBit0 (twosComplement 28 ((W 3 >>> 2) &&& 0xfffffff)) ∧
      (decode_triangle_setup c setup W copy).dxhdy
        = clearBit0 (twosComplement 28 ((W 5 >>> 2) &&& 0xfffffff)) ∧
      (decode_triangle_setup c setup W copy).dxmdy
        = clearBit0 (twosComplement 28 ((W 7 >>> 2) &&& 0xfffffff))) ∧
    (∀ x ∈ [(decode_triangle_setup c setup W copy).xl, (decode_triangle_setup c setup W copy).xh,
        (decode_triangle_setup c setup W copy).xm, (decode_triangle_setup c setup W copy).dxldy,
        (decode_triangle_setup c setup W copy).dxhdy,
        (decode_triangle_setup c setup W copy).dxmdy],
      x % 2 = 0 ∧ -2 ^ 27 ≤ x ∧ x ≤ 2 ^ 27 - 2) := by
  have hy : ∀ v : Int, -8192 ≤ sext 14 v ∧ sext 14 v ≤ 8191 := sext14_range
  refine ⟨⟨?_, ?_, ?_⟩, ⟨?_, ?_, ?_⟩, ⟨?_, ?_, ?_⟩, ⟨?_, ?_, ?_⟩, ?_⟩
  · simp only [decode_triangle_setup, sext14_i32]
  · simp only [decode_triangle_setup, sext14_i32]
  · simp only [decode_triangle_setup, sext14_i32]
  · simp only [decode_triangle_setup]
    exact hy _
  · simp only [decode_triangle_setup]
    exact hy _
  · simp only [decode_triangle_setup]
    exact hy _
  · simp only [decode_triangle_setup, land_not_one, sext28_i32]
  · simp only [decode_triangle_setup, land_not_one, sext28_i32]
  · simp only [decode_triangle_setup, land_not_one, sext28_i32]
  · simp only [decode_triangle_setup, land_not_one, sext28_i32]
  · simp only [decode_triangle_setup, land_not_one, sext28_i32]
  · simp only [decode_triangle_setup, land_not_one, sext28_i32]
  · intro x hx
    simp only [List.mem_cons, List.mem_singleton, List.not_mem_nil, or_false] at hx
    have hc : ∀ v : Int, Int.land (sext 28 v) (~~~1) % 2 = 0 ∧
        -2 ^ 27 ≤ Int.land (sext 28 v) (~~~1) ∧ Int.land (sext 28 v) (~~~1) ≤ 2 ^ 27 - 2 := by
      intro v
      rw [land_not_one]
      exact clearBit0_sext28 v
    rcases hx with h | h | h | h | h | h <;> rw [h] <;> simp only [decode_triangle_setup] <;>
      exact hc _

/-- C6. For every edge window and a zero-initialised setup, `decode_triangle_setup` sets the
flip flag exactly when bit 23 of word 0 is set, sets the do_offset flag exactly when bit 23 of
word 0 (flip) equals bit 31 of word 5 (the sign bit of the dxhdy word), and sets no bit outside
the flip, do_offset and skip_xfrac masks. -/
theorem triangle_setup_flip_do_offset (c : Consts) (hc : c.TriangleWF) (W : Words)
    (copy : Bool) :
    (FlagSet (decode_triangle_setup c {} W copy).flags c.TRIANGLE_SETUP_FLIP_BIT ↔
      (W 0).testBit 23 = true) ∧
    (FlagSet (decode_triangle_setup c {} W copy).flags c.TRIANGLE_SETUP_DO_OFFSET_BIT ↔
      (W 0).testBit 23 = (W 5).testBit 31) ∧
    clear_bits (decode_triangle_setup c {} W copy).flags
      (c.TRIANGLE_SETUP_FLIP_BIT ||| c.TRIANGLE_SETUP_DO_OFFSET_BIT |||
        c.TRIANGLE_SETUP_SKIP_XFRAC_BIT) = 0 := by
  obtain ⟨hF, hD, hS, hFD, hFS, hDS⟩ := triangle_masks c hc
  have hDF : c.TRIANGLE_SETUP_DO_OFFSET_BIT &&& c.TRIANGLE_SETUP_FLIP_BIT = 0 := by
    rw [Nat.land_comm]; exact hFD
  have hSF : c.TRIANGLE_SETUP_SKIP_XFRAC_BIT &&& c.TRIANGLE_SETUP_FLIP_BIT = 0 := by
    rw [Nat.land_comm]; exact hFS
  have hSD : c.TRIANGLE_SETUP_SKIP_XFRAC_BIT &&& c.TRIANGLE_SETUP_DO_OFFSET_BIT = 0 := by
    rw [Nat.land_comm]; exact hDS
  rw [triangle_setup_flags]
  refine ⟨?_, ?_, ?_⟩
  · simp only [flagSet_or, flagSet_ite_self _ _ hF, not_flagSet_ite _ hDF, not_flagSet_ite _ hSF,
      not_flagSet_zero, false_or, or_false]
  · simp only [flagSet_or, flagSet_ite_self _ _ hD, not_flagSet_ite _ hFD, not_flagSet_ite _ hSD,
      not_flagSet_zero, false_or, or_false]
  · apply Nat.eq_of_testBit_eq
    intro i
    simp only [testBit_clear_bits, Nat.testBit_or, Nat.zero_testBit]
    split_ifs <;>
      cases c.TRIANGLE_SETUP_FLIP_BIT.testBit i <;>
      cases c.TRIANGLE_SETUP_DO_OFFSET_BIT.testBit i <;>
      cases c.TRIANGLE_SETUP_SKIP_XFRAC_BIT.testBit i <;> simp

/-- Witness of C6 at the sample constants and the sample window, whose word 0 has bit 23 set
and whose word 5 has bit 31 set. -/
theorem triangle_setup_flip_do_offset_witness :
    sampleConsts.TriangleWF ∧
      (FlagSet (decode_triangle_setup sampleConsts {} sampleWords false).flags
          sampleConsts.TRIANGLE_SETUP_FLIP_BIT ↔ (sampleWords 0).testBit 23 = true) :=
  ⟨by decide, (triangle_setup_flip_do_offset sampleConsts (by decide) sampleWords false).1⟩

/-! ## C7 and C8: the attribute decoders -/

/-- C7. For every window `W` of 32-bit words, `decode_rgba_setup` stores, for the base indices
0, 1, 2, 3, 8, 9, 10, 11 in order, the pair `hiPair W i`, `loPair W i` in (r, g), (b, a),
(drdx, dgdx), (dbdx, dadx), (drde, dgde), (dbde, dade), (drdy, dgdy), (dbdy, dady);
`decode_tex_setup` stores the same pairs in (s, t), (dsdx, dtdx), (dsde, dtde), (dsdy, dtdy) for
the bases 0, 2, 8, 10 and `hiPair W i` in w, dwdx, dwde, dwdy for the bases 1, 3, 9, 11.  Each
stored value is the `int32_t` with that 32-bit pattern, and the upper half of every pair member
comes from word `i` and its lower half from word `i + 4`. -/
theorem attribute_pairing (attr : AttributeSetup) (W : Words) (hW : Words32 W) :
    ((decode_rgba_setup attr W).r = i32 (hiPair W 0) ∧
      (decode_rgba_setup attr W).g = i32 (loPair W 0) ∧
      (decode_rgba_setup attr W).b = i32 (hiPair W 1) ∧
      (decode_rgba_setup attr W).a = i32 (loPair W 1) ∧
      (decode_rgba_setup attr W).drdx = i32 (hiPair W 2) ∧
      (decode_rgba_setup attr W).dgdx = i32 (loPair W 2) ∧
      (decode_rgba_setup attr W).dbdx = i32 (hiPair W 3) ∧
      (decode_rgba_setup attr W).dadx = i32 (loPair W 3) ∧
      (decode_rgba_setup attr W).drde = i32 (hiPair W 8) ∧
      (decode_rgba_setup attr W).dgde = i32 (loPair W 8) ∧
      (decode_rgba_setup attr W).dbde = i32 (hiPair W 9) ∧
      (decode_rgba_setup attr W).dade = i32 (loPair W 9) ∧
      (decode_rgba_setup attr W).drdy = i32 (hiPair W 10) ∧
      (decode_rgba_setup attr W).dgdy = i32 (loPair W 10) ∧
      (decode_rgba_setup attr W).dbdy = i32 (hiPair W 11) ∧
      (decode_rgba_setup attr W).dady = i32 (loPair W 11)) ∧
    ((decode_tex_setup attr W).s = i32 (hiPair W 0) ∧
      (decode_tex_setup attr W).t = i32 (loPair W 0) ∧
      (decode_tex_setup attr W).w = i32 (hiPair W 1) ∧
      (decode_tex_setup attr W).dsdx = i32 (hiPair W 2) ∧
      (decode_tex_setup attr W).dtdx = i32 (loPair W 2) ∧
      (decode_tex_setup attr W).dwdx = i32 (hiPair W 3) ∧
      (decode_tex_setup attr W).dsde = i32 (hiPair W 8) ∧
      (decode_tex_setup attr W).dtde = i32 (loPair W 8) ∧
      (decode_tex_setup attr W).dwde = i32 (hiPair W 9) ∧
      (decode_tex_setup attr W).dsdy = i32 (hiPair W 10) ∧
      (decode_tex_setup attr W).dtdy = i32 (loPair W 10) ∧
      (decode_tex_setup attr W).dwdy = i32 (hiPair W 11)) ∧
    (∀ i, bits32 (i32 (hiPair W i)) = hiPair W i ∧ bits32 (i32 (loPair W i)) = loPair W i) ∧
    (∀ i, hiPair W i >>> 16 = W i >>> 16 ∧ hiPair W i % 2 ^ 16 = W (i + 4) >>> 16 ∧
      loPair W i >>> 16 = W i % 2 ^ 16 ∧ loPair W i % 2 ^ 16 = W (i + 4) % 2 ^ 16) := by
  have e : ∀ x : Nat, (x <<< 16) % 2 ^ 32 = shl32 x 16 := fun _ => rfl
  refine ⟨?_, ?_, fun i => ⟨bits32_i32 _ (hiPair_lt W hW i), bits32_i32 _ (loPair_lt W i)⟩,
    fun i => ⟨(hiPair_halves W hW i).1, (hiPair_halves W hW i).2, (loPair_halves W i).1,
      (loPair_halves W i).2⟩⟩
  · simp only [decode_rgba_setup, hiPair, loPair, e, shr16_and_0xffff _ (hW _), and_self]
  · simp only [decode_tex_setup, hiPair, loPair, e, shr16_and_0xffff _ (hW _), shl32_16_and,
      and_self]

/-- Witness of C7 at the sample window: the red start value pairs word 0 with word 4. -/
theorem attribute_pairing_witness :
    Words32 sampleWords ∧ (decode_rgba_setup {} sampleWords).r = i32 (hiPair sampleWords 0) :=
  ⟨sampleWords_32, (attribute_pairing {} sampleWords sampleWords_32).1.1⟩

/-- C8, as stated, fails.  The depth start value `z` is not assembled from halves of two
different words: at the sample window it is word 0 of the block, and no pair of different words
`i`, `j` fixes its upper and its lower half. -/
theorem depth_halves_counterexample :
    (decode_z_setup {} sampleWords).z = i32 (sampleWords 0) ∧
      ¬ HalvesFromTwoWords (fun W => (decode_z_setup {} W).z) := by
  refine ⟨rfl, ?_⟩
  rintro ⟨i, j, hij, h⟩
  by_cases hi : i = 0
  · have hj : j ≠ 0 := fun e => hij (hi.trans e.symm)
    have := (h (fun _ => 0) (fun k => if k = 0 then 1 else 0) (fun _ => by dsimp only; decide)
      (fun k => by dsimp only; split <;> decide)).2 (by simp [hj])
    revert this
    decide
  · have := (h (fun _ => 0) (fun k => if k = 0 then 0x10000 else 0) (fun _ => by dsimp only; decide)
      (fun k => by dsimp only; split <;> decide)).1 (by simp [hi])
    revert this
    decide

/-- C8, amended.  For every depth block of 32-bit words, each decoded depth value is one whole
command word of the block: `z` is word 0, `dzdx` word 1, `dzde` word 2 and `dzdy` word 3, as the
`int32_t` with that 32-bit pattern, so both halves of a value come from the same word; the other
attributes are left as they were. -/
theorem depth_single_word (attr : AttributeSetup) (W : Words) (hW : Words32 W) :
    ((decode_z_setup attr W).z = i32 (W 0) ∧ (decode_z_setup attr W).dzdx = i32 (W 1) ∧
      (decode_z_setup attr W).dzde = i32 (W 2) ∧ (decode_z_setup attr W).dzdy = i32 (W 3)) ∧
    (bits32 (decode_z_setup attr W).z = W 0 ∧ bits32 (decode_z_setup attr W).dzdx = W 1 ∧
      bits32 (decode_z_setup attr W).dzde = W 2 ∧ bits32 (decode_z_setup attr W).dzdy = W 3) ∧
    decode_z_setup attr W =
      { attr with z := i32 (W 0), dzdx := i32 (W 1), dzde := i32 (W 2), dzdy := i32 (W 3) } :=
  ⟨⟨rfl, rfl, rfl, rfl⟩,
    ⟨bits32_i32 _ (hW 0), bits32_i32 _ (hW 1), bits32_i32 _ (hW 2), bits32_i32 _ (hW 3)⟩, rfl⟩

/-- Witness of the amended C8 at the sample window. -/
theorem depth_single_word_witness :
    Words32 sampleWords ∧ bits32 (decode_z_setup {} sampleWords).z = sampleWords 0 :=
  ⟨sampleWords_32, (depth_single_word {} sampleWords sampleWords_32).2.1.1⟩

/-! ## C9: tile masks -/

/-- C9. For every word pair, `op_set_tile` forwards one tile descriptor (and leaves the state as
it was) in which, per axis, with the raw mask word1[7:4] and clamp bit 9 for S and the raw mask
word1[17:14] and clamp bit 19 for T, the mask is `min raw 10` and the clamp flag is set exactly
when the clamp bit is set or the raw mask is 0.  So the raw masks 0, 1, 10, 11, 15 give 0 (with
clamp forced), 1, 10, 10, 10, and above 10 the clamp flag is the clamp bit alone. -/
theorem tile_mask_saturation (c : Consts) (hc : c.TileWF) (p : CommandProcessor) (W : Words) :
    ∃ info : TileMeta,
      op_set_tile c p W = (p, [Effect.set_tile ((W 1 >>> 24) &&& 7) info]) ∧
      (info.mask_s = min ((W 1 >>> 4) &&& 15) 10 ∧
        (FlagSet info.flags c.TILE_INFO_CLAMP_S_BIT ↔
          (W 1).testBit 9 = true ∨ (W 1 >>> 4) &&& 15 = 0)) ∧
      (info.mask_t = min ((W 1 >>> 14) &&& 15) 10 ∧
        (FlagSet info.flags c.TILE_INFO_CLAMP_T_BIT ↔
          (W 1).testBit 19 = true ∨ (W 1 >>> 14) &&& 15 = 0)) ∧
      (((W 1 >>> 4) &&& 15 = 0 →
          info.mask_s = 0 ∧ FlagSet info.flags c.TILE_INFO_CLAMP_S_BIT) ∧
        ((W 1 >>> 4) &&& 15 = 1 → info.mask_s = 1) ∧
        ((W 1 >>> 4) &&& 15 = 10 → info.mask_s = 10) ∧
        ((W 1 >>> 4) &&& 15 = 11 → info.mask_s = 10) ∧
        ((W 1 >>> 4) &&& 15 = 15 → info.mask_s = 10) ∧
        (10 < (W 1 >>> 4) &&& 15 →
          (FlagSet info.flags c.TILE_INFO_CLAMP_S_BIT ↔ (W 1).testBit 9 = true))) ∧
      (((W 1 >>> 14) &&& 15 = 0 →
          info.mask_t = 0 ∧ FlagSet info.flags c.TILE_INFO_CLAMP_T_BIT) ∧
        ((W 1 >>> 14) &&& 15 = 1 → info.mask_t = 1) ∧
        ((W 1 >>> 14) &&& 15 = 10 → info.mask_t = 10) ∧
        ((W 1 >>> 14) &&& 15 = 11 → info.mask_t = 10) ∧
        ((W 1 >>> 14) &&& 15 = 15 → info.mask_t = 10) ∧
        (10 < (W 1 >>> 14) &&& 15 →
          (FlagSet info.flags c.TILE_INFO_CLAMP_T_BIT ↔ (W 1).testBit 19 = true))) := by
  obtain ⟨hS, hT, hMsCs, hMsCt, hMtCt, hCsMt, hCsCt⟩ := tile_masks c hc
  have hMtCs : c.TILE_INFO_MIRROR_T_BIT &&& c.TILE_INFO_CLAMP_S_BIT = 0 := by
    rw [Nat.land_comm]; exact hCsMt
  have hCtCs : c.TILE_INFO_CLAMP_T_BIT &&& c.TILE_INFO_CLAMP_S_BIT = 0 := by
    rw [Nat.land_comm]; exact hCsCt
  have hs : FlagSet
      (0 ||| (if (W 1).testBit 8 then c.TILE_INFO_MIRROR_S_BIT else 0) |||
        (if (W 1).testBit 9 then c.TILE_INFO_CLAMP_S_BIT else 0) |||
        (if (W 1).testBit 18 then c.TILE_INFO_MIRROR_T_BIT else 0) |||
        (if (W 1).testBit 19 then c.TILE_INFO_CLAMP_T_BIT else 0) |||
        (if (W 1 >>> 4) &&& 15 = 0 then c.TILE_INFO_CLAMP_S_BIT else 0) |||
        (if (W 1 >>> 14) &&& 15 = 0 then c.TILE_INFO_CLAMP_T_BIT else 0))
      c.TILE_INFO_CLAMP_S_BIT ↔ (W 1).testBit 9 = true ∨ (W 1 >>> 4) &&& 15 = 0 := by
    simp only [flagSet_or, flagSet_ite_self _ _ hS, not_flagSet_ite _ hMsCs,
      not_flagSet_ite _ hMtCs, not_flagSet_ite _ hCtCs, not_flagSet_zero, false_or, or_false]
  have ht : FlagSet
      (0 ||| (if (W 1).testBit 8 then c.TILE_INFO_MIRROR_S_BIT else 0) |||
        (if (W 1).testBit 9 then c.TILE_INFO_CLAMP_S_BIT else 0) |||
        (if (W 1).testBit 18 then c.TILE_INFO_MIRROR_T_BIT else 0) |||
        (if (W 1).testBit 19 then c.TILE_INFO_CLAMP_T_BIT else 0) |||
        (if (W 1 >>> 4) &&& 15 = 0 then c.TILE_INFO_CLAMP_S_BIT else 0) |||
        (if (W 1 >>> 14) &&& 15 = 0 then c.TILE_INFO_CLAMP_T_BIT else 0))
      c.TILE_INFO_CLAMP_T_BIT ↔ (W 1).testBit 19 = true ∨ (W 1 >>> 14) &&& 15 = 0 := by
    simp only [flagSet_or, flagSet_ite_self _ _ hT, not_flagSet_ite _ hMsCt,
      not_flagSet_ite _ hMtCt, not_flagSet_ite _ hCsCt, not_flagSet_zero, false_or, or_false]
  refine ⟨_, set_tile_forwards c p W, ⟨rfl, hs⟩, ⟨rfl, ht⟩, ?_, ?_⟩
  · refine ⟨fun h => ⟨?_, hs.2 (Or.inr h)⟩, fun h => ?_, fun h => ?_, fun h => ?_, fun h => ?_,
      fun h => ?_⟩
    · show min ((W 1 >>> 4) &&& 15) 10 = 0
      rw [h]; rfl
    · show min ((W 1 >>> 4) &&& 15) 10 = 1
      rw [h]; rfl
    · show min ((W 1 >>> 4) &&& 15) 10 = 10
      rw [h]; rfl
    · show min ((W 1 >>> 4) &&& 15) 10 = 10
      rw [h]; rfl
    · show min ((W 1 >>> 4) &&& 15) 10 = 10
      rw [h]; rfl
    · rw [hs]
      constructor
      · rintro (h9 | h0)
        · exact h9
        · omega
      · exact Or.inl
  · refine ⟨fun h => ⟨?_, ht.2 (Or.inr h)⟩, fun h => ?_, fun h => ?_, fun h => ?_, fun h => ?_,
      fun h => ?_⟩
    · show min ((W 1 >>> 14) &&& 15) 10 = 0
      rw [h]; rfl
    · show min ((W 1 >>> 14) &&& 15) 10 = 1
      rw [h]; rfl
    · show min ((W 1 >>> 14) &&& 15) 10 = 10
      rw [h]; rfl
    · show min ((W 1 >>> 14) &&& 15) 10 = 10
      rw [h]; rfl
    · show min ((W 1 >>> 14) &&& 15) 10 = 10
      rw [h]; rfl
    · rw [ht]
      constructor
      · rintro (h9 | h0)
        · exact h9
        · omega
      · exact Or.inl

/-- Witness of C9 at the sample constants, state and window. -/
theorem tile_mask_saturation_witness :
    sampleConsts.TileWF ∧
      ∃ info : TileMeta,
        op_set_tile sampleConsts sampleState sampleWords =
          (sampleState, [Effect.set_tile ((sampleWords 1 >>> 24) &&& 7) info]) ∧
        info.mask_s = min ((sampleWords 1 >>> 4) &&& 15) 10 :=
  ⟨by decide,
    (tile_mask_saturation sampleConsts (by decide) sampleState sampleWords).imp
      fun _ h => ⟨h.1, h.2.1.1⟩⟩

/-! ## C10: reserved opcodes -/

/-- C10, as stated, fails.  With the meta opcodes at 1 and 2, a command whose word 0 is
0x02000000 has the reserved opcode 0x02 and is not a no-op: it flushes the renderer.  A command
whose word 0 is 0x01000000 has the reserved opcode 0x01 and makes two calls. -/
theorem reserved_opcode_counterexample :
    ReservedOpcode (opcode (fun _ => 0x02000000)) ∧
      enqueue_command_direct sampleConsts sampleState 1 (fun _ => 0x02000000) =
        (sampleState, [Effect.flush]) ∧
      enqueue_command_direct sampleConsts sampleState 1 (fun _ => 0x02000000) ≠
        (sampleState, []) ∧
      ReservedOpcode (opcode (fun _ => 0x01000000)) ∧
      enqueue_command_direct sampleConsts sampleState 3 (fun _ => 0x01000000) ≠
        (sampleState, []) := by
  refine ⟨by decide, by decide, by decide, by decide, by decide⟩

/-- C10, amended.  For every command whose opcode, bits [29:24] of word 0, is reserved (0x00 to
0x07, 0x10 to 0x23 or 0x31) and is neither of the two meta opcodes, whatever the other bits and
words, `enqueue_command_direct` leaves the persistent render state as it was and makes no call:
nothing reaches the renderer, the timeline worker or the error log. -/
theorem reserved_opcode_noop (c : Consts) (p : CommandProcessor) (n : Nat) (W : Words)
    (hr : ReservedOpcode (opcode W)) (hs : opcode W ≠ c.Op_MetaSignalTimeline)
    (hf : opcode W ≠ c.Op_MetaFlush) :
    enqueue_command_direct c p n W = (p, []) := by
  have h := funcs_reserved c (opcode W) hr
  unfold opcode at h hs hf
  simp only [enqueue_command_direct, hs, hf, if_false, h]

/-- Witness of the amended C10 at the reserved opcode 0x31. -/
theorem reserved_opcode_noop_witness :
    ReservedOpcode (opcode (fun _ => 0x31abcdef)) ∧
      opcode (fun _ => 0x31abcdef) ≠ sampleConsts.Op_MetaSignalTimeline ∧
      opcode (fun _ => 0x31abcdef) ≠ sampleConsts.Op_MetaFlush ∧
      enqueue_command_direct sampleConsts sampleState 2 (fun _ => 0x31abcdef) =
        (sampleState, []) :=
  ⟨by decide, by decide, by decide,
    reserved_opcode_noop sampleConsts sampleState 2 (fun _ => 0x31abcdef) (by decide)
      (by decide) (by decide)⟩

/-! ## Scissor and rectangles -/

/-- A flag whose every bit has the value `v` in a word is set exactly when `v` holds. -/
theorem flagSet_of_bits (x m : Nat) (v : Bool) (hm : m ≠ 0)
    (h : ∀ i, m.testBit i = true → x.testBit i = v) : FlagSet x m ↔ v = true := by
  unfold FlagSet
  rw [and_ne_zero_iff_exists]
  constructor
  · rintro ⟨i, hx, hi⟩
    rw [← h i hi]
    exact hx
  · intro hv
    obtain ⟨i, hi⟩ := Nat.ne_zero_implies_bit_true hm
    exact ⟨i, by rw [h i hi]; exact hv, hi⟩

theorem flagSet_mask_or (f a b : Nat) : FlagSet f (a ||| b) ↔ FlagSet f a ∨ FlagSet f b := by
  simp only [FlagSet, and_ne_zero_iff_exists, Nat.testBit_or, Bool.or_eq_true]
  constructor
  · rintro ⟨i, hf, h | h⟩
    · exact Or.inl ⟨i, hf, h⟩
    · exact Or.inr ⟨i, hf, h⟩
  · rintro (⟨i, hf, h⟩ | ⟨i, hf, h⟩)
    · exact ⟨i, hf, Or.inl h⟩
    · exact ⟨i, hf, Or.inr h⟩

theorem flagSet_congr {f g m : Nat} (h : f &&& m = g &&& m) : FlagSet f m ↔ FlagSet g m := by
  unfold FlagSet
  rw [h]

theorem interlace_masks (c : Consts) (hc : c.RasterWF) :
    c.RASTERIZATION_INTERLACE_FIELD_BIT ≠ 0 ∧ c.RASTERIZATION_INTERLACE_KEEP_ODD_BIT ≠ 0 ∧
    c.RASTERIZATION_INTERLACE_FIELD_BIT &&& c.RASTERIZATION_INTERLACE_KEEP_ODD_BIT = 0 := by
  obtain ⟨h0, h⟩ := hc
  simp only [Consts.rasterMasks, List.pairwise_cons, List.mem_cons, forall_eq_or_imp,
    List.mem_singleton, forall_eq, List.not_mem_nil, IsEmpty.forall_iff, implies_true,
    and_true] at h h0
  tauto

/-- The two interlace flags after `op_set_scissor` are bits 25 and 24 of word 1. -/
theorem scissor_interlace_flags (c : Consts) (hc : c.RasterWF) (p : CommandProcessor)
    (W : Words) :
    (FlagSet (op_set_scissor c p W).1.static_state.flags c.RASTERIZATION_INTERLACE_FIELD_BIT ↔
      (W 1).testBit 25 = true) ∧
    (FlagSet (op_set_scissor c p W).1.static_state.flags
        c.RASTERIZATION_INTERLACE_KEEP_ODD_BIT ↔ (W 1).testBit 24 = true) := by
  obtain ⟨hF, hK, hFK⟩ := interlace_masks c hc
  constructor
  · apply flagSet_of_bits _ _ _ hF
    intro i hi
    rw [scissor_flags_testBit, testBit_false_of_and_eq_zero hFK i hi, hi]
    simp only [bool_and_bit, Bool.false_eq_true, if_false, if_true]
  · apply flagSet_of_bits _ _ _ hK
    intro i hi
    rw [scissor_flags_testBit, hi]
    simp only [bool_and_bit, if_true]

/-- The bounds are the 12-bit fields of the two words. -/
theorem scissor_bounds (c : Consts) (p : CommandProcessor) (W : Words) :
    (op_set_scissor c p W).1.scissor_state =
      { xlo := bitField (W 0) 12 12, ylo := bitField (W 0) 0 12,
        xhi := bitField (W 1) 12 12, yhi := bitField (W 1) 0 12 } := by
  have e : ∀ x : Nat, x &&& 0xfff = x % 2 ^ 12 := fun x => Nat.and_pow_two_sub_one_eq_mod x 12
  simp only [op_set_scissor, bitField, e]

theorem scissor_keeps_mask (c : Consts) (p : CommandProcessor) (W : Words) (m : Nat)
    (hF : c.RASTERIZATION_INTERLACE_FIELD_BIT &&& m = 0)
    (hK : c.RASTERIZATION_INTERLACE_KEEP_ODD_BIT &&& m = 0) :
    (op_set_scissor c p W).1.static_state.flags &&& m = p.static_state.flags &&& m := by
  apply Nat.eq_of_testBit_eq
  intro i
  rw [Nat.testBit_and, Nat.testBit_and, scissor_flags_testBit]
  cases hk : c.RASTERIZATION_INTERLACE_KEEP_ODD_BIT.testBit i
  · cases hf : c.RASTERIZATION_INTERLACE_FIELD_BIT.testBit i
    · simp
    · simp [testBit_false_of_and_eq_zero hF i hf]
  · simp [testBit_false_of_and_eq_zero hK i hk]

theorem i32_of_lt (n : Nat) (h : n < 2 ^ 31) : i32 n = (n : Int) := by
  simp only [i32, int32_t]
  omega

theorem and_0xfff_lt (x : Nat) : x &&& 0xfff < 4096 :=
  lt_of_le_of_lt Nat.and_le_right (by decide)

theorem or_three_lt (x : Nat) (h : x < 4096) : x ||| 3 < 4096 :=
  Nat.or_lt_two_pow (n := 12) h (by decide)

theorem or_three_mod (x : Nat) : (x ||| 3) % 4 = 3 := by
  have h := Nat.and_pow_two_sub_one_eq_mod (x ||| 3) 2
  have e : (x ||| 3) &&& (2 ^ 2 - 1) = 3 := or_and_self x 3
  rw [e] at h
  exact h.symm

theorem shl32_14_of_lt (x : Nat) (h : x < 4096) : shl32 x 14 = x * 2 ^ 14 := by
  simp only [shl32, Nat.shiftLeft_eq]
  apply Nat.mod_eq_of_lt
  omega

/-- The coordinate that the rectangle handlers store for a 12-bit bound `x`: `x << 14`. -/
theorem rect_x (x : Nat) :
    i32 (shl32 (x &&& 0xfff) 14) = (((x &&& 0xfff) * 2 ^ 14 : Nat) : Int) := by
  have h := and_0xfff_lt x
  rw [shl32_14_of_lt _ h, i32_of_lt]
  omega

/-- The y bound that the rectangle handlers store: the 12-bit field, with its two low bits
forced when the flags have COPY or FILL set. -/
theorem rect_y (c : Consts) (p : CommandProcessor) (x : Nat) :
    i32 (if ((p.static_state.flags &&&
          (c.RASTERIZATION_COPY_BIT ||| c.RASTERIZATION_FILL_BIT)) != 0) = true
        then (x &&& 0xfff) ||| 3 else x &&& 0xfff) =
      (((x &&& 0xfff) |||
        (if FlagSet p.static_state.flags c.RASTERIZATION_COPY_BIT ∨
            FlagSet p.static_state.flags c.RASTERIZATION_FILL_BIT then 3 else 0) : Nat) : Int) := by
  have h := and_0xfff_lt x
  have e : (((p.static_state.flags &&&
      (c.RASTERIZATION_COPY_BIT ||| c.RASTERIZATION_FILL_BIT)) != 0) = true) ↔
      (FlagSet p.static_state.flags c.RASTERIZATION_COPY_BIT ∨
        FlagSet p.static_state.flags c.RASTERIZATION_FILL_BIT) := by
    rw [← flagSet_mask_or]
    simp [FlagSet]
  by_cases hq : FlagSet p.static_state.flags c.RASTERIZATION_COPY_BIT ∨
      FlagSet p.static_state.flags c.RASTERIZATION_FILL_BIT
  · rw [if_pos (e.2 hq), if_pos hq, i32_of_lt]
    have := or_three_lt _ h
    omega
  · rw [if_neg (fun h' => hq (e.1 h')), if_neg hq, Nat.or_zero, i32_of_lt]
    omega

/-! ## Cycle type and mirrored flags after `op_set_other_modes` -/

/-- Which of the rasterization cycle flags `op_set_other_modes` leaves set, by the cases of
its `switch` in their order. -/
theorem other_modes_cycle_status (c : Consts) (hr : c.RasterWF)
    (p : CommandProcessor) (W : Words) :
    (FlagSet (op_set_other_modes c p W).1.static_state.flags c.RASTERIZATION_MULTI_CYCLE_BIT ↔
      (W 0 >>> 20) &&& 3 = c.CycleType_Cycle2) ∧
    (FlagSet (op_set_other_modes c p W).1.static_state.flags c.RASTERIZATION_FILL_BIT ↔
      (W 0 >>> 20) &&& 3 ≠ c.CycleType_Cycle2 ∧ (W 0 >>> 20) &&& 3 = c.CycleType_Fill) ∧
    (FlagSet (op_set_other_modes c p W).1.static_state.flags c.RASTERIZATION_COPY_BIT ↔
      (W 0 >>> 20) &&& 3 ≠ c.CycleType_Cycle2 ∧ (W 0 >>> 20) &&& 3 ≠ c.CycleType_Fill ∧
        (W 0 >>> 20) &&& 3 = c.CycleType_Copy) := by
  obtain ⟨hM, hF, hC, hMF, hMC, hFC⟩ := cycle_masks c hr
  obtain ⟨x, hx, -⟩ := other_modes_cycle_flags c p W
  obtain ⟨sM, sF, sC⟩ := and_or3 c.RASTERIZATION_MULTI_CYCLE_BIT c.RASTERIZATION_FILL_BIT
    c.RASTERIZATION_COPY_BIT
  have hFM : c.RASTERIZATION_FILL_BIT &&& c.RASTERIZATION_MULTI_CYCLE_BIT = 0 := by
    rw [Nat.land_comm]; exact hMF
  have hCM : c.RASTERIZATION_COPY_BIT &&& c.RASTERIZATION_MULTI_CYCLE_BIT = 0 := by
    rw [Nat.land_comm]; exact hMC
  have hCF : c.RASTERIZATION_COPY_BIT &&& c.RASTERIZATION_FILL_BIT = 0 := by
    rw [Nat.land_comm]; exact hFC
  rw [hx]
  unfold FlagSet
  generalize (W 0 >>> 20) &&& 3 = ct
  by_cases h2 : ct = c.CycleType_Cycle2
  · subst h2
    simp [or_and_self, clear_bits_or_and_eq_zero, sF, sC, hMF, hMC, hM]
  · by_cases hf : ct = c.CycleType_Fill
    · subst hf
      simp [h2, or_and_self, clear_bits_or_and_eq_zero, sM, sC, hFM, hFC, hF]
    · by_cases hc : ct = c.CycleType_Copy
      · subst hc
        simp [h2, hf, or_and_self, clear_bits_or_and_eq_zero, sM, sF, hCM, hCF, hC]
      · simp [h2, hf, hc, clear_bits_and_eq_zero, sM, sF, sC]

/-- The depth/blend MULTI_CYCLE flag after `op_set_other_modes` is set in the two-cycle case
of the `switch` alone. -/
theorem other_modes_depth_multi (c : Consts) (hd : c.DepthBlendWF)
    (p : CommandProcessor) (W : Words) :
    FlagSet (op_set_other_modes c p W).1.depth_blend.flags c.DEPTH_BLEND_MULTI_CYCLE_BIT ↔
      (W 0 >>> 20) &&& 3 = c.CycleType_Cycle2 := by
  have hD : c.DEPTH_BLEND_MULTI_CYCLE_BIT ≠ 0 := hd.1 _ (by simp [Consts.depthBlendMasks])
  obtain ⟨-, -, y, hy⟩ := other_modes_cycle_flags c p W
  have e1 := clear_bits_and_eq_zero y _ _ (Nat.and_self c.DEPTH_BLEND_MULTI_CYCLE_BIT)
  rw [hy]
  unfold FlagSet
  by_cases h2 : (W 0 >>> 20) &&& 3 = c.CycleType_Cycle2
  · simp [h2, or_and_self, hD]
  · simp [h2, e1]

theorem aa_masks (c : Consts) (hr : c.RasterWF) (hd : c.DepthBlendWF) :
    (c.RASTERIZATION_AA_BIT ≠ 0 ∧
      c.RASTERIZATION_AA_BIT &&& c.RASTERIZATION_ALPHA_TEST_DITHER_BIT = 0 ∧
      c.RASTERIZATION_AA_BIT &&& c.RASTERIZATION_ALPHA_TEST_BIT = 0 ∧
      c.RASTERIZATION_AA_BIT &&& c.RASTERIZATION_MULTI_CYCLE_BIT = 0 ∧
      c.RASTERIZATION_AA_BIT &&& c.RASTERIZATION_FILL_BIT = 0 ∧
      c.RASTERIZATION_AA_BIT &&& c.RASTERIZATION_COPY_BIT = 0) ∧
    (c.DEPTH_BLEND_AA_BIT ≠ 0 ∧
      c.DEPTH_BLEND_AA_BIT &&& c.DEPTH_BLEND_DITHER_ENABLE_BIT = 0 ∧
      c.DEPTH_BLEND_AA_BIT &&& c.DEPTH_BLEND_MULTI_CYCLE_BIT = 0) := by
  obtain ⟨h0, h⟩ := hr
  obtain ⟨d0, d⟩ := hd
  simp only [Consts.rasterMasks, Consts.depthBlendMasks, List.pairwise_cons, List.mem_cons,
    forall_eq_or_imp, List.mem_singleton, forall_eq, List.not_mem_nil, IsEmpty.forall_iff,
    implies_true, and_true] at h h0 d d0
  tauto

/-- Both AA flags after `op_set_other_modes` are bit 3 of word 1. -/
theorem other_modes_aa (c : Consts) (hr : c.RasterWF) (hd : c.DepthBlendWF)
    (p : CommandProcessor) (W : Words) :
    (FlagSet (op_set_other_modes c p W).1.static_state.flags c.RASTERIZATION_AA_BIT ↔
      (W 1).testBit 3 = true) ∧
    (FlagSet (op_set_other_modes c p W).1.depth_blend.flags c.DEPTH_BLEND_AA_BIT ↔
      (W 1).testBit 3 = true) := by
  obtain ⟨⟨hA, h1, h2, h3, h4, h5⟩, ⟨hB, d1, d2⟩⟩ := aa_masks c hr hd
  constructor
  · apply flagSet_of_bits _ _ _ hA
    intro i hi
    have t1 := testBit_false_of_and_eq_zero h1 i hi
    have t2 := testBit_false_of_and_eq_zero h2 i hi
    have t3 := testBit_false_of_and_eq_zero h3 i hi
    have t4 := testBit_false_of_and_eq_zero h4 i hi
    have t5 := testBit_false_of_and_eq_zero h5 i hi
    simp only [op_set_other_modes, bool_and_bit]
    split_ifs <;>
      simp [testBit_STATE_MASK, testBit_clear_bits, Nat.testBit_or, bool_and_bit, hi, t1, t2,
        t3, t4, t5]
  · apply flagSet_of_bits _ _ _ hB
    intro i hi
    have t1 := testBit_false_of_and_eq_zero d1 i hi
    have t2 := testBit_false_of_and_eq_zero d2 i hi
    simp only [op_set_other_modes, bool_and_bit]
    split_ifs <;>
      simp [testBit_STATE_MASK, testBit_clear_bits, Nat.testBit_or, bool_and_bit, hi, t1, t2]

/-! ## The dispatcher, command by command -/

theorem opcode_lt (W : Words) : opcode W < 64 :=
  lt_of_le_of_lt Nat.and_le_right (by decide)

/-- A command whose opcode is neither meta opcode runs the handler of its slot. -/
theorem enqueue_table_some (c : Consts) (p : CommandProcessor) (n : Nat) (W : Words)
    (hs : opcode W ≠ c.Op_MetaSignalTimeline) (hf : opcode W ≠ c.Op_MetaFlush)
    (f : CommandFunc) (h : funcs c (opcode W) = some f) :
    enqueue_command_direct c p n W = f p W := by
  unfold opcode at hs hf h
  simp only [enqueue_command_direct, hs, hf, if_false, h]

/-- A command whose opcode is neither meta opcode and has an empty slot does nothing. -/
theorem enqueue_table_none (c : Consts) (p : CommandProcessor) (n : Nat) (W : Words)
    (hs : opcode W ≠ c.Op_MetaSignalTimeline) (hf : opcode W ≠ c.Op_MetaFlush)
    (h : funcs c (opcode W) = none) :
    enqueue_command_direct c p n W = (p, []) := by
  unfold opcode at hs hf h
  simp only [enqueue_command_direct, hs, hf, if_false, h]

theorem set_color_image_state (p : CommandProcessor) (W : Words) :
    (op_set_color_image p W).1 = p := by
  unfold op_set_color_image
  dsimp only
  split <;> rfl

theorem funcs_none_of_ge (c : Consts) (op : Nat) (h : 64 ≤ op) : funcs c op = none := by
  unfold funcs
  split <;> first | omega | rfl

/-- The state after a handler of the table: four opcodes change it, the others do not. -/
theorem table_state (c : Consts) (p : CommandProcessor) (W : Words) (op : Nat)
    (f : CommandFunc) (h : funcs c op = some f) :
    (f p W).1 = p ∨
    (op = 0x2d ∧ (f p W).1 = (op_set_scissor c p W).1) ∨
    (op = 0x2f ∧ (f p W).1 = (op_set_other_modes c p W).1) ∨
    (op = 0x3c ∧ (f p W).1 = (op_set_combine p W).1) ∨
    (op = 0x3d ∧ (f p W).1 = (op_set_texture_image p W).1) := by
  by_cases hlt : op < 64
  · interval_cases op <;> simp only [funcs] at h <;>
      first
      | (obtain rfl := Option.some.inj h
         first
          | exact Or.inl rfl
          | exact Or.inl (set_color_image_state p W)
          | exact Or.inr (Or.inl ⟨rfl, rfl⟩)
          | exact Or.inr (Or.inr (Or.inl ⟨rfl, rfl⟩))
          | exact Or.inr (Or.inr (Or.inr (Or.inl ⟨rfl, rfl⟩)))
          | exact Or.inr (Or.inr (Or.inr (Or.inr ⟨rfl, rfl⟩))))
      | exact Option.noConfusion h
  · rw [funcs_none_of_ge c op (by omega)] at h
    exact Option.noConfusion h

/-- The state after any command: it is the state before, or the command has the opcode of
set_scissor, set_other_modes, set_combine or set_texture_image and the state is the one that
handler leaves. -/
theorem enqueue_state (c : Consts) (p : CommandProcessor) (n : Nat) (W : Words) :
    (enqueue_command_direct c p n W).1 = p ∨
    (opcode W = 0x2d ∧ (enqueue_command_direct c p n W).1 = (op_set_scissor c p W).1) ∨
    (opcode W = 0x2f ∧ (enqueue_command_direct c p n W).1 = (op_set_other_modes c p W).1) ∨
    (opcode W = 0x3c ∧ (enqueue_command_direct c p n W).1 = (op_set_combine p W).1) ∨
    (opcode W = 0x3d ∧ (enqueue_command_direct c p n W).1 = (op_set_texture_image p W).1) := by
  by_cases hs : opcode W = c.Op_MetaSignalTimeline
  · rw [(meta_opcodes_dispatch c p n W).1 hs]
    exact Or.inl rfl
  · by_cases hf : opcode W = c.Op_MetaFlush
    · rw [(meta_opcodes_dispatch c p n W).2 hs hf]
      exact Or.inl rfl
    · cases h : funcs c (opcode W) with
      | none =>
        rw [enqueue_table_none c p n W hs hf h]
        exact Or.inl rfl
      | some f =>
        rw [enqueue_table_some c p n W hs hf f h]
        exact table_state c p W (opcode W) f h

/-! ## Command sequences -/

theorem dispatch_all_cons (c : Consts) (p : CommandProcessor) (cmd : Nat × Words)
    (rest : List (Nat × Words)) :
    (dispatch_all c p (cmd :: rest)).1 =
      (dispatch_all c (enqueue_command_direct c p cmd.1 cmd.2).1 rest).1 := rfl

theorem dispatch_all_append_one (c : Consts) (p : CommandProcessor) (cmds : List (Nat × Words))
    (cmd : Nat × Words) :
    (dispatch_all c p (cmds ++ [cmd])).1 =
      (enqueue_command_direct c (dispatch_all c p cmds).1 cmd.1 cmd.2).1 := by
  induction cmds generalizing p with
  | nil => rfl
  | cons x xs ih => exact ih _

theorem meta_ne_of_not_reserved (c : Consts) (hm : c.MetaWF) (op : Nat)
    (h : ¬ ReservedOpcode op) : op ≠ c.Op_MetaSignalTimeline ∧ op ≠ c.Op_MetaFlush :=
  ⟨fun e => h (e ▸ hm.1), fun e => h (e ▸ hm.2.1)⟩

/-- With the meta opcodes in reserved slots, opcode 0x2f runs `op_set_other_modes`. -/
theorem enqueue_other_modes (c : Consts) (hm : c.MetaWF) (p : CommandProcessor) (n : Nat)
    (W : Words) (h : opcode W = 0x2f) :
    enqueue_command_direct c p n W = op_set_other_modes c p W := by
  obtain ⟨hs, hf⟩ := meta_ne_of_not_reserved c hm (opcode W) (by rw [h]; decide)
  exact enqueue_table_some c p n W hs hf _ (by rw [h]; rfl)

/-- A command other than set_other_modes keeps every bit of the rasterization flags outside
the two interlace masks, and keeps the depth/blend state. -/
theorem enqueue_keeps_mask (c : Consts) (p : CommandProcessor) (n : Nat) (W : Words) (m : Nat)
    (hF : c.RASTERIZATION_INTERLACE_FIELD_BIT &&& m = 0)
    (hK : c.RASTERIZATION_INTERLACE_KEEP_ODD_BIT &&& m = 0) (h : opcode W ≠ 0x2f) :
    (enqueue_command_direct c p n W).1.static_state.flags &&& m = p.static_state.flags &&& m ∧
    (enqueue_command_direct c p n W).1.depth_blend = p.depth_blend := by
  rcases enqueue_state c p n W with e | ⟨-, e⟩ | ⟨e, -⟩ | ⟨-, e⟩ | ⟨-, e⟩
  · rw [e]
    exact ⟨rfl, rfl⟩
  · rw [e]
    exact ⟨scissor_keeps_mask c p W m hF hK, rfl⟩
  · exact absurd e h
  · rw [e]
    exact ⟨rfl, rfl⟩
  · rw [e]
    exact ⟨rfl, rfl⟩

theorem interlace_cycle_disjoint (c : Consts) (hc : c.RasterWF) :
    (c.RASTERIZATION_INTERLACE_FIELD_BIT &&& c.RASTERIZATION_AA_BIT = 0 ∧
      c.RASTERIZATION_INTERLACE_KEEP_ODD_BIT &&& c.RASTERIZATION_AA_BIT = 0) ∧
    (c.RASTERIZATION_INTERLACE_FIELD_BIT &&& c.RASTERIZATION_MULTI_CYCLE_BIT = 0 ∧
      c.RASTERIZATION_INTERLACE_KEEP_ODD_BIT &&& c.RASTERIZATION_MULTI_CYCLE_BIT = 0) ∧
    (c.RASTERIZATION_INTERLACE_FIELD_BIT &&& c.RASTERIZATION_FILL_BIT = 0 ∧
      c.RASTERIZATION_INTERLACE_KEEP_ODD_BIT &&& c.RASTERIZATION_FILL_BIT = 0) ∧
    (c.RASTERIZATION_INTERLACE_FIELD_BIT &&& c.RASTERIZATION_COPY_BIT = 0 ∧
      c.RASTERIZATION_INTERLACE_KEEP_ODD_BIT &&& c.RASTERIZATION_COPY_BIT = 0) := by
  obtain ⟨-, h⟩ := hc
  simp only [Consts.rasterMasks, List.pairwise_cons, List.mem_cons, forall_eq_or_imp,
    List.mem_singleton, forall_eq, List.not_mem_nil, IsEmpty.forall_iff, implies_true,
    and_true] at h
  tauto

/-- The COPY flag after a command sequence is what `copySelected` computes. -/
theorem drain_copy_flag (c : Consts) (hr : c.RasterWF) (hy : c.CycleWF) (hm : c.MetaWF)
    (cmds : List (Nat × Words)) :
    ∀ (p : CommandProcessor) (b : Bool),
      (FlagSet p.static_state.flags c.RASTERIZATION_COPY_BIT ↔ b = true) →
      (FlagSet (dispatch_all c p cmds).1.static_state.flags c.RASTERIZATION_COPY_BIT ↔
        cmds.foldl
          (fun b cmd =>
            if opcode cmd.2 = 0x2f then decide ((cmd.2 0 >>> 20) &&& 3 = c.CycleType_Copy)
            else b) b = true) := by
  obtain ⟨-, -, -, hFC, hKC⟩ := interlace_cycle_disjoint c hr
  induction cmds with
  | nil => intro p b h; exact h
  | cons cmd rest ih =>
    intro p b h
    rw [dispatch_all_cons, List.foldl_cons]
    apply ih
    by_cases ho : opcode cmd.2 = 0x2f
    · rw [if_pos ho, enqueue_other_modes c hm p cmd.1 cmd.2 ho,
        (other_modes_cycle_status c hr p cmd.2).2.2, decide_eq_true_eq]
      constructor
      · exact fun e => e.2.2
      · intro e
        exact ⟨by rw [e]; exact fun e' => hy.2.1 e'.symm,
          by rw [e]; exact fun e' => hy.2.2 e'.symm, e⟩
    · rw [if_neg ho, flagSet_congr (enqueue_keeps_mask c p cmd.1 cmd.2 _ hFC hKC ho).1]
      exact h

theorem copySelected_filter (c : Consts) (cmds : List (Nat × Words)) :
    copySelected c cmds = copySelected c (cmds.filter (fun x => decide (opcode x.2 = 0x2f))) := by
  unfold copySelected
  generalize false = b
  induction cmds generalizing b with
  | nil => rfl
  | cons cmd rest ih =>
    by_cases ho : opcode cmd.2 = 0x2f
    · rw [List.filter_cons_of_pos (by simpa using ho), List.foldl_cons, List.foldl_cons]
      exact ih _
    · rw [List.filter_cons_of_neg (by simpa using ho), List.foldl_cons, if_neg ho]
      exact ih _

theorem copySelected_of_none (c : Consts) (cmds : List (Nat × Words))
    (h : ∀ cmd ∈ cmds, opcode cmd.2 ≠ 0x2f) : copySelected c cmds = false := by
  rw [copySelected_filter, List.filter_eq_nil_iff.2 (by simpa using h)]
  rfl

/-- With the meta opcodes in reserved slots, each triangle opcode forwards the setup decoded
from the command with the copy-cycle flag of the current state. -/
theorem triangle_forwarded (c : Consts) (hm : c.MetaWF) (p : CommandProcessor) (n : Nat)
    (W : Words) (h : 0x08 ≤ opcode W ∧ opcode W ≤ 0x0f) :
    forwardedSetup (enqueue_command_direct c p n W).2 =
      some (decode_triangle_setup c {} W (copy_cycle c p)) := by
  obtain ⟨hs, hf⟩ := meta_ne_of_not_reserved c hm (opcode W)
    (by unfold ReservedOpcode; omega)
  obtain ⟨h1, h2⟩ := h
  generalize ho : opcode W = op at h1 h2
  interval_cases op
  all_goals rw [enqueue_table_some c p n W hs hf _ (by rw [ho]; rfl)]
  all_goals rfl

/-- The skip_xfrac flag of a decoded setup is the copy-cycle argument. -/
theorem triangle_setup_skip_xfrac (c : Consts) (ht : c.TriangleWF) (W : Words) (copy : Bool) :
    FlagSet (decode_triangle_setup c {} W copy).flags c.TRIANGLE_SETUP_SKIP_XFRAC_BIT ↔
      copy = true := by
  obtain ⟨hF, hD, hS, hFD, hFS, hDS⟩ := triangle_masks c ht
  rw [triangle_setup_flags]
  simp only [flagSet_or, flagSet_ite_self _ _ hS, not_flagSet_ite _ hFS, not_flagSet_ite _ hDS,
    not_flagSet_zero, false_or]

theorem copy_cycle_iff (c : Consts) (p : CommandProcessor) :
    copy_cycle c p = true ↔ FlagSet p.static_state.flags c.RASTERIZATION_COPY_BIT := by
  simp [copy_cycle, FlagSet]

/-- A command sequence without set_texture_image leaves the texture image descriptor. -/
theorem drain_keeps_texture_image (c : Consts) (cmds : List (Nat × Words)) :
    ∀ p : CommandProcessor, (∀ cmd ∈ cmds, opcode cmd.2 ≠ 0x3d) →
      (dispatch_all c p cmds).1.texture_image = p.texture_image := by
  induction cmds with
  | nil => intro p _; rfl
  | cons cmd rest ih =>
    intro p h
    rw [dispatch_all_cons, ih _ (fun x hx => h x (List.mem_cons_of_mem _ hx))]
    rcases enqueue_state c p cmd.1 cmd.2 with e | ⟨-, e⟩ | ⟨-, e⟩ | ⟨-, e⟩ | ⟨e, -⟩
    · rw [e]
    · rw [e]; rfl
    · rw [e]; rfl
    · rw [e]; rfl
    · exact absurd e (h cmd (List.mem_cons_self _ _))

/-- Every command keeps the relation between the flag words. -/
theorem enqueue_keeps_invariant (c : Consts) (hr : c.RasterWF) (hd : c.DepthBlendWF)
    (p : CommandProcessor) (n : Nat) (W : Words) (h : FlagsInvariant c p) :
    FlagsInvariant c (enqueue_command_direct c p n W).1 := by
  by_cases ho : opcode W = 0x2f
  · rcases enqueue_state c p n W with e | ⟨e, -⟩ | ⟨-, e⟩ | ⟨e, -⟩ | ⟨e, -⟩
    · rw [e]; exact h
    · rw [ho] at e; exact absurd e (by decide)
    · rw [e]
      obtain ⟨hM, hF, hC⟩ := other_modes_cycle_status c hr p W
      obtain ⟨hA, hB⟩ := other_modes_aa c hr hd p W
      have hD := other_modes_depth_multi c hd p W
      refine ⟨hB.trans hA.symm, hD.trans hM.symm, ?_, ?_, ?_⟩
      · rw [hM, hF]; exact fun x => x.2.1 x.1
      · rw [hM, hC]; exact fun x => x.2.1 x.1
      · rw [hF, hC]; exact fun x => x.2.2.1 x.1.2
    · rw [ho] at e; exact absurd e (by decide)
    · rw [ho] at e; exact absurd e (by decide)
  · obtain ⟨⟨a1, a2⟩, ⟨m1, m2⟩, ⟨f1, f2⟩, ⟨c1, c2⟩⟩ := interlace_cycle_disjoint c hr
    have kA := enqueue_keeps_mask c p n W _ a1 a2 ho
    have kM := enqueue_keeps_mask c p n W _ m1 m2 ho
    have kF := enqueue_keeps_mask c p n W _ f1 f2 ho
    have kC := enqueue_keeps_mask c p n W _ c1 c2 ho
    unfold FlagsInvariant
    rw [kA.2, flagSet_congr kA.1, flagSet_congr kM.1, flagSet_congr kF.1, flagSet_congr kC.1]
    exact h

theorem drain_keeps_invariant (c : Consts) (hr : c.RasterWF) (hd : c.DepthBlendWF)
    (cmds : List (Nat × Words)) :
    ∀ p : CommandProcessor, FlagsInvariant c p → FlagsInvariant c (dispatch_all c p cmds).1 := by
  induction cmds with
  | nil => intro p h; exact h
  | cons cmd rest ih =>
    intro p h
    rw [dispatch_all_cons]
    exact ih _ (enqueue_keeps_invariant c hr hd p cmd.1 cmd.2 h)

theorem zero_state_invariant (c : Consts) : FlagsInvariant c {} := by
  simp [FlagsInvariant, FlagSet]

/-! ## The merged combine command -/

theorem merged_eq (W : Words) (h : W 1 < 2 ^ 32) : merged W = 2 ^ 32 * W 0 + W 1 := by
  unfold merged
  rw [Nat.shiftLeft_eq, Nat.mul_comm, Nat.mul_add_lt_is_or h]

/-- The sixteen selectors that `op_set_combine` stores, as quotients and remainders of the two
words. -/
theorem combine_selectors (p : CommandProcessor) (W : Words) :
    combinerSelectors (op_set_combine p W).1.static_state =
      [W 0 / 2 ^ 20 % 2 ^ 4, W 0 / 2 ^ 15 % 2 ^ 5, W 1 / 2 ^ 28 % 2 ^ 4, W 1 / 2 ^ 15 % 2 ^ 3,
       W 0 / 2 ^ 12 % 2 ^ 3, W 1 / 2 ^ 12 % 2 ^ 3, W 0 / 2 ^ 9 % 2 ^ 3, W 1 / 2 ^ 9 % 2 ^ 3,
       W 0 / 2 ^ 5 % 2 ^ 4, W 0 % 2 ^ 5, W 1 / 2 ^ 24 % 2 ^ 4, W 1 / 2 ^ 6 % 2 ^ 3,
       W 1 / 2 ^ 21 % 2 ^ 3, W 1 / 2 ^ 3 % 2 ^ 3, W 1 / 2 ^ 18 % 2 ^ 3, W 1 % 2 ^ 3] := by
  have e5 : ∀ x : Nat, x &&& 0x1f = x % 2 ^ 5 := fun x => Nat.and_pow_two_sub_one_eq_mod x 5
  have e4 : ∀ x : Nat, x &&& 0xf = x % 2 ^ 4 := fun x => Nat.and_pow_two_sub_one_eq_mod x 4
  have e3 : ∀ x : Nat, x &&& 0x7 = x % 2 ^ 3 := fun x => Nat.and_pow_two_sub_one_eq_mod x 3
  simp only [combinerSelectors, op_set_combine, e5, e4, e3, Nat.shiftRight_eq_div_pow,
    Nat.pow_zero, Nat.div_one]

theorem combine_fields_of_merged (W : Words) (h : W 1 < 2 ^ 32) :
    combineRanges.map (fun r => bitField (merged W) r.1 r.2) =
      [W 0 / 2 ^ 20 % 2 ^ 4, W 0 / 2 ^ 15 % 2 ^ 5, W 1 / 2 ^ 28 % 2 ^ 4, W 1 / 2 ^ 15 % 2 ^ 3,
       W 0 / 2 ^ 12 % 2 ^ 3, W 1 / 2 ^ 12 % 2 ^ 3, W 0 / 2 ^ 9 % 2 ^ 3, W 1 / 2 ^ 9 % 2 ^ 3,
       W 0 / 2 ^ 5 % 2 ^ 4, W 0 % 2 ^ 5, W 1 / 2 ^ 24 % 2 ^ 4, W 1 / 2 ^ 6 % 2 ^ 3,
       W 1 / 2 ^ 21 % 2 ^ 3, W 1 / 2 ^ 3 % 2 ^ 3, W 1 / 2 ^ 18 % 2 ^ 3, W 1 % 2 ^ 3] := by
  rw [merged_eq W h]
  simp only [combineRanges, List.map_cons, List.map_nil, bitField, Nat.shiftRight_eq_div_pow]
  generalize W 0 = a at *
  generalize W 1 = b at *
  norm_num
  refine ⟨?_, ?_, ?_, ?_, ?_, ?_, ?_, ?_, ?_, ?_, ?_, ?_, ?_, ?_, ?_, ?_⟩ <;> omega

theorem combine_ranges_cover (b : Nat) :
    b < 56 ↔ ∃ r ∈ combineRanges, r.1 ≤ b ∧ b < r.1 + r.2 := by
  simp only [combineRanges, List.mem_cons, List.mem_singleton, List.not_mem_nil, or_false,
    exists_eq_or_imp, exists_eq_left]
  omega

theorem word0_fields_sum (a : Nat) :
    a % 2 ^ 24 = (a / 2 ^ 20 % 2 ^ 4) * 2 ^ 20 + (a / 2 ^ 15 % 2 ^ 5) * 2 ^ 15 +
      (a / 2 ^ 12 % 2 ^ 3) * 2 ^ 12 + (a / 2 ^ 9 % 2 ^ 3) * 2 ^ 9 + (a / 2 ^ 5 % 2 ^ 4) * 2 ^ 5 +
      a % 2 ^ 5 := by
  have s0 : a % 2 ^ 24 = a / 2 ^ 5 % 2 ^ 19 * 2 ^ 5 + a % 2 ^ 5 := by omega
  have s1 : a / 2 ^ 5 % 2 ^ 19 = a / 2 ^ 9 % 2 ^ 15 * 2 ^ 4 + a / 2 ^ 5 % 2 ^ 4 := by omega
  have s2 : a / 2 ^ 9 % 2 ^ 15 = a / 2 ^ 12 % 2 ^ 12 * 2 ^ 3 + a / 2 ^ 9 % 2 ^ 3 := by omega
  have s3 : a / 2 ^ 12 % 2 ^ 12 = a / 2 ^ 15 % 2 ^ 9 * 2 ^ 3 + a / 2 ^ 12 % 2 ^ 3 := by omega
  have s4 : a / 2 ^ 15 % 2 ^ 9 = a / 2 ^ 20 % 2 ^ 4 * 2 ^ 5 + a / 2 ^ 15 % 2 ^ 5 := by omega
  rw [s0, s1, s2, s3, s4]
  ring

theorem word1_fields_sum (b : Nat) (h : b < 2 ^ 32) :
    b = (b / 2 ^ 28 % 2 ^ 4) * 2 ^ 28 + (b / 2 ^ 24 % 2 ^ 4) * 2 ^ 24 +
      (b / 2 ^ 21 % 2 ^ 3) * 2 ^ 21 + (b / 2 ^ 18 % 2 ^ 3) * 2 ^ 18 +
      (b / 2 ^ 15 % 2 ^ 3) * 2 ^ 15 + (b / 2 ^ 12 % 2 ^ 3) * 2 ^ 12 +
      (b / 2 ^ 9 % 2 ^ 3) * 2 ^ 9 + (b / 2 ^ 6 % 2 ^ 3) * 2 ^ 6 + (b / 2 ^ 3 % 2 ^ 3) * 2 ^ 3 +
      b % 2 ^ 3 := by
  have s0 : b = b / 2 ^ 3 * 2 ^ 3 + b % 2 ^ 3 := by omega
  have s1 : b / 2 ^ 3 = b / 2 ^ 6 * 2 ^ 3 + b / 2 ^ 3 % 2 ^ 3 := by omega
  have s2 : b / 2 ^ 6 = b / 2 ^ 9 * 2 ^ 3 + b / 2 ^ 6 % 2 ^ 3 := by omega
  have s3 : b / 2 ^ 9 = b / 2 ^ 12 * 2 ^ 3 + b / 2 ^ 9 % 2 ^ 3 := by omega
  have s4 : b / 2 ^ 12 = b / 2 ^ 15 * 2 ^ 3 + b / 2 ^ 12 % 2 ^ 3 := by omega
  have s5 : b / 2 ^ 15 = b / 2 ^ 18 * 2 ^ 3 + b / 2 ^ 15 % 2 ^ 3 := by omega
  have s6 : b / 2 ^ 18 = b / 2 ^ 21 * 2 ^ 3 + b / 2 ^ 18 % 2 ^ 3 := by omega
  have s7 : b / 2 ^ 21 = b / 2 ^ 24 * 2 ^ 3 + b / 2 ^ 21 % 2 ^ 3 := by omega
  have s8 : b / 2 ^ 24 = b / 2 ^ 28 * 2 ^ 4 + b / 2 ^ 24 % 2 ^ 4 := by omega
  have s9 : b / 2 ^ 28 = b / 2 ^ 28 % 2 ^ 4 := by omega
  linarith

theorem word0_fields_of_low (a : Nat) :
    a / 2 ^ 20 % 2 ^ 4 = a % 2 ^ 24 / 2 ^ 20 % 2 ^ 4 ∧
    a / 2 ^ 15 % 2 ^ 5 = a % 2 ^ 24 / 2 ^ 15 % 2 ^ 5 ∧
    a / 2 ^ 12 % 2 ^ 3 = a % 2 ^ 24 / 2 ^ 12 % 2 ^ 3 ∧
    a / 2 ^ 9 % 2 ^ 3 = a % 2 ^ 24 / 2 ^ 9 % 2 ^ 3 ∧
    a / 2 ^ 5 % 2 ^ 4 = a % 2 ^ 24 / 2 ^ 5 % 2 ^ 4 ∧
    a % 2 ^ 5 = a % 2 ^ 24 % 2 ^ 5 := by
  refine ⟨?_, ?_, ?_, ?_, ?_, ?_⟩ <;> omega

/-- Two combine commands store the same selectors exactly when they agree on bits [23:0] of
word 0 and on word 1. -/
theorem combine_selectors_eq_iff (W V : Words) (hW : W 1 < 2 ^ 32) (hV : V 1 < 2 ^ 32) :
    [W 0 / 2 ^ 20 % 2 ^ 4, W 0 / 2 ^ 15 % 2 ^ 5, W 1 / 2 ^ 28 % 2 ^ 4, W 1 / 2 ^ 15 % 2 ^ 3,
       W 0 / 2 ^ 12 % 2 ^ 3, W 1 / 2 ^ 12 % 2 ^ 3, W 0 / 2 ^ 9 % 2 ^ 3, W 1 / 2 ^ 9 % 2 ^ 3,
       W 0 / 2 ^ 5 % 2 ^ 4, W 0 % 2 ^ 5, W 1 / 2 ^ 24 % 2 ^ 4, W 1 / 2 ^ 6 % 2 ^ 3,
       W 1 / 2 ^ 21 % 2 ^ 3, W 1 / 2 ^ 3 % 2 ^ 3, W 1 / 2 ^ 18 % 2 ^ 3, W 1 % 2 ^ 3] =
      [V 0 / 2 ^ 20 % 2 ^ 4, V 0 / 2 ^ 15 % 2 ^ 5, V 1 / 2 ^ 28 % 2 ^ 4, V 1 / 2 ^ 15 % 2 ^ 3,
       V 0 / 2 ^ 12 % 2 ^ 3, V 1 / 2 ^ 12 % 2 ^ 3, V 0 / 2 ^ 9 % 2 ^ 3, V 1 / 2 ^ 9 % 2 ^ 3,
       V 0 / 2 ^ 5 % 2 ^ 4, V 0 % 2 ^ 5, V 1 / 2 ^ 24 % 2 ^ 4, V 1 / 2 ^ 6 % 2 ^ 3,
       V 1 / 2 ^ 21 % 2 ^ 3, V 1 / 2 ^ 3 % 2 ^ 3, V 1 / 2 ^ 18 % 2 ^ 3, V 1 % 2 ^ 3] ↔
      W 0 % 2 ^ 24 = V 0 % 2 ^ 24 ∧ W 1 = V 1 := by
  generalize W 0 = a at *
  generalize W 1 = b at *
  generalize V 0 = x at *
  generalize V 1 = y at *
  simp only [List.cons.injEq, and_true]
  constructor
  · rintro ⟨h1, h2, h3, h4, h5, h6, h7, h8, h9, h10, h11, h12, h13, h14, h15, h16⟩
    constructor
    · rw [word0_fields_sum a, word0_fields_sum x, h1, h2, h5, h7, h9, h10]
    · rw [word1_fields_sum b hW, word1_fields_sum y hV, h3, h4, h6, h8, h11, h12, h13, h14, h15,
        h16]
  · rintro ⟨h1, h2⟩
    subst h2
    obtain ⟨a1, a2, a3, a4, a5, a6⟩ := word0_fields_of_low a
    obtain ⟨x1, x2, x3, x4, x5, x6⟩ := word0_fields_of_low x
    rw [a1, a2, a3, a4, a5, a6, x1, x2, x3, x4, x5, x6, h1]
    simp

theorem sampleWordsWith_32 (word0 : Nat) (h : word0 < 2 ^ 32) :
    Words32 (sampleWordsWith word0) := by
  intro i
  unfold sampleWordsWith
  by_cases hi : i = 0
  · simp only [hi, if_true]; exact h
  · simp only [hi, if_false]; exact sampleWords_32 i

/-! ## The timeline -/

theorem opcode_shl32 (m : Nat) (h : m < 64) : (shl32 m 24 >>> 24) &&& 63 = m := by
  interval_cases m <;> rfl

theorem signal_timeline_opcode (c : Consts) (hs : c.Op_MetaSignalTimeline < 64) (tv : Nat) :
    opcode (signal_timeline c tv).2 = c.Op_MetaSignalTimeline :=
  opcode_shl32 _ hs

/-- The two payload words of a ticket below `2 ^ 64` put together again give the ticket. -/
theorem ticket_words (t : Nat) (h : t < 2 ^ 64) :
    t % 2 ^ 32 ||| (((t >>> 32) % 2 ^ 32) <<< 32) % 2 ^ 64 = t := by
  have h1 : t % 2 ^ 32 < 2 ^ 32 := Nat.mod_lt _ (by decide)
  rw [Nat.shiftLeft_eq, Nat.shiftRight_eq_div_pow, Nat.lor_comm]
  have h2 : t / 2 ^ 32 % 2 ^ 32 * 2 ^ 32 % 2 ^ 64 = 2 ^ 32 * (t / 2 ^ 32) := by omega
  rw [h2, ← Nat.mul_add_lt_is_or h1]
  omega

/-- The command that `signal_timeline()` builds is served as a signal-timeline command, and
what is pushed to the worker is the ticket returned. -/
theorem enqueue_signal_words (c : Consts) (hs : c.Op_MetaSignalTimeline < 64) (tv : Nat)
    (p : CommandProcessor) (n : Nat) :
    enqueue_command_direct c p n (signal_timeline c tv).2 =
      (p, [Effect.flush_and_signal, Effect.timeline_worker_push (signal_timeline c tv).1]) := by
  rw [(meta_opcodes_dispatch c p n _).1 (signal_timeline_opcode c hs tv)]
  have h : (signal_timeline c tv).2 1 ||| ((signal_timeline c tv).2 2 <<< 32) % 2 ^ 64 =
      (signal_timeline c tv).1 :=
    ticket_words ((tv + 1) % 2 ^ 64) (Nat.mod_lt _ (by decide))
  rw [h]

theorem pushed_append (a b : List Effect) : pushed (a ++ b) = pushed a ++ pushed b := by
  induction a with
  | nil => rfl
  | cons x xs ih =>
    cases x <;> simp [pushed, ih]

theorem worker_trace_eq (value : Nat) (works : List Nat) : worker_trace value works = works := by
  induction works generalizing value with
  | nil => rfl
  | cons w ws ih =>
    simp only [worker_trace, notify_work_locked, ih]

/-- While the counter does not wrap, the calls return consecutive tickets. -/
theorem signal_calls_tickets (c : Consts) (n : Nat) :
    ∀ tv : Nat, tv + n < 2 ^ 64 →
      (signal_timeline_calls c n tv).map Prod.snd = List.range' (tv + 1) n := by
  induction n with
  | zero => intro tv _; rfl
  | succ k ih =>
    intro tv h
    have e : (signal_timeline c tv).1 = tv + 1 := Nat.mod_eq_of_lt (by omega)
    simp only [signal_timeline_calls, List.map_cons, List.range'_succ, e]
    rw [ih (tv + 1) (by omega)]

/-- Dispatching the commands of the calls pushes the tickets returned, in order. -/
theorem signal_calls_pushed (c : Consts) (hs : c.Op_MetaSignalTimeline < 64) (n : Nat) :
    ∀ (tv : Nat) (p : CommandProcessor),
      dispatch_all c p ((signal_timeline_calls c n tv).map (fun x => (3, x.1))) =
        (p, ((signal_timeline_calls c n tv).map Prod.snd).flatMap
          (fun t => [Effect.flush_and_signal, Effect.timeline_worker_push t])) := by
  induction n with
  | zero => intro tv p; rfl
  | succ k ih =>
    intro tv p
    simp only [signal_timeline_calls, List.map_cons, dispatch_all, enqueue_signal_words c hs, ih,
      List.flatMap_cons]

theorem pushed_signals (ts : List Nat) :
    pushed (ts.flatMap (fun t => [Effect.flush_and_signal, Effect.timeline_worker_push t])) =
      ts := by
  induction ts with
  | nil => rfl
  | cons t rest ih =>
    simp only [List.flatMap_cons, pushed_append, ih]
    rfl

theorem chain_range' (n : Nat) : ∀ s : Nat, List.Chain (· ≤ ·) s (List.range' (s + 1) n) := by
  induction n with
  | zero => intro s; exact List.Chain.nil
  | succ k ih =>
    intro s
    rw [List.range'_succ]
    exact List.Chain.cons (Nat.le_succ s) (ih (s + 1))

/-- One call of `idle()` returns, with the render state as it was and both timeline values at
the new ticket. -/
theorem idle_eq (c : Consts) (hs : c.Op_MetaSignalTimeline < 64) (s : ProcessorState) :
    idle c s = some
      { render := s.render, timeline_value := (signal_timeline c s.timeline_value).1,
        thread_timeline_value := (signal_timeline c s.timeline_value).1 } := by
  simp only [idle, ring_drain, dispatch_all, enqueue_signal_words c hs, List.append_nil,
    pushed,
    worker_final, worker_trace, notify_work_locked, List.getLastD_cons, List.getLastD_nil,
    wait_for_timeline, ge_iff_le, le_refl, decide_True, if_true]

theorem idle_times_render (c : Consts) (hs : c.Op_MetaSignalTimeline < 64) (k : Nat) :
    ∀ s : ProcessorState, ∃ t : ProcessorState, idle_times c k s = some t ∧
      t.render = s.render := by
  induction k with
  | zero => intro s; exact ⟨s, rfl, rfl⟩
  | succ j ih =>
    intro s
    obtain ⟨t, ht, hr⟩ := ih
      { render := s.render, timeline_value := (signal_timeline c s.timeline_value).1,
        thread_timeline_value := (signal_timeline c s.timeline_value).1 }
    exact ⟨t, by simp only [idle_times, idle_eq c hs, Option.some_bind, ht], hr⟩

/-! ## C11 to C13: scissor and rectangles -/

/-- C11. For every prior state and word pair, `op_set_scissor` sets xlo = w0[23:12],
ylo = w0[11:0], xhi = w1[23:12], yhi = w1[11:0], each below 4096, sets the interlace-field flag
exactly when bit 25 of w1 is set and the keep-odd flag exactly when bit 24 of w1 is set.  So
four bounds below 4096 packed as `hi * 2^24 + x * 2^12 + y` are read back unchanged, and words
encoding xlo = 0, xhi = 0xfff, ylo = 0, yhi = 0xfff give the bounds (0, 0xfff, 0, 0xfff). -/
theorem scissor_decoding (c : Consts) (hc : c.RasterWF) (p : CommandProcessor) (W : Words) :
    (op_set_scissor c p W).1.scissor_state =
      { xlo := bitField (W 0) 12 12, ylo := bitField (W 0) 0 12,
        xhi := bitField (W 1) 12 12, yhi := bitField (W 1) 0 12 } ∧
    ((op_set_scissor c p W).1.scissor_state.xlo < 4096 ∧
      (op_set_scissor c p W).1.scissor_state.ylo < 4096 ∧
      (op_set_scissor c p W).1.scissor_state.xhi < 4096 ∧
      (op_set_scissor c p W).1.scissor_state.yhi < 4096) ∧
    (FlagSet (op_set_scissor c p W).1.static_state.flags c.RASTERIZATION_INTERLACE_FIELD_BIT ↔
      (W 1).testBit 25 = true) ∧
    (FlagSet (op_set_scissor c p W).1.static_state.flags
        c.RASTERIZATION_INTERLACE_KEEP_ODD_BIT ↔ (W 1).testBit 24 = true) ∧
    (∀ xlo ylo xhi yhi h0 h1 : Nat, xlo < 4096 → ylo < 4096 → xhi < 4096 → yhi < 4096 →
      W 0 = h0 * 2 ^ 24 + xlo * 2 ^ 12 + ylo → W 1 = h1 * 2 ^ 24 + xhi * 2 ^ 12 + yhi →
      (op_set_scissor c p W).1.scissor_state =
        { xlo := xlo, ylo := ylo, xhi := xhi, yhi := yhi }) ∧
    (W 0 % 2 ^ 24 = 0 → W 1 % 2 ^ 24 = 0xffffff →
      (op_set_scissor c p W).1.scissor_state =
        { xlo := 0, ylo := 0, xhi := 0xfff, yhi := 0xfff }) := by
  have hb := scissor_bounds c p W
  obtain ⟨hF, hK⟩ := scissor_interlace_flags c hc p W
  have lt : ∀ x lo : Nat, bitField x lo 12 < 4096 := fun x lo => Nat.mod_lt _ (by decide)
  refine ⟨hb, ?_, hF, hK, ?_, ?_⟩
  · rw [hb]
    exact ⟨lt _ _, lt _ _, lt _ _, lt _ _⟩
  · intro xlo ylo xhi yhi h0 h1 a1 a2 a3 a4 e0 e1
    rw [hb]
    simp only [bitField, Nat.shiftRight_eq_div_pow, e0, e1]
    refine congr (congr (congr (congrArg ScissorState.mk ?_) ?_) ?_) ?_ <;> omega
  · intro e0 e1
    rw [hb]
    simp only [bitField, Nat.shiftRight_eq_div_pow]
    refine congr (congr (congr (congrArg ScissorState.mk ?_) ?_) ?_) ?_ <;> omega

/-- Witness of C11: the words 0x2d000000 and 0x00ffffff encode xlo = 0, ylo = 0, xhi = 0xfff,
yhi = 0xfff. -/
theorem scissor_decoding_witness :
    sampleConsts.RasterWF ∧
      (op_set_scissor sampleConsts sampleState
          (fun i => if i = 0 then 0x2d000000 else 0x00ffffff)).1.scissor_state =
        { xlo := 0, ylo := 0, xhi := 0xfff, yhi := 0xfff } :=
  ⟨by decide,
    (scissor_decoding sampleConsts (by decide) sampleState
      (fun i => if i = 0 then 0x2d000000 else 0x00ffffff)).2.2.2.2.2 (by decide) (by decide)⟩

/-- C12. For every prior state, a set_other_modes command whose bits [21:20] of word 0 are the
copy enumerator, followed by a fill-rectangle command with any words, forwards one triangle
setup whose skip_xfrac flag is unset, whose flip flag is set and whose y-low has its two low
bits equal to 1. -/
theorem copy_then_fill_rectangle (c : Consts) (hr : c.RasterWF)
    (hy : c.CycleWF) (ht : c.TriangleWF) (p : CommandProcessor) (Wm Wr : Words)
    (hsel : (Wm 0 >>> 20) &&& 3 = c.CycleType_Copy) :
    ∃ setup : TriangleSetup,
      (op_fill_rectangle c (op_set_other_modes c p Wm).1 Wr).2 =
        [Effect.draw_flat_primitive setup] ∧
      ¬ FlagSet setup.flags c.TRIANGLE_SETUP_SKIP_XFRAC_BIT ∧
      FlagSet setup.flags c.TRIANGLE_SETUP_FLIP_BIT ∧
      setup.yl = (((Wr 0 &&& 0xfff) ||| 3 : Nat) : Int) ∧
      setup.yl % 4 = 3 := by
  obtain ⟨hF, -, -, -, hFS, -⟩ := triangle_masks c ht
  have hcopy : FlagSet (op_set_other_modes c p Wm).1.static_state.flags
      c.RASTERIZATION_COPY_BIT :=
    (other_modes_cycle_status c hr p Wm).2.2.2
      ⟨by rw [hsel]; exact fun e => hy.2.1 e.symm, by rw [hsel]; exact fun e => hy.2.2 e.symm,
        hsel⟩
  have hyl := rect_y c (op_set_other_modes c p Wm).1 (Wr 0)
  rw [if_pos (Or.inl hcopy)] at hyl
  refine ⟨_, rfl, not_flagSet_of_disjoint hFS, flagSet_self _ hF, ?_, ?_⟩
  · exact hyl
  · show i32 _ % 4 = 3
    have := or_three_mod (Wr 0 &&& 0xfff)
    simp only [Nat.shiftRight_zero] at hyl ⊢
    rw [hyl]
    omega

/-- Witness of C12 at the sample constants and state, with bits [21:20] of word 0 equal to
0b10. -/
theorem copy_then_fill_rectangle_witness :
    sampleConsts.RasterWF ∧ sampleConsts.CycleWF ∧ sampleConsts.TriangleWF ∧
      ((0x2f200000 : Nat) >>> 20) &&& 3 = 0b10 ∧
      ∃ setup : TriangleSetup,
        (op_fill_rectangle sampleConsts
            (op_set_other_modes sampleConsts sampleState (fun _ => 0x2f200000)).1
            sampleWords).2 = [Effect.draw_flat_primitive setup] ∧
        ¬ FlagSet setup.flags sampleConsts.TRIANGLE_SETUP_SKIP_XFRAC_BIT ∧
        FlagSet setup.flags sampleConsts.TRIANGLE_SETUP_FLIP_BIT ∧
        setup.yl % 4 = 3 :=
  ⟨by decide, by decide, by decide, by decide,
    (copy_then_fill_rectangle sampleConsts (by decide) (by decide) (by decide)
      sampleState (fun _ => 0x2f200000) sampleWords (by decide)).imp
      fun _ h => ⟨h.1, h.2.1, h.2.2.1, h.2.2.2.2⟩⟩

/-- C13. For each of the three rectangle handlers (fill_rectangle, texture_rectangle,
texture_rectangle_flip), every state and all words, the forwarded setup is a flipped degenerate
quad: the flip flag is set, the do_offset flag is unset, xl = xm = word0[23:12] * 2^14,
xh = word1[23:12] * 2^14, yh = word1[11:0], the three slopes are zero, and yl = ym =
word0[11:0] OR q, where q is 3 when the rasterization flags have COPY or FILL set and 0
otherwise. -/
theorem rectangle_setup (c : Consts) (ht : c.TriangleWF) (p : CommandProcessor) (W : Words) :
    ∀ f ∈ [op_fill_rectangle c, op_texture_rectangle c, op_texture_rectangle_flip c],
      ∃ setup : TriangleSetup,
        forwardedSetup (f p W).2 = some setup ∧
        FlagSet setup.flags c.TRIANGLE_SETUP_FLIP_BIT ∧
        ¬ FlagSet setup.flags c.TRIANGLE_SETUP_DO_OFFSET_BIT ∧
        setup.xl = ((((W 0 >>> 12) &&& 0xfff) * 2 ^ 14 : Nat) : Int) ∧
        setup.xm = ((((W 0 >>> 12) &&& 0xfff) * 2 ^ 14 : Nat) : Int) ∧
        setup.xh = ((((W 1 >>> 12) &&& 0xfff) * 2 ^ 14 : Nat) : Int) ∧
        setup.yh = ((W 1 &&& 0xfff : Nat) : Int) ∧
        (setup.dxldy = 0 ∧ setup.dxhdy = 0 ∧ setup.dxmdy = 0) ∧
        setup.yl = (((W 0 &&& 0xfff) |||
          (if FlagSet p.static_state.flags c.RASTERIZATION_COPY_BIT ∨
              FlagSet p.static_state.flags c.RASTERIZATION_FILL_BIT then 3 else 0) : Nat) : Int) ∧
        setup.ym = setup.yl := by
  obtain ⟨hF, hD, hS, hFD, hFS, hDS⟩ := triangle_masks c ht
  have hSD : c.TRIANGLE_SETUP_SKIP_XFRAC_BIT &&& c.TRIANGLE_SETUP_DO_OFFSET_BIT = 0 := by
    rw [Nat.land_comm]; exact hDS
  have hyh : i32 (W 1 &&& 0xfff) = ((W 1 &&& 0xfff : Nat) : Int) :=
    i32_of_lt _ (lt_trans (and_0xfff_lt _) (by decide))
  have hyl := rect_y c p (W 0)
  intro f hf
  simp only [List.mem_cons, List.mem_singleton, List.not_mem_nil, or_false] at hf
  rcases hf with rfl | rfl | rfl
  · exact ⟨_, rfl, flagSet_self _ hF, not_flagSet_of_disjoint hFD, rect_x _, rect_x _, rect_x _,
      hyh, ⟨rfl, rfl, rfl⟩, hyl, rfl⟩
  · refine ⟨_, rfl, ?_, ?_, rect_x _, rect_x _, rect_x _, hyh, ⟨rfl, rfl, rfl⟩, hyl, rfl⟩
    · show FlagSet (if _ then _ else _) _
      split_ifs
      · exact (flagSet_or _ _ _).2 (Or.inl (flagSet_self _ hF))
      · exact flagSet_self _ hF
    · show ¬ FlagSet (if _ then _ else _) _
      split_ifs
      · rw [flagSet_or]
        exact fun h => h.elim (not_flagSet_of_disjoint hFD) (not_flagSet_of_disjoint hSD)
      · exact not_flagSet_of_disjoint hFD
  · refine ⟨_, rfl, ?_, ?_, rect_x _, rect_x _, rect_x _, hyh, ⟨rfl, rfl, rfl⟩, hyl, rfl⟩
    · show FlagSet (if _ then _ else _) _
      split_ifs
      · exact (flagSet_or _ _ _).2 (Or.inl (flagSet_self _ hF))
      · exact flagSet_self _ hF
    · show ¬ FlagSet (if _ then _ else _) _
      split_ifs
      · rw [flagSet_or]
        exact fun h => h.elim (not_flagSet_of_disjoint hFD) (not_flagSet_of_disjoint hSD)
      · exact not_flagSet_of_disjoint hFD

/-- Witness of C13 at the sample constants, state and window, for the texture-rectangle
handler. -/
theorem rectangle_setup_witness :
    sampleConsts.TriangleWF ∧
      ∃ setup : TriangleSetup,
        forwardedSetup (op_texture_rectangle sampleConsts sampleState sampleWords).2 =
          some setup ∧
        FlagSet setup.flags sampleConsts.TRIANGLE_SETUP_FLIP_BIT ∧
        ¬ FlagSet setup.flags sampleConsts.TRIANGLE_SETUP_DO_OFFSET_BIT :=
  ⟨by decide,
    (rectangle_setup sampleConsts (by decide) sampleState sampleWords
      (op_texture_rectangle sampleConsts) (by simp)).imp
      fun _ h => ⟨h.1, h.2.1, h.2.2.1⟩⟩

/-! ## C14 to C16: command sequences from the zero state -/

/-- C14. For every command sequence dispatched in order from the zero state and then a command
with one of the eight triangle opcodes 0x08 to 0x0f, the forwarded triangle setup has
skip_xfrac set exactly when the most recent set_other_modes command of the sequence selected
copy-cycle.  It is unset when the sequence has no set_other_modes command, and the commands of
every other kind can be dropped from the sequence without changing the answer. -/
theorem skip_xfrac_follows_copy (c : Consts) (hr : c.RasterWF) (hy : c.CycleWF)
    (ht : c.TriangleWF) (hm : c.MetaWF) (cmds : List (Nat × Words)) (n : Nat) (W : Words)
    (hop : 0x08 ≤ opcode W ∧ opcode W ≤ 0x0f) :
    ∃ setup : TriangleSetup,
      forwardedSetup (enqueue_command_direct c (dispatch_all c {} cmds).1 n W).2 = some setup ∧
      (FlagSet setup.flags c.TRIANGLE_SETUP_SKIP_XFRAC_BIT ↔ copySelected c cmds = true) ∧
      ((∀ cmd ∈ cmds, opcode cmd.2 ≠ 0x2f) →
        ¬ FlagSet setup.flags c.TRIANGLE_SETUP_SKIP_XFRAC_BIT) ∧
      copySelected c cmds =
        copySelected c (cmds.filter (fun x => decide (opcode x.2 = 0x2f))) := by
  have h0 : FlagSet ({} : CommandProcessor).static_state.flags c.RASTERIZATION_COPY_BIT ↔
      false = true := by
    simp [FlagSet]
  have hflag := drain_copy_flag c hr hy hm cmds {} false h0
  have hskip : FlagSet (decode_triangle_setup c {} W
      (copy_cycle c (dispatch_all c {} cmds).1)).flags c.TRIANGLE_SETUP_SKIP_XFRAC_BIT ↔
      copySelected c cmds = true := by
    rw [triangle_setup_skip_xfrac c ht, copy_cycle_iff]
    exact hflag
  refine ⟨_, triangle_forwarded c hm _ n W hop, hskip, ?_, copySelected_filter c cmds⟩
  intro hnone
  rw [hskip, copySelected_of_none c cmds hnone]
  simp

/-- Witness of C14: after a set_other_modes command that selects copy-cycle and a set_scissor
command, the fill-triangle opcode 0x08 forwards a setup with skip_xfrac set. -/
theorem skip_xfrac_follows_copy_witness :
    sampleConsts.RasterWF ∧ sampleConsts.CycleWF ∧ sampleConsts.TriangleWF ∧
      sampleConsts.MetaWF ∧
      (0x08 ≤ opcode (fun _ => 0x08800000) ∧ opcode (fun _ => 0x08800000) ≤ 0x0f) ∧
      copySelected sampleConsts [(2, fun _ => 0x2f200000), (2, fun _ => 0x2d000000)] = true ∧
      ∃ setup : TriangleSetup,
        forwardedSetup (enqueue_command_direct sampleConsts
          (dispatch_all sampleConsts {}
            [(2, fun _ => 0x2f200000), (2, fun _ => 0x2d000000)]).1 8
          (fun _ => 0x08800000)).2 = some setup ∧
        (FlagSet setup.flags sampleConsts.TRIANGLE_SETUP_SKIP_XFRAC_BIT ↔
          copySelected sampleConsts [(2, fun _ => 0x2f200000), (2, fun _ => 0x2d000000)]
            = true) :=
  ⟨by decide, by decide, by decide, by decide, by decide, by decide,
    (skip_xfrac_follows_copy sampleConsts (by decide) (by decide) (by decide) (by decide)
      [(2, fun _ => 0x2f200000), (2, fun _ => 0x2d000000)] 8 (fun _ => 0x08800000)
      (by decide)).imp fun _ h => ⟨h.1, h.2.1⟩⟩

/-- C15. After `op_set_texture_image` with words (w0, w1) and then any command sequence without
a set_texture_image command, each of the handlers load_tile, load_block and load_tlut with
words (c0, c1) forwards tex_addr = w1[23:0], tex_width = w0[9:0] + 1, format = w0[23:21] and
pixel size = w0[20:19], with tile = c1[26:24], slo = c0[23:12], tlo = c0[11:0], shi = c1[23:12]
and thi = c1[11:0]; the width is in [1, 1024]; the three calls differ in the upload mode
alone. -/
theorem loads_read_texture_image (c : Consts) (p : CommandProcessor) (W : Words)
    (cmds : List (Nat × Words)) (hno : ∀ cmd ∈ cmds, opcode cmd.2 ≠ 0x3d) (L : Words) :
    (∀ fm ∈ [(op_load_tile, UploadMode.Tile), (op_load_block, UploadMode.Block),
        (op_load_tlut, UploadMode.TLUT)],
      fm.1 (dispatch_all c (op_set_texture_image p W).1 cmds).1 L =
        ((dispatch_all c (op_set_texture_image p W).1 cmds).1,
          [Effect.load_tile (bitField (L 1) 24 3)
            { tex_addr := bitField (W 1) 0 24
              tex_width := bitField (W 0) 0 10 + 1
              fmt := bitField (W 0) 21 3
              size := bitField (W 0) 19 2
              slo := bitField (L 0) 12 12
              tlo := bitField (L 0) 0 12
              shi := bitField (L 1) 12 12
              thi := bitField (L 1) 0 12
              mode := fm.2 }])) ∧
    (1 ≤ bitField (W 0) 0 10 + 1 ∧ bitField (W 0) 0 10 + 1 ≤ 1024) := by
  have ht := drain_keeps_texture_image c cmds (op_set_texture_image p W).1 hno
  have e24 : ∀ x : Nat, x &&& 0x00ffffff = x % 2 ^ 24 :=
    fun x => Nat.and_pow_two_sub_one_eq_mod x 24
  have e12 : ∀ x : Nat, x &&& 0xfff = x % 2 ^ 12 := fun x => Nat.and_pow_two_sub_one_eq_mod x 12
  have e10 : ∀ x : Nat, x &&& 0x3ff = x % 2 ^ 10 := fun x => Nat.and_pow_two_sub_one_eq_mod x 10
  have e3 : ∀ x : Nat, x &&& 7 = x % 2 ^ 3 := fun x => Nat.and_pow_two_sub_one_eq_mod x 3
  have e2 : ∀ x : Nat, x &&& 3 = x % 2 ^ 2 := fun x => Nat.and_pow_two_sub_one_eq_mod x 2
  generalize (dispatch_all c (op_set_texture_image p W).1 cmds).1 = q at ht ⊢
  have ht' : q.texture_image =
      { addr := bitField (W 1) 0 24, width := bitField (W 0) 0 10 + 1,
        fmt := bitField (W 0) 21 3, size := bitField (W 0) 19 2 } := by
    rw [ht]
    simp only [op_set_texture_image, bitField, e24, e10, e3, e2, Nat.shiftRight_zero]
  constructor
  · intro fm hfm
    simp only [List.mem_cons, List.mem_singleton, List.not_mem_nil, or_false] at hfm
    rcases hfm with rfl | rfl | rfl
    · simp only [op_load_tile, ht', bitField, e12, e3, Nat.shiftRight_zero]
    · simp only [op_load_block, ht', bitField, e12, e3, Nat.shiftRight_zero]
    · simp only [op_load_tlut, ht', bitField, e12, e3, Nat.shiftRight_zero]
  · have : bitField (W 0) 0 10 < 1024 := Nat.mod_lt _ (by decide)
    omega

/-- Witness of C15: between the set_texture_image command and the load, a set_scissor and a
set_other_modes command. -/
theorem loads_read_texture_image_witness :
    (∀ cmd ∈ [(2, fun _ => 0x2d000000), ((2 : Nat), (fun _ => 0x2f200000 : Words))],
        opcode cmd.2 ≠ 0x3d) ∧
      (op_load_tile (dispatch_all sampleConsts
          (op_set_texture_image sampleState sampleWords).1
          [(2, fun _ => 0x2d000000), (2, fun _ => 0x2f200000)]).1 sampleWords).2 =
        [Effect.load_tile (bitField (sampleWords 1) 24 3)
          { tex_addr := bitField (sampleWords 1) 0 24
            tex_width := bitField (sampleWords 0) 0 10 + 1
            fmt := bitField (sampleWords 0) 21 3
            size := bitField (sampleWords 0) 19 2
            slo := bitField (sampleWords 0) 12 12
            tlo := bitField (sampleWords 0) 0 12
            shi := bitField (sampleWords 1) 12 12
            thi := bitField (sampleWords 1) 0 12
            mode := UploadMode.Tile }] :=
  ⟨by decide,
    congrArg Prod.snd
      ((loads_read_texture_image sampleConsts sampleState sampleWords
        [(2, fun _ => 0x2d000000), (2, fun _ => 0x2f200000)] (by decide) sampleWords).1
        (op_load_tile, UploadMode.Tile) (by simp))⟩

/-- C16. In every state reached from the all-zero state by dispatching a finite sequence of
commands, of any opcodes and words, through `enqueue_command_direct`, the depth/blend AA flag
is set exactly when the rasterization AA flag is, the depth/blend MULTI_CYCLE flag exactly when
the rasterization MULTI_CYCLE flag is, and at most one of the rasterization flags MULTI_CYCLE,
FILL, COPY is set. -/
theorem reachable_flags_invariant (c : Consts) (hr : c.RasterWF) (hd : c.DepthBlendWF)
    (cmds : List (Nat × Words)) :
    FlagsInvariant c (dispatch_all c {} cmds).1 :=
  drain_keeps_invariant c hr hd cmds {} (zero_state_invariant c)

/-- Witness of C16 at the sample constants and a sequence of three commands: set_other_modes
selecting two-cycle with AA, set_scissor, set_other_modes selecting fill. -/
theorem reachable_flags_invariant_witness :
    sampleConsts.RasterWF ∧ sampleConsts.DepthBlendWF ∧
      FlagsInvariant sampleConsts
        (dispatch_all sampleConsts {}
          [(2, fun i => if i = 0 then 0x2f100000 else 8), (2, fun _ => 0x2dffffff),
            (2, fun _ => 0x2f300000)]).1 :=
  ⟨by decide, by decide,
    reachable_flags_invariant sampleConsts (by decide) (by decide)
      [(2, fun i => if i = 0 then 0x2f100000 else 8), (2, fun _ => 0x2dffffff),
        (2, fun _ => 0x2f300000)]⟩

/-! ## C17: the combine command -/

theorem selectors_eq_iff (s t : StaticRasterizationState) :
    combinerSelectors s = combinerSelectors t ↔
      s.combiner0 = t.combiner0 ∧ s.combiner1 = t.combiner1 := by
  obtain ⟨⟨⟨a1, a2, a3, a4⟩, ⟨a5, a6, a7, a8⟩⟩, ⟨⟨b1, b2, b3, b4⟩, ⟨b5, b6, b7, b8⟩⟩, f, d⟩ := s
  obtain ⟨⟨⟨x1, x2, x3, x4⟩, ⟨x5, x6, x7, x8⟩⟩, ⟨⟨y1, y2, y3, y4⟩, ⟨y5, y6, y7, y8⟩⟩, g, e⟩ := t
  simp only [combinerSelectors, List.cons.injEq, and_true, CombinerInputs.mk.injEq,
    CombinerInputsRGB.mk.injEq, CombinerInputsAlpha.mk.injEq]
  tauto

/-- C17. The sixteen selectors written by `op_set_combine` are the fields of the merged command
`word0 << 32 | word1` at the sixteen ranges of `combineRanges`; the ranges are pairwise
disjoint and a bit lies in one of them exactly when it is one of the bits [55:0].  Hence two
set_combine commands, from any states, leave the same two combiner stages exactly when they
agree on bits [23:0] of word 0 and on word 1. -/
theorem combine_ranges_partition (p q : CommandProcessor) (W V : Words) (hW : Words32 W)
    (hV : Words32 V) :
    combinerSelectors (op_set_combine p W).1.static_state =
      combineRanges.map (fun r => bitField (merged W) r.1 r.2) ∧
    combineRanges.Pairwise (fun r s => r.1 + r.2 ≤ s.1 ∨ s.1 + s.2 ≤ r.1) ∧
    (∀ b : Nat, b < 56 ↔ ∃ r ∈ combineRanges, r.1 ≤ b ∧ b < r.1 + r.2) ∧
    (((op_set_combine p W).1.static_state.combiner0 =
          (op_set_combine q V).1.static_state.combiner0 ∧
        (op_set_combine p W).1.static_state.combiner1 =
          (op_set_combine q V).1.static_state.combiner1) ↔
      W 0 % 2 ^ 24 = V 0 % 2 ^ 24 ∧ W 1 = V 1) := by
  refine ⟨?_, by decide, combine_ranges_cover, ?_⟩
  · rw [combine_selectors, combine_fields_of_merged W (hW 1)]
  · rw [← selectors_eq_iff, combine_selectors, combine_selectors]
    exact combine_selectors_eq_iff W V (hW 1) (hV 1)

/-- Witness of C17: the sample window and the same window with bits [31:24] of word 0 changed
leave the same combiner stages. -/
theorem combine_ranges_partition_witness :
    Words32 sampleWords ∧ Words32 (sampleWordsWith 0x3cb5c3a7) ∧
      ((op_set_combine sampleState sampleWords).1.static_state.combiner0 =
          (op_set_combine {} (sampleWordsWith 0x3cb5c3a7)).1.static_state.combiner0 ∧
        (op_set_combine sampleState sampleWords).1.static_state.combiner1 =
          (op_set_combine {} (sampleWordsWith 0x3cb5c3a7)).1.static_state.combiner1) :=
  ⟨sampleWords_32, sampleWordsWith_32 _ (by decide),
    (combine_ranges_partition sampleState {} sampleWords (sampleWordsWith 0x3cb5c3a7)
      sampleWords_32 (sampleWordsWith_32 _ (by decide))).2.2.2.2 ⟨by decide, by decide⟩⟩

/-! ## C18 to C20: the timeline ticket -/

/-- C18. For every counter value, the three words built by `signal_timeline()` carry the meta
opcode in bits [29:24] of word 0, the low 32 bits of the new ticket in word 1 and its high 32
bits in word 2; `enqueue_command_direct` serves them as a signal-timeline command, and the
value it pushes to the timeline worker after the signal is the ticket that `signal_timeline()`
returned. -/
theorem timeline_ticket_roundtrip (c : Consts) (hs : c.Op_MetaSignalTimeline < 64) (tv : Nat)
    (p : CommandProcessor) :
    (signal_timeline c tv).1 = (tv + 1) % 2 ^ 64 ∧
    bitField ((signal_timeline c tv).2 0) 24 6 = c.Op_MetaSignalTimeline ∧
    (signal_timeline c tv).2 1 = (signal_timeline c tv).1 % 2 ^ 32 ∧
    (signal_timeline c tv).2 2 = (signal_timeline c tv).1 / 2 ^ 32 ∧
    enqueue_command_direct c p 3 (signal_timeline c tv).2 =
      (p, [Effect.flush_and_signal, Effect.timeline_worker_push (signal_timeline c tv).1]) := by
  have ht : (tv + 1) % 2 ^ 64 < 2 ^ 64 := Nat.mod_lt _ (by decide)
  refine ⟨rfl, ?_, rfl, ?_, enqueue_signal_words c hs tv p 3⟩
  · have h := signal_timeline_opcode c hs tv
    unfold opcode at h
    rw [← h]
    exact (Nat.and_pow_two_sub_one_eq_mod _ 6).symm
  · show (((tv + 1) % 2 ^ 64) >>> 32) % 2 ^ 32 = (tv + 1) % 2 ^ 64 / 2 ^ 32
    rw [Nat.shiftRight_eq_div_pow]
    omega

/-- Witness of C18 at the counter value `2 ^ 32 - 1`, whose successor has a non-zero high
word. -/
theorem timeline_ticket_roundtrip_witness :
    sampleConsts.Op_MetaSignalTimeline < 64 ∧
      enqueue_command_direct sampleConsts sampleState 3
          (signal_timeline sampleConsts 0xffffffff).2 =
        (sampleState, [Effect.flush_and_signal,
          Effect.timeline_worker_push (signal_timeline sampleConsts 0xffffffff).1]) :=
  ⟨by decide,
    (timeline_ticket_roundtrip sampleConsts (by decide) 0xffffffff sampleState).2.2.2.2⟩

/-- C19. From requested = 0 and reached = 0, for `N < 2 ^ 64` calls of `signal_timeline()` the
call number k returns the ticket k.  When the commands are dispatched in order, the values
pushed to the worker are these tickets in order; when the worker completes them in FIFO order,
the published value after the completion number k is k, the published values are
non-decreasing from the initial 0 on, and each is at most a ticket that the worker has
completed by then. -/
theorem timeline_monotone (c : Consts) (hs : c.Op_MetaSignalTimeline < 64) (N : Nat)
    (hN : N < 2 ^ 64) (p : CommandProcessor) :
    (signal_timeline_calls c N 0).map Prod.snd = List.range' 1 N ∧
    pushed (dispatch_all c p ((signal_timeline_calls c N 0).map (fun x => (3, x.1)))).2 =
      List.range' 1 N ∧
    worker_trace 0
        (pushed (dispatch_all c p ((signal_timeline_calls c N 0).map (fun x => (3, x.1)))).2) =
      List.range' 1 N ∧
    List.Chain (· ≤ ·) 0
      (worker_trace 0
        (pushed (dispatch_all c p ((signal_timeline_calls c N 0).map (fun x => (3, x.1)))).2)) ∧
    (∀ (k v : Nat),
      (worker_trace 0
        (pushed (dispatch_all c p
          ((signal_timeline_calls c N 0).map (fun x => (3, x.1)))).2))[k]? = some v →
      ∃ t ∈ (pushed (dispatch_all c p
          ((signal_timeline_calls c N 0).map (fun x => (3, x.1)))).2).take (k + 1), v ≤ t) := by
  have h1 : (signal_timeline_calls c N 0).map Prod.snd = List.range' 1 N := by
    have := signal_calls_tickets c N 0 (by omega)
    simpa using this
  have h2 : pushed (dispatch_all c p
      ((signal_timeline_calls c N 0).map (fun x => (3, x.1)))).2 = List.range' 1 N := by
    rw [signal_calls_pushed c hs N 0 p, pushed_signals, h1]
  refine ⟨h1, h2, ?_, ?_, ?_⟩
  · rw [worker_trace_eq, h2]
  · rw [worker_trace_eq, h2]
    exact chain_range' N 0
  · intro k v hv
    rw [worker_trace_eq] at hv
    refine ⟨v, ?_, le_refl v⟩
    apply List.getElem?_mem (n := k)
    rw [List.getElem?_take_of_lt (Nat.lt_succ_self k)]
    exact hv

/-- Witness of C19 for three calls. -/
theorem timeline_monotone_witness :
    sampleConsts.Op_MetaSignalTimeline < 64 ∧ 3 < 2 ^ 64 ∧
      worker_trace 0
          (pushed (dispatch_all sampleConsts sampleState
            ((signal_timeline_calls sampleConsts 3 0).map (fun x => (3, x.1)))).2) =
        List.range' 1 3 :=
  ⟨by decide, by decide,
    (timeline_monotone sampleConsts (by decide) 3 (by decide) sampleState).2.2.1⟩

/-- C20. A command whose opcode is the signal-timeline or the flush meta opcode is served by
the `switch`, whatever the handler table holds at that opcode: the calls made are the meta
calls alone and the persistent render state is as it was.  So `idle()`, called any number of
times in a row, returns with the persistent render state as it was. -/
theorem meta_commands_keep_state (c : Consts) (hs : c.Op_MetaSignalTimeline < 64)
    (hne : c.Op_MetaFlush ≠ c.Op_MetaSignalTimeline) :
    (∀ (p : CommandProcessor) (n : Nat) (W : Words), opcode W = c.Op_MetaSignalTimeline →
      enqueue_command_direct c p n W =
        (p, [Effect.flush_and_signal,
          Effect.timeline_worker_push (W 1 ||| ((W 2 <<< 32) % 2 ^ 64))])) ∧
    (∀ (p : CommandProcessor) (n : Nat) (W : Words), opcode W = c.Op_MetaFlush →
      enqueue_command_direct c p n W = (p, [Effect.flush])) ∧
    (∀ (s : ProcessorState) (k : Nat),
      ∃ t : ProcessorState, idle_times c k s = some t ∧ t.render = s.render) :=
  ⟨fun p n W h => (meta_opcodes_dispatch c p n W).1 h,
    fun p n W h => (meta_opcodes_dispatch c p n W).2 (by rw [h]; exact hne) h,
    fun s k => idle_times_render c hs k s⟩

/-- Witness of C20 with the flush meta opcode placed at 0x2f, a slot of the table that holds
`op_set_other_modes`: the command flushes and the handler does not run. -/
theorem meta_commands_keep_state_witness :
    ({ sampleConsts with Op_MetaFlush := 0x2f } : Consts).Op_MetaSignalTimeline < 64 ∧
      ({ sampleConsts with Op_MetaFlush := 0x2f } : Consts).Op_MetaFlush ≠
        ({ sampleConsts with Op_MetaFlush := 0x2f } : Consts).Op_MetaSignalTimeline ∧
      enqueue_command_direct { sampleConsts with Op_MetaFlush := 0x2f } sampleState 2
        (fun _ => 0x2f300000) = (sampleState, [Effect.flush]) :=
  ⟨by decide, by decide,
    (meta_commands_keep_state { sampleConsts with Op_MetaFlush := 0x2f } (by decide)
      (by decide)).2.1 sampleState 2 (fun _ => 0x2f300000) (by decide)⟩

/-! ## The triangle handlers on a window -/

theorem checked_bind_some {α β : Type} (a : α) (f : α → Checked β) :
    Bind.bind (some a : Checked α) f = f a := rfl

theorem checked_bind_none {α β : Type} (f : α → Checked β) :
    Bind.bind (none : Checked α) f = none := rfl

theorem checked_bind_const_none {α β : Type} (x : Checked α) :
    (Bind.bind x fun _ => (none : Checked β)) = none := by
  cases x <;> rfl

theorem checked_pure {α : Type} (a : α) : (Pure.pure a : Checked α) = some a := rfl

theorem window_words_some (window : List Nat) (i : Nat) (h : i < window.length) :
    window_words window i = some (window.getD i 0) := by
  simp only [window_words, List.getD_eq_getElem?_getD, List.getElem?_eq_getElem h,
    Option.getD_some]

theorem window_words_none (window : List Nat) (i : Nat) (h : window.length ≤ i) :
    window_words window i = none := by
  simp only [window_words, List.getElem?_eq_none h]

theorem decode_triangle_setup_checked_some (c : Consts) (setup : TriangleSetup)
    (words : WindowWords) (W : Words) (copy : Bool) (h : ∀ i, i < 8 → words i = some (W i)) :
    decode_triangle_setup_checked c setup words copy =
      some (decode_triangle_setup c setup W copy) := by
  simp only [decode_triangle_setup_checked, h 0 (by decide), h 1 (by decide), h 2 (by decide),
    h 3 (by decide), h 4 (by decide), h 5 (by decide), h 6 (by decide), h 7 (by decide),
    checked_bind_some, checked_pure]
  rfl

theorem decode_triangle_setup_checked_none (c : Consts) (setup : TriangleSetup)
    (words : WindowWords) (copy : Bool) (h : words 7 = none) :
    decode_triangle_setup_checked c setup words copy = none := by
  simp only [decode_triangle_setup_checked, h, checked_bind_none, checked_bind_const_none]

theorem decode_z_setup_checked_some (attr : AttributeSetup)
    (words : WindowWords) (W : Words) (h : ∀ i, i < 4 → words i = some (W i)) :
    decode_z_setup_checked attr words = some (decode_z_setup attr W) := by
  simp only [decode_z_setup_checked, h 0 (by decide), h 1 (by decide), h 2 (by decide),
    h 3 (by decide), checked_bind_some, checked_pure]
  rfl

theorem decode_z_setup_checked_none (attr : AttributeSetup)
    (words : WindowWords) (h : words 3 = none) :
    decode_z_setup_checked attr words = none := by
  simp only [decode_z_setup_checked, h, checked_bind_none, checked_bind_const_none]

theorem decode_rgba_setup_checked_some (attr : AttributeSetup)
    (words : WindowWords) (W : Words) (h : ∀ i, i < 16 → words i = some (W i)) :
    decode_rgba_setup_checked attr words = some (decode_rgba_setup attr W) := by
  simp only [decode_rgba_setup_checked, h 0 (by decide), h 1 (by decide), h 2 (by decide),
    h 3 (by decide), h 4 (by decide), h 5 (by decide), h 6 (by decide), h 7 (by decide),
    h 8 (by decide), h 9 (by decide), h 10 (by decide), h 11 (by decide), h 12 (by decide),
    h 13 (by decide), h 14 (by decide), h 15 (by decide), checked_bind_some, checked_pure]
  rfl

theorem decode_rgba_setup_checked_none (attr : AttributeSetup)
    (words : WindowWords) (h : words 15 = none) :
    decode_rgba_setup_checked attr words = none := by
  simp only [decode_rgba_setup_checked, h, checked_bind_none, checked_bind_const_none]

theorem decode_tex_setup_checked_some (attr : AttributeSetup)
    (words : WindowWords) (W : Words) (h : ∀ i, i < 16 → words i = some (W i)) :
    decode_tex_setup_checked attr words = some (decode_tex_setup attr W) := by
  simp only [decode_tex_setup_checked, h 0 (by decide), h 1 (by decide), h 2 (by decide),
    h 3 (by decide), h 4 (by decide), h 5 (by decide), h 6 (by decide), h 7 (by decide),
    h 8 (by decide), h 9 (by decide), h 10 (by decide), h 11 (by decide), h 12 (by decide),
    h 13 (by decide), h 14 (by decide), h 15 (by decide), checked_bind_some, checked_pure]
  rfl

theorem decode_tex_setup_checked_none (attr : AttributeSetup)
    (words : WindowWords) (h : words 15 = none) :
    decode_tex_setup_checked attr words = none := by
  simp only [decode_tex_setup_checked, h, checked_bind_none, checked_bind_const_none]

theorem shift_window_some (words : WindowWords) (W : Words) (n k m : Nat)
    (h : ∀ i, i < n → words i = some (W i)) (hk : k + m ≤ n) :
    ∀ i, i < m → shift_window words k i = some (shift W k i) :=
  fun i hi => h (k + i) (by omega)

theorem op_fill_triangle_checked_some (c : Consts) (p : CommandProcessor) (words : WindowWords)
    (W : Words) (h : ∀ i, i < 8 → words i = some (W i)) :
    op_fill_triangle_checked c p words = some (op_fill_triangle c p W) := by
  simp only [op_fill_triangle_checked, decode_triangle_setup_checked_some c _ words W _ h,
    checked_bind_some, checked_pure]
  rfl

theorem op_fill_z_buffer_triangle_checked_some (c : Consts) (p : CommandProcessor)
    (words : WindowWords) (W : Words) (h : ∀ i, i < 12 → words i = some (W i)) :
    op_fill_z_buffer_triangle_checked c p words = some (op_fill_z_buffer_triangle c p W) := by
  simp only [op_fill_z_buffer_triangle_checked,
    decode_triangle_setup_checked_some c _ words W _ (fun i hi => h i (by omega)),
    decode_z_setup_checked_some _ _ _ (shift_window_some words W 12 8 4 h (by decide)),
    checked_bind_some, checked_pure]
  rfl

theorem op_texture_triangle_checked_some (c : Consts) (p : CommandProcessor)
    (words : WindowWords) (W : Words) (h : ∀ i, i < 24 → words i = some (W i)) :
    op_texture_triangle_checked c p words = some (op_texture_triangle c p W) := by
  simp only [op_texture_triangle_checked,
    decode_triangle_setup_checked_some c _ words W _ (fun i hi => h i (by omega)),
    decode_tex_setup_checked_some _ _ _ (shift_window_some words W 24 8 16 h (by decide)),
    checked_bind_some, checked_pure]
  rfl

theorem op_texture_z_buffer_triangle_checked_some (c : Consts) (p : CommandProcessor)
    (words : WindowWords) (W : Words) (h : ∀ i, i < 28 → words i = some (W i)) :
    op_texture_z_buffer_triangle_checked c p words =
      some (op_texture_z_buffer_triangle c p W) := by
  simp only [op_texture_z_buffer_triangle_checked,
    decode_triangle_setup_checked_some c _ words W _ (fun i hi => h i (by omega)),
    decode_tex_setup_checked_some _ _ _ (shift_window_some words W 28 8 16 h (by decide)),
    decode_z_setup_checked_some _ _ _ (shift_window_some words W 28 24 4 h (by decide)),
    checked_bind_some, checked_pure]
  rfl

theorem op_shade_triangle_checked_some (c : Consts) (p : CommandProcessor)
    (words : WindowWords) (W : Words) (h : ∀ i, i < 24 → words i = some (W i)) :
    op_shade_triangle_checked c p words = some (op_shade_triangle c p W) := by
  simp only [op_shade_triangle_checked,
    decode_triangle_setup_checked_some c _ words W _ (fun i hi => h i (by omega)),
    decode_rgba_setup_checked_some _ _ _ (shift_window_some words W 24 8 16 h (by decide)),
    checked_bind_some, checked_pure]
  rfl

theorem op_shade_z_buffer_triangle_checked_some (c : Consts) (p : CommandProcessor)
    (words : WindowWords) (W : Words) (h : ∀ i, i < 28 → words i = some (W i)) :
    op_shade_z_buffer_triangle_checked c p words = some (op_shade_z_buffer_triangle c p W) := by
  simp only [op_shade_z_buffer_triangle_checked,
    decode_triangle_setup_checked_some c _ words W _ (fun i hi => h i (by omega)),
    decode_rgba_setup_checked_some _ _ _ (shift_window_some words W 28 8 16 h (by decide)),
    decode_z_setup_checked_some _ _ _ (shift_window_some words W 28 24 4 h (by decide)),
    checked_bind_some, checked_pure]
  rfl

theorem op_shade_texture_triangle_checked_some (c : Consts) (p : CommandProcessor)
    (words : WindowWords) (W : Words) (h : ∀ i, i < 40 → words i = some (W i)) :
    op_shade_texture_triangle_checked c p words = some (op_shade_texture_triangle c p W) := by
  simp only [op_shade_texture_triangle_checked,
    decode_triangle_setup_checked_some c _ words W _ (fun i hi => h i (by omega)),
    decode_rgba_setup_checked_some _ _ _ (shift_window_some words W 40 8 16 h (by decide)),
    decode_tex_setup_checked_some _ _ _ (shift_window_some words W 40 24 16 h (by decide)),
    checked_bind_some, checked_pure]
  rfl

theorem op_shade_texture_z_buffer_triangle_checked_some (c : Consts) (p : CommandProcessor)
    (words : WindowWords) (W : Words) (h : ∀ i, i < 44 → words i = some (W i)) :
    op_shade_texture_z_buffer_triangle_checked c p words =
      some (op_shade_texture_z_buffer_triangle c p W) := by
  simp only [op_shade_texture_z_buffer_triangle_checked,
    decode_triangle_setup_checked_some c _ words W _ (fun i hi => h i (by omega)),
    decode_rgba_setup_checked_some _ _ _ (shift_window_some words W 44 8 16 h (by decide)),
    decode_tex_setup_checked_some _ _ _ (shift_window_some words W 44 24 16 h (by decide)),
    decode_z_setup_checked_some _ _ _ (shift_window_some words W 44 40 4 h (by decide)),
    checked_bind_some, checked_pure]
  rfl

theorem op_fill_triangle_checked_none (c : Consts) (p : CommandProcessor) (words : WindowWords)
    (h : words 7 = none) : op_fill_triangle_checked c p words = none := by
  simp only [op_fill_triangle_checked, decode_triangle_setup_checked_none c _ words _ h,
    checked_bind_none]

theorem op_fill_z_buffer_triangle_checked_none (c : Consts) (p : CommandProcessor)
    (words : WindowWords) (h : words 11 = none) :
    op_fill_z_buffer_triangle_checked c p words = none := by
  have hz : ∀ attr, decode_z_setup_checked attr (shift_window words 8) = none :=
    fun attr => decode_z_setup_checked_none attr _ h
  simp only [op_fill_z_buffer_triangle_checked, hz, checked_bind_none, checked_bind_const_none]

theorem op_texture_triangle_checked_none (c : Consts) (p : CommandProcessor)
    (words : WindowWords) (h : words 23 = none) :
    op_texture_triangle_checked c p words = none := by
  have ht : ∀ attr, decode_tex_setup_checked attr (shift_window words 8) = none :=
    fun attr => decode_tex_setup_checked_none attr _ h
  simp only [op_texture_triangle_checked, ht, checked_bind_none, checked_bind_const_none]

theorem op_texture_z_buffer_triangle_checked_none (c : Consts) (p : CommandProcessor)
    (words : WindowWords) (h : words 27 = none) :
    op_texture_z_buffer_triangle_checked c p words = none := by
  have hz : ∀ attr, decode_z_setup_checked attr (shift_window words 24) = none :=
    fun attr => decode_z_setup_checked_none attr _ h
  simp only [op_texture_z_buffer_triangle_checked, hz, checked_bind_none,
    checked_bind_const_none]

theorem op_shade_triangle_checked_none (c : Consts) (p : CommandProcessor)
    (words : WindowWords) (h : words 23 = none) :
    op_shade_triangle_checked c p words = none := by
  have hr : ∀ attr, decode_rgba_setup_checked attr (shift_window words 8) = none :=
    fun attr => decode_rgba_setup_checked_none attr _ h
  simp only [op_shade_triangle_checked, hr, checked_bind_none, checked_bind_const_none]

theorem op_shade_z_buffer_triangle_checked_none (c : Consts) (p : CommandProcessor)
    (words : WindowWords) (h : words 27 = none) :
    op_shade_z_buffer_triangle_checked c p words = none := by
  have hz : ∀ attr, decode_z_setup_checked attr (shift_window words 24) = none :=
    fun attr => decode_z_setup_checked_none attr _ h
  simp only [op_shade_z_buffer_triangle_checked, hz, checked_bind_none,
    checked_bind_const_none]

theorem op_shade_texture_triangle_checked_none (c : Consts) (p : CommandProcessor)
    (words : WindowWords) (h : words 39 = none) :
    op_shade_texture_triangle_checked c p words = none := by
  have ht : ∀ attr, decode_tex_setup_checked attr (shift_window words 24) = none :=
    fun attr => decode_tex_setup_checked_none attr _ h
  simp only [op_shade_texture_triangle_checked, ht, checked_bind_none,
    checked_bind_const_none]

theorem op_shade_texture_z_buffer_triangle_checked_none (c : Consts) (p : CommandProcessor)
    (words : WindowWords) (h : words 43 = none) :
    op_shade_texture_z_buffer_triangle_checked c p words = none := by
  have hz : ∀ attr, decode_z_setup_checked attr (shift_window words 40) = none :=
    fun attr => decode_z_setup_checked_none attr _ h
  simp only [op_shade_texture_z_buffer_triangle_checked, hz, checked_bind_none,
    checked_bind_const_none]

/-- The attribute blocks that a triangle command does not have stay zero. -/
theorem triangle_absent_blocks (k : Nat) (W : Words) :
    (k.testBit 2 = false → colourAttributes (triangleAttributes k W) = List.replicate 16 0) ∧
    (k.testBit 1 = false → textureAttributes (triangleAttributes k W) = List.replicate 12 0) ∧
    (k.testBit 0 = false → depthAttributes (triangleAttributes k W) = List.replicate 4 0) := by
  unfold triangleAttributes
  refine ⟨?_, ?_, ?_⟩ <;> intro h <;> simp only [h] <;>
    cases k.testBit 0 <;> cases k.testBit 1 <;> cases k.testBit 2 <;> rfl

theorem triangleLength_le (k : Nat) : triangleLength k ≤ 44 := by
  unfold triangleLength
  cases k.testBit 0 <;> cases k.testBit 1 <;> cases k.testBit 2 <;> decide

/-! ## Signal-timeline commands with any payload -/

/-- Dispatching signal-timeline commands pushes their payload values, in order, and leaves the
state. -/
theorem signal_commands_pushed (c : Consts) (cmds : List (Nat × Words)) :
    ∀ p : CommandProcessor, (∀ cmd ∈ cmds, opcode cmd.2 = c.Op_MetaSignalTimeline) →
      dispatch_all c p cmds =
        (p, (cmds.map (fun cmd => payload cmd.2)).flatMap
          (fun t => [Effect.flush_and_signal, Effect.timeline_worker_push t])) := by
  induction cmds with
  | nil => intro p _; rfl
  | cons cmd rest ih =>
    intro p h
    have h1 := (meta_opcodes_dispatch c p cmd.1 cmd.2).1 (h cmd (List.mem_cons_self _ _))
    have h2 := ih p (fun x hx => h x (List.mem_cons_of_mem _ hx))
    simp only [dispatch_all, h1, h2, List.map_cons, List.flatMap_cons, payload]

theorem signal_commands_trace (c : Consts) (p : CommandProcessor) (value : Nat)
    (cmds : List (Nat × Words))
    (h : ∀ cmd ∈ cmds, opcode cmd.2 = c.Op_MetaSignalTimeline) :
    worker_trace value (pushed (dispatch_all c p cmds).2) =
      cmds.map (fun cmd => payload cmd.2) := by
  rw [worker_trace_eq, signal_commands_pushed c cmds p h, pushed_signals]

/-! ## Sign of the decoded slope -/

theorem clearBit0_neg_iff (v : Int) : clearBit0 v < 0 ↔ v < 0 := by
  unfold clearBit0
  omega

theorem twosComplement_neg_iff (N field : Nat) (h : field < 2 ^ N) :
    twosComplement N field < 0 ↔ field.testBit (N - 1) = true := by
  unfold twosComplement
  have h' : (field : Int) < 2 ^ N := by exact_mod_cast h
  by_cases hb : field.testBit (N - 1) = true
  · simp only [hb, if_true, iff_true]
    omega
  · simp only [hb, if_false, iff_false, Bool.false_eq_true]
    omega

/-- The decoded slope `dxhdy` is negative exactly when bit 29 of word 5 is set. -/
theorem dxhdy_neg_iff (c : Consts) (setup : TriangleSetup) (W : Words) (copy : Bool) :
    (decode_triangle_setup c setup W copy).dxhdy < 0 ↔ (W 5).testBit 29 = true := by
  have e : (decode_triangle_setup c setup W copy).dxhdy =
      clearBit0 (twosComplement 28 ((W 5 >>> 2) &&& 0xfffffff)) := by
    simp only [decode_triangle_setup, land_not_one, sext28_i32]
  have hlt : (W 5 >>> 2) &&& 0xfffffff < 2 ^ 28 :=
    lt_of_le_of_lt Nat.and_le_right (by decide)
  rw [e, clearBit0_neg_iff, twosComplement_neg_iff _ _ hlt, Nat.testBit_and,
    Nat.testBit_shiftRight]
  have h27 : (0xfffffff : Nat).testBit (28 - 1) = true := by decide
  rw [h27, Bool.and_true]

/-! ## The colour image command -/

theorem and_three_lt (x : Nat) : x &&& 3 < 4 :=
  lt_of_le_of_lt Nat.and_le_right (by decide)

/-- The `switch` of `op_set_color_image` by the value of the size field. -/
theorem set_color_image_cases (p : CommandProcessor) (W : Words) :
    op_set_color_image p W =
      (p, [Effect.set_color_framebuffer (W 1 &&& 0xffffff) ((W 0 &&& 1023) + 1)
        (if (W 0 >>> 19) &&& 3 = 0 then FBFormat.I4
          else if (W 0 >>> 19) &&& 3 = 1 then FBFormat.I8
          else if (W 0 >>> 19) &&& 3 = 3 then FBFormat.RGBA8888
          else if (W 0 >>> 21) &&& 7 = 0 then FBFormat.RGBA5551 else FBFormat.IA88)]) := by
  have hs := and_three_lt (W 0 >>> 19)
  unfold op_set_color_image
  dsimp only
  generalize (W 0 >>> 19) &&& 3 = size at hs
  interval_cases size
  · rfl
  · rfl
  · by_cases hf : (W 0 >>> 21) &&& 7 = 0 <;> simp [hf]
  · rfl

/-! ## Texture rectangles -/

theorem and_0xffff (w : Nat) : w &&& 0xffff = w % 2 ^ 16 := Nat.and_pow_two_sub_one_eq_mod w 16

theorem and_0xffff_lt (x : Nat) : x &&& 0xffff < 2 ^ 16 :=
  lt_of_le_of_lt Nat.and_le_right (by decide)

theorem sext16_i32 (w : Nat) : sext 16 (i32 w) = twosComplement 16 (w &&& 0xffff) := by
  rw [and_0xffff]
  simp only [sext, i32, int32_t, twosComplement, Nat.testBit_to_div_mod,
    decide_eq_true_eq]
  norm_num
  split_ifs <;> omega

theorem twosComplement16_range (field : Nat) (h : field < 2 ^ 16) :
    -2 ^ 15 ≤ twosComplement 16 field ∧ twosComplement 16 field ≤ 2 ^ 15 - 1 := by
  simp only [twosComplement, Nat.testBit_to_div_mod, decide_eq_true_eq]
  norm_num
  split_ifs <;> omega

/-- The gradient that the texture-rectangle handlers store for a 16-bit field: the field read
as two's complement, times 2048, with no overflow. -/
theorem rect_gradient (x : Nat) :
    shl_i32 (sext 16 (i32 (x &&& 0xffff))) 11 = twosComplement 16 (x &&& 0xffff) * 2048 := by
  have e : x &&& 0xffff &&& 0xffff = x &&& 0xffff := by
    rw [Nat.and_assoc, Nat.and_self]
  have hr := twosComplement16_range _ (and_0xffff_lt x)
  rw [sext16_i32, e]
  generalize twosComplement 16 (x &&& 0xffff) = v at hr
  simp only [shl_i32, int32_t]
  omega

/-- The start value that the texture-rectangle handlers store for a 16-bit field: the field
shifted into the high half of the 32-bit pattern. -/
theorem rect_start (x : Nat) :
    shl_i32 (i32 (x &&& 0xffff)) 16 = int32_t (((x &&& 0xffff : Nat) : Int) * 2 ^ 16) ∧
    bits32 (shl_i32 (i32 (x &&& 0xffff)) 16) = (x &&& 0xffff) * 2 ^ 16 := by
  have h := and_0xffff_lt x
  have e : i32 (x &&& 0xffff) = ((x &&& 0xffff : Nat) : Int) :=
    i32_of_lt _ (lt_trans h (by decide))
  rw [e]
  refine ⟨rfl, ?_⟩
  generalize x &&& 0xffff = y at h
  simp only [shl_i32, int32_t, bits32]
  omega

/-- The flags of the setup of the texture-rectangle handlers. -/
theorem rect_flags (c : Consts) (ht : c.TriangleWF) (p : CommandProcessor) :
    FlagSet (if ((p.static_state.flags &&& c.RASTERIZATION_COPY_BIT) != 0) = true
        then c.TRIANGLE_SETUP_FLIP_BIT ||| c.TRIANGLE_SETUP_SKIP_XFRAC_BIT
        else c.TRIANGLE_SETUP_FLIP_BIT) c.TRIANGLE_SETUP_SKIP_XFRAC_BIT ↔
      FlagSet p.static_state.flags c.RASTERIZATION_COPY_BIT := by
  obtain ⟨hF, hD, hS, hFD, hFS, hDS⟩ := triangle_masks c ht
  by_cases hq : FlagSet p.static_state.flags c.RASTERIZATION_COPY_BIT
  · have hq' : ((p.static_state.flags &&& c.RASTERIZATION_COPY_BIT) != 0) = true := by
      simpa [FlagSet] using hq
    rw [if_pos hq']
    simp only [hq, iff_true]
    exact (flagSet_or _ _ _).2 (Or.inr (flagSet_self _ hS))
  · have hq' : ¬ ((p.static_state.flags &&& c.RASTERIZATION_COPY_BIT) != 0) = true := by
      simpa [FlagSet] using hq
    rw [if_neg hq']
    simp only [hq, iff_false]
    exact not_flagSet_of_disjoint hFS

/-! ## C21: the triangle commands read within their window -/

/-- C21. For each triangle opcode 0x08 + k with k in 0..7, the handler of the table decodes the
8-word edge block, then the 16-word colour block iff bit 2 of k is set, then the 16-word texture
block iff bit 1 is set, then the 4-word depth block iff bit 0 is set, each block starting where
the one before it ends.  On a window of at least 8 + 16*[bit 2] + 16*[bit 1] + 4*[bit 0] words,
which is at most 44, no read is out of bounds and the result is that of the handler on the
words of the window; on a shorter window a read is out of bounds.  Opcode 0x08 forwards the
setup alone; the others forward the setup and the attributes, where the attributes of the
blocks that are absent are zero. -/
theorem triangle_reads_in_window (c : Consts) (k : Nat) (hk : k < 8) :
    triangleLength k ≤ 44 ∧
    ∃ (f : CommandFunc) (g : WindowFunc),
      funcs c (0x08 + k) = some f ∧ funcs_checked c (0x08 + k) = some g ∧
      (∀ (p : CommandProcessor) (window : List Nat), triangleLength k ≤ window.length →
        g p (window_words window) = some (f p (fun i => window.getD i 0))) ∧
      (∀ (p : CommandProcessor) (window : List Nat), window.length < triangleLength k →
        g p (window_words window) = none) ∧
      (∀ (p : CommandProcessor) (W : Words),
        f p W = (p,
          [if k = 0 then
              Effect.draw_flat_primitive (decode_triangle_setup c {} W (copy_cycle c p))
            else
              Effect.draw_shaded_primitive (decode_triangle_setup c {} W (copy_cycle c p))
                (triangleAttributes k W)])) ∧
      (∀ W : Words,
        (k.testBit 2 = false → ∀ x ∈ colourAttributes (triangleAttributes k W), x = 0) ∧
        (k.testBit 1 = false → ∀ x ∈ textureAttributes (triangleAttributes k W), x = 0) ∧
        (k.testBit 0 = false → ∀ x ∈ depthAttributes (triangleAttributes k W), x = 0)) := by
  have hz : ∀ W : Words,
      (k.testBit 2 = false → ∀ x ∈ colourAttributes (triangleAttributes k W), x = 0) ∧
      (k.testBit 1 = false → ∀ x ∈ textureAttributes (triangleAttributes k W), x = 0) ∧
      (k.testBit 0 = false → ∀ x ∈ depthAttributes (triangleAttributes k W), x = 0) := by
    intro W
    obtain ⟨h2, h1, h0⟩ := triangle_absent_blocks k W
    refine ⟨fun h x hx => ?_, fun h x hx => ?_, fun h x hx => ?_⟩
    · rw [h2 h] at hx
      exact List.eq_of_mem_replicate hx
    · rw [h1 h] at hx
      exact List.eq_of_mem_replicate hx
    · rw [h0 h] at hx
      exact List.eq_of_mem_replicate hx
  have hin : ∀ (window : List Nat) (n : Nat), n ≤ window.length →
      ∀ i, i < n → window_words window i = some ((fun i => window.getD i 0) i) :=
    fun window n hn i hi => window_words_some window i (by omega)
  have hout : ∀ (window : List Nat) (n : Nat), window.length < n + 1 →
      window_words window n = none :=
    fun window n hn => window_words_none window n (by omega)
  refine ⟨triangleLength_le k, ?_⟩
  interval_cases k
  · exact ⟨_, _, rfl, rfl,
      fun p window h => op_fill_triangle_checked_some c p _ _ (hin window 8 h),
      fun p window h => op_fill_triangle_checked_none c p _ (hout window 7 h),
      fun _ _ => rfl, hz⟩
  · exact ⟨_, _, rfl, rfl,
      fun p window h => op_fill_z_buffer_triangle_checked_some c p _ _ (hin window 12 h),
      fun p window h => op_fill_z_buffer_triangle_checked_none c p _ (hout window 11 h),
      fun _ _ => rfl, hz⟩
  · exact ⟨_, _, rfl, rfl,
      fun p window h => op_texture_triangle_checked_some c p _ _ (hin window 24 h),
      fun p window h => op_texture_triangle_checked_none c p _ (hout window 23 h),
      fun _ _ => rfl, hz⟩
  · exact ⟨_, _, rfl, rfl,
      fun p window h => op_texture_z_buffer_triangle_checked_some c p _ _ (hin window 28 h),
      fun p window h => op_texture_z_buffer_triangle_checked_none c p _ (hout window 27 h),
      fun _ _ => rfl, hz⟩
  · exact ⟨_, _, rfl, rfl,
      fun p window h => op_shade_triangle_checked_some c p _ _ (hin window 24 h),
      fun p window h => op_shade_triangle_checked_none c p _ (hout window 23 h),
      fun _ _ => rfl, hz⟩
  · exact ⟨_, _, rfl, rfl,
      fun p window h => op_shade_z_buffer_triangle_checked_some c p _ _ (hin window 28 h),
      fun p window h => op_shade_z_buffer_triangle_checked_none c p _ (hout window 27 h),
      fun _ _ => rfl, hz⟩
  · exact ⟨_, _, rfl, rfl,
      fun p window h => op_shade_texture_triangle_checked_some c p _ _ (hin window 40 h),
      fun p window h => op_shade_texture_triangle_checked_none c p _ (hout window 39 h),
      fun _ _ => rfl, hz⟩
  · exact ⟨_, _, rfl, rfl,
      fun p window h =>
        op_shade_texture_z_buffer_triangle_checked_some c p _ _ (hin window 44 h),
      fun p window h =>
        op_shade_texture_z_buffer_triangle_checked_none c p _ (hout window 43 h),
      fun _ _ => rfl, hz⟩

/-- Witness of C21 at k = 5, the shade-z-buffer triangle of 28 words, on the first 28 words of
the sample window. -/
theorem triangle_reads_in_window_witness :
    5 < 8 ∧
      op_shade_z_buffer_triangle_checked sampleConsts sampleState
          (window_words ((List.range 28).map sampleWords)) =
        some (op_shade_z_buffer_triangle sampleConsts sampleState
          (fun i => ((List.range 28).map sampleWords).getD i 0)) := by
  obtain ⟨-, f, g, hf, hg, hin, -⟩ := triangle_reads_in_window sampleConsts 5 (by decide)
  have ef : f = op_shade_z_buffer_triangle sampleConsts := (Option.some.inj hf).symm
  have eg : g = op_shade_z_buffer_triangle_checked sampleConsts := (Option.some.inj hg).symm
  rw [← ef, ← eg]
  exact ⟨by decide, hin sampleState _ (by decide)⟩

/-! ## C23: the published value -/

/-- C23, as stated, fails.  With the signal-timeline opcode at 1, two signal-timeline commands
whose payload words carry 5 and then 3 are dispatched in order and completed in FIFO order: the
worker publishes 5 and then 3, a decrease. -/
theorem published_value_counterexample :
    (∀ cmd ∈ [(3, fun i => [0x01000000, 5, 0].getD i 0),
        ((3 : Nat), (fun i => [0x01000000, 3, 0].getD i 0 : Words))],
      opcode cmd.2 = sampleConsts.Op_MetaSignalTimeline) ∧
    worker_trace 0
        (pushed (dispatch_all sampleConsts sampleState
          [(3, fun i => [0x01000000, 5, 0].getD i 0),
           (3, fun i => [0x01000000, 3, 0].getD i 0)]).2) = [5, 3] ∧
    ¬ List.Chain' (· ≤ ·)
      (worker_trace 0
        (pushed (dispatch_all sampleConsts sampleState
          [(3, fun i => [0x01000000, 5, 0].getD i 0),
           (3, fun i => [0x01000000, 3, 0].getD i 0)]).2)) := by
  have e : worker_trace 0
      (pushed (dispatch_all sampleConsts sampleState
        [(3, fun i => [0x01000000, 5, 0].getD i 0),
         (3, fun i => [0x01000000, 3, 0].getD i 0)]).2) = [5, 3] := by decide
  refine ⟨by decide, e, ?_⟩
  rw [e, List.chain'_pair]
  decide

/-- C23, amended.  For every sequence of signal-timeline commands dispatched in order through
`enqueue_command_direct`, whatever their payload words, whose entries the worker completes in
FIFO order, the value published at each completion is the 64-bit value in the two payload words
of that command.  So the published value does not decrease from one completion to the next
exactly when the payload values do not decrease in the order of dispatch, and it does not when
they do not. -/
theorem published_follows_payloads (c : Consts) (p : CommandProcessor) (value : Nat)
    (cmds : List (Nat × Words))
    (h : ∀ cmd ∈ cmds, opcode cmd.2 = c.Op_MetaSignalTimeline) :
    worker_trace value (pushed (dispatch_all c p cmds).2) =
      cmds.map (fun cmd => payload cmd.2) ∧
    (List.Chain' (· ≤ ·) (worker_trace value (pushed (dispatch_all c p cmds).2)) ↔
      List.Chain' (· ≤ ·) (cmds.map (fun cmd => payload cmd.2))) ∧
    (List.Chain' (· ≤ ·) (cmds.map (fun cmd => payload cmd.2)) →
      List.Chain' (· ≤ ·) (worker_trace value (pushed (dispatch_all c p cmds).2))) := by
  have e := signal_commands_trace c p value cmds h
  refine ⟨e, ?_, ?_⟩
  · rw [e]
  · rw [e]
    exact id

/-- Witness of the amended C23 for two commands whose payloads are 3 and then 2 ^ 32 + 5. -/
theorem published_follows_payloads_witness :
    (∀ cmd ∈ [(3, fun i => [0x01000000, 3, 0].getD i 0),
        ((3 : Nat), (fun i => [0x01000000, 5, 1].getD i 0 : Words))],
      opcode cmd.2 = sampleConsts.Op_MetaSignalTimeline) ∧
    List.Chain' (· ≤ ·)
      (worker_trace 0
        (pushed (dispatch_all sampleConsts sampleState
          [(3, fun i => [0x01000000, 3, 0].getD i 0),
           (3, fun i => [0x01000000, 5, 1].getD i 0)]).2)) :=
  ⟨by decide,
    (published_follows_payloads sampleConsts sampleState 0
      [(3, fun i => [0x01000000, 3, 0].getD i 0), (3, fun i => [0x01000000, 5, 1].getD i 0)]
      (by decide)).2.2
      (by rw [List.map_cons, List.map_cons, List.map_nil, List.chain'_pair]; decide)⟩

/-! ## C24 to C26: the slope sign, the colour image and the texture rectangles -/

/-- C24. For every edge window and a zero-initialised setup, the decoded slope `dxhdy` is
negative exactly when bit 29 of word 5 is set, and the do_offset flag agrees with the decoded
slope, that is do_offset is set iff flip equals (`dxhdy` < 0), exactly when bit 31 and bit 29
of word 5 are equal.  In particular they agree on every window whose word 5 has its bits 31, 30
and 29 equal, a slope that is a sign-extended 28-bit value in bits [29:2]. -/
theorem do_offset_agrees_with_slope (c : Consts) (hc : c.TriangleWF) (W : Words)
    (copy : Bool) :
    ((decode_triangle_setup c {} W copy).dxhdy < 0 ↔ (W 5).testBit 29 = true) ∧
    ((FlagSet (decode_triangle_setup c {} W copy).flags c.TRIANGLE_SETUP_DO_OFFSET_BIT ↔
        (FlagSet (decode_triangle_setup c {} W copy).flags c.TRIANGLE_SETUP_FLIP_BIT ↔
          (decode_triangle_setup c {} W copy).dxhdy < 0)) ↔
      (W 5).testBit 31 = (W 5).testBit 29) ∧
    ((W 5).testBit 31 = (W 5).testBit 30 → (W 5).testBit 30 = (W 5).testBit 29 →
      (FlagSet (decode_triangle_setup c {} W copy).flags c.TRIANGLE_SETUP_DO_OFFSET_BIT ↔
        (FlagSet (decode_triangle_setup c {} W copy).flags c.TRIANGLE_SETUP_FLIP_BIT ↔
          (decode_triangle_setup c {} W copy).dxhdy < 0))) := by
  obtain ⟨hF, hD, hS, hFD, hFS, hDS⟩ := triangle_masks c hc
  have hDF : c.TRIANGLE_SETUP_DO_OFFSET_BIT &&& c.TRIANGLE_SETUP_FLIP_BIT = 0 := by
    rw [Nat.land_comm]; exact hFD
  have hSF : c.TRIANGLE_SETUP_SKIP_XFRAC_BIT &&& c.TRIANGLE_SETUP_FLIP_BIT = 0 := by
    rw [Nat.land_comm]; exact hFS
  have hSD : c.TRIANGLE_SETUP_SKIP_XFRAC_BIT &&& c.TRIANGLE_SETUP_DO_OFFSET_BIT = 0 := by
    rw [Nat.land_comm]; exact hDS
  have hflip : FlagSet (decode_triangle_setup c {} W copy).flags c.TRIANGLE_SETUP_FLIP_BIT ↔
      (W 0).testBit 23 = true := by
    rw [triangle_setup_flags]
    simp only [flagSet_or, flagSet_ite_self _ _ hF, not_flagSet_ite _ hDF,
      not_flagSet_ite _ hSF, not_flagSet_zero, false_or, or_false]
  have hoff : FlagSet (decode_triangle_setup c {} W copy).flags
      c.TRIANGLE_SETUP_DO_OFFSET_BIT ↔ (W 0).testBit 23 = (W 5).testBit 31 := by
    rw [triangle_setup_flags]
    simp only [flagSet_or, flagSet_ite_self _ _ hD, not_flagSet_ite _ hFD,
      not_flagSet_ite _ hSD, not_flagSet_zero, false_or, or_false]
  have hneg := dxhdy_neg_iff c {} W copy
  rw [hflip, hoff, hneg]
  refine ⟨Iff.rfl, ?_, ?_⟩
  · cases (W 0).testBit 23 <;> cases (W 5).testBit 31 <;> cases (W 5).testBit 29 <;> simp
  · intro h1 h2
    rw [h1, h2]
    cases (W 0).testBit 23 <;> cases (W 5).testBit 29 <;> simp

/-- Witness of C24 at the sample constants and the sample window with its word 5 replaced by
0xe0000004, whose bits 31, 30 and 29 are set. -/
theorem do_offset_agrees_with_slope_witness :
    sampleConsts.TriangleWF ∧
      (FlagSet (decode_triangle_setup sampleConsts {}
          (fun i => if i = 5 then 0xe0000004 else sampleWords i) false).flags
          sampleConsts.TRIANGLE_SETUP_DO_OFFSET_BIT ↔
        (FlagSet (decode_triangle_setup sampleConsts {}
            (fun i => if i = 5 then 0xe0000004 else sampleWords i) false).flags
            sampleConsts.TRIANGLE_SETUP_FLIP_BIT ↔
          (decode_triangle_setup sampleConsts {}
            (fun i => if i = 5 then 0xe0000004 else sampleWords i) false).dxhdy < 0)) :=
  ⟨by decide,
    (do_offset_agrees_with_slope sampleConsts (by decide)
      (fun i => if i = 5 then 0xe0000004 else sampleWords i) false).2.2 (by decide) (by decide)⟩

/-- C25. For every state and word pair, `op_set_color_image` does not take the branch that
logs an invalid pixel size: it makes exactly one call, `set_color_framebuffer`, with the
address w1 & 0xffffff, the width (w0 & 1023) + 1, which lies in [1, 1024], and the format I4
when w0[20:19] is 0, I8 when 1, RGBA8888 when 3, and when 2 RGBA5551 if w0[23:21] is 0 and IA88
if it is not; the persistent render state is as it was. -/
theorem color_image_always_forwards (p : CommandProcessor) (W : Words) :
    (op_set_color_image p W).1 = p ∧
    (∃ fbfmt : FBFormat,
      (op_set_color_image p W).2 =
        [Effect.set_color_framebuffer (W 1 &&& 0xffffff) ((W 0 &&& 1023) + 1) fbfmt] ∧
      (bitField (W 0) 19 2 = 0 → fbfmt = FBFormat.I4) ∧
      (bitField (W 0) 19 2 = 1 → fbfmt = FBFormat.I8) ∧
      (bitField (W 0) 19 2 = 3 → fbfmt = FBFormat.RGBA8888) ∧
      (bitField (W 0) 19 2 = 2 → bitField (W 0) 21 3 = 0 → fbfmt = FBFormat.RGBA5551) ∧
      (bitField (W 0) 19 2 = 2 → bitField (W 0) 21 3 ≠ 0 → fbfmt = FBFormat.IA88)) ∧
    (∀ size : Nat, Effect.LOGE size ∉ (op_set_color_image p W).2) ∧
    (1 ≤ (W 0 &&& 1023) + 1 ∧ (W 0 &&& 1023) + 1 ≤ 1024) ∧
    bitField (W 0) 19 2 < 4 := by
  have e2 : bitField (W 0) 19 2 = (W 0 >>> 19) &&& 3 :=
    (Nat.and_pow_two_sub_one_eq_mod _ 2).symm
  have e3 : bitField (W 0) 21 3 = (W 0 >>> 21) &&& 7 :=
    (Nat.and_pow_two_sub_one_eq_mod _ 3).symm
  have hw : W 0 &&& 1023 ≤ 1023 := Nat.and_le_right
  rw [set_color_image_cases, e2, e3]
  refine ⟨rfl, ⟨_, rfl, ?_, ?_, ?_, ?_, ?_⟩, ?_, ⟨by omega, by omega⟩, and_three_lt _⟩
  · intro h
    rw [if_pos h]
  · intro h
    rw [if_neg (by omega), if_pos h]
  · intro h
    rw [if_neg (by omega), if_neg (by omega), if_pos h]
  · intro h hf
    rw [if_neg (by omega), if_neg (by omega), if_neg (by omega), if_pos hf]
  · intro h hf
    rw [if_neg (by omega), if_neg (by omega), if_neg (by omega), if_neg hf]
  · intro size hmem
    simp at hmem

/-- C26. For every state and 4-word texture-rectangle command, with DS the 16-bit two's
complement value of w3[31:16] and DT that of w3[15:0]: `op_texture_rectangle` forwards the
attributes s = w2[31:16] * 2^16 and t = w2[15:0] * 2^16 as 32-bit patterns, dsdx = DS * 2048,
dtde = dtdy = DT * 2048 and zero in every other attribute; `op_texture_rectangle_flip` forwards
the same triangle setup, s and t, with dtdx = DT * 2048, dsde = dsdy = DS * 2048 and zero in
every other attribute.  The products are exact: they lie within 2^26 in absolute value and are
`int32_t` values.  In both the tile is w1[26:24], skip_xfrac is set exactly when the
rasterization flags have COPY set, and the persistent render state is as it was. -/
theorem texture_rectangle_attributes (c : Consts) (ht : c.TriangleWF) (p : CommandProcessor)
    (W : Words) :
    ∃ (setup : TriangleSetup) (s t : Int),
      op_texture_rectangle c p W =
        (p, [Effect.draw_shaded_primitive setup
          { s := s, t := t,
            dsdx := twosComplement 16 (bitField (W 3) 16 16) * 2048,
            dtde := twosComplement 16 (bitField (W 3) 0 16) * 2048,
            dtdy := twosComplement 16 (bitField (W 3) 0 16) * 2048 }]) ∧
      op_texture_rectangle_flip c p W =
        (p, [Effect.draw_shaded_primitive setup
          { s := s, t := t,
            dtdx := twosComplement 16 (bitField (W 3) 0 16) * 2048,
            dsde := twosComplement 16 (bitField (W 3) 16 16) * 2048,
            dsdy := twosComplement 16 (bitField (W 3) 16 16) * 2048 }]) ∧
      (s = int32_t ((bitField (W 2) 16 16 : Int) * 2 ^ 16) ∧
        bits32 s = bitField (W 2) 16 16 * 2 ^ 16) ∧
      (t = int32_t ((bitField (W 2) 0 16 : Int) * 2 ^ 16) ∧
        bits32 t = bitField (W 2) 0 16 * 2 ^ 16) ∧
      (|twosComplement 16 (bitField (W 3) 16 16) * 2048| ≤ 2 ^ 26 ∧
        |twosComplement 16 (bitField (W 3) 0 16) * 2048| ≤ 2 ^ 26) ∧
      (int32_t (twosComplement 16 (bitField (W 3) 16 16) * 2048) =
          twosComplement 16 (bitField (W 3) 16 16) * 2048 ∧
        int32_t (twosComplement 16 (bitField (W 3) 0 16) * 2048) =
          twosComplement 16 (bitField (W 3) 0 16) * 2048) ∧
      setup.tile = bitField (W 1) 24 3 ∧
      (FlagSet setup.flags c.TRIANGLE_SETUP_SKIP_XFRAC_BIT ↔
        FlagSet p.static_state.flags c.RASTERIZATION_COPY_BIT) := by
  have f16 : ∀ x lo : Nat, bitField x lo 16 = (x >>> lo) &&& 0xffff :=
    fun x lo => (Nat.and_pow_two_sub_one_eq_mod _ 16).symm
  have f3 : bitField (W 1) 24 3 = (W 1 >>> 24) &&& 0x7 :=
    (Nat.and_pow_two_sub_one_eq_mod _ 3).symm
  have rS := twosComplement16_range _ (and_0xffff_lt (W 3 >>> 16))
  have rT := twosComplement16_range _ (and_0xffff_lt (W 3 >>> 0))
  rw [f16, f16, f16, f16, f3]
  refine ⟨?setup, shl_i32 (i32 ((W 2 >>> 16) &&& 0xffff)) 16,
    shl_i32 (i32 ((W 2 >>> 0) &&& 0xffff)) 16, ?h1, ?h2, rect_start (W 2 >>> 16),
    rect_start (W 2 >>> 0), ⟨?a1, ?a2⟩, ⟨?b1, ?b2⟩, ?h3, ?h4⟩
  case h1 =>
    simp only [op_texture_rectangle, rect_gradient]
    exact rfl
  case h2 => simp only [op_texture_rectangle_flip, rect_gradient]
  case h3 => rfl
  case h4 => exact rect_flags c ht p
  case a1 =>
    rw [abs_le]
    constructor <;> omega
  case a2 =>
    rw [abs_le]
    constructor <;> omega
  case b1 =>
    simp only [int32_t]
    omega
  case b2 =>
    simp only [int32_t]
    omega

/-- Witness of C26 at the sample constants, state and window. -/
theorem texture_rectangle_attributes_witness :
    sampleConsts.TriangleWF ∧
      ∃ (setup : TriangleSetup) (s t : Int),
        op_texture_rectangle sampleConsts sampleState sampleWords =
          (sampleState, [Effect.draw_shaded_primitive setup
            { s := s, t := t,
              dsdx := twosComplement 16 (bitField (sampleWords 3) 16 16) * 2048,
              dtde := twosComplement 16 (bitField (sampleWords 3) 0 16) * 2048,
              dtdy := twosComplement 16 (bitField (sampleWords 3) 0 16) * 2048 }]) ∧
        setup.tile = bitField (sampleWords 1) 24 3 := by
  obtain ⟨setup, s, t, h⟩ :=
    texture_rectangle_attributes sampleConsts (by decide) sampleState sampleWords
  exact ⟨by decide, setup, s, t, h.1, h.2.2.2.2.2.2.1⟩

end RDP
